import Mathlib

set_option maxRecDepth 100000

/-!
Verification development for the configuration subsystem of the Nematus
neural machine translation system (file `nematus/config.py`).

The Python module is shallowly embedded below:

* Python values that can appear in a configuration namespace are modelled
  by the inductive type `PyValue`.  Python floats are represented as exact
  rationals; the module never performs floating-point arithmetic on them
  (they are only stored, compared with `is not None`, and returned), so
  the representation is faithful for every code path modelled here.
* An `argparse.Namespace` (a configuration instance) is modelled as an
  association list from attribute names to values (`Config`), with
  `getattr` / `setattr` / `delattr` / `hasattr` as list operations.
* Exceptions and `sys.exit` are modelled by the error type `PyErr` in an
  `Except` monad: `assertionError` for failed `assert` statements,
  `systemExit n` for `sys.exit(n)` (always preceded by logging in the
  source), and `typeError` / `valueError` / `indexError` /
  `attributeError` for the corresponding Python runtime errors.
* File I/O (the dictionary files opened by `util.load_dict`) is modelled
  by an environment `Env` mapping a path to the parsed key-to-integer
  mapping, or `none` when opening/parsing the file raises.
-/

/-- A Python value as it can occur in a Nematus configuration namespace. -/
inductive PyValue : Type where
  | none : PyValue
  | bool : Bool → PyValue
  | int : Int → PyValue
  | float : Rat → PyValue
  | str : String → PyValue
  | list : List PyValue → PyValue

/-- A Python exception or process exit, as raised by the config module. -/
inductive PyErr : Type where
  | assertionError : PyErr
  | attributeError : PyErr
  | typeError : PyErr
  | valueError : PyErr
  | indexError : PyErr
  | systemExit : Int → PyErr
  deriving DecidableEq, Repr

/-- A configuration namespace: attribute name to value, first binding wins. -/
abbrev Config : Type := List (String × PyValue)

/-- File system environment for dictionary files: path to parsed
key-to-integer mapping, or `none` when `util.load_dict` raises. -/
abbrev Env : Type := String → Option (List (String × Int))

/-- Python `getattr(config, n)` returning `Option` instead of raising. -/
def getattr : Config → String → Option PyValue
  | [], _ => Option.none
  | (m, v) :: rest, n => if m = n then some v else getattr rest n

/-- Python `hasattr(config, n)`. -/
def hasattr (c : Config) (n : String) : Bool :=
  (getattr c n).isSome

/-- Python `setattr(config, n, v)`: overwrite the binding if present,
otherwise append it. -/
def setattr : Config → String → PyValue → Config
  | [], n, v => [(n, v)]
  | (m, w) :: rest, n, v =>
      if m = n then (m, v) :: rest else (m, w) :: setattr rest n v

/-- Python `delattr(config, n)`: remove the binding. -/
def delattr : Config → String → Config
  | [], _ => []
  | (m, w) :: rest, n =>
      if m = n then rest else (m, w) :: delattr rest n

/-- Python `getattr` raising `AttributeError` when the name is absent. -/
def getAttrE (c : Config) (n : String) : Except PyErr PyValue :=
  match getattr c n with
  | some v => Except.ok v
  | Option.none => Except.error PyErr.attributeError

@[simp] theorem getattr_nil (n : String) : getattr [] n = Option.none := rfl

@[simp] theorem getattr_cons (m : String) (v : PyValue) (rest : Config) (n : String) :
    getattr ((m, v) :: rest) n = if m = n then some v else getattr rest n := rfl

theorem getattr_setattr_self (c : Config) (n : String) (v : PyValue) :
    getattr (setattr c n v) n = some v := by
  induction c with
  | nil => simp [setattr]
  | cons p rest ih =>
      obtain ⟨m, w⟩ := p
      by_cases h : m = n <;> simp [setattr, h, ih]

theorem getattr_setattr_ne (c : Config) (n m : String) (v : PyValue) (h : n ≠ m) :
    getattr (setattr c n v) m = getattr c m := by
  induction c with
  | nil => simp [setattr, h]
  | cons p rest ih =>
      obtain ⟨k, w⟩ := p
      by_cases hk : k = n
      · subst hk; simp [setattr, h]
      · simp [setattr, hk, ih]

/-- Overwriting an attribute with the value it already holds is a no-op. -/
theorem setattr_self (c : Config) (n : String) (v : PyValue)
    (h : getattr c n = some v) : setattr c n v = c := by
  induction c with
  | nil => simp [getattr] at h
  | cons p rest ih =>
      obtain ⟨m, w⟩ := p
      by_cases hm : m = n
      · subst hm
        simp [getattr] at h
        simp [setattr, h]
      · simp [getattr, hm] at h
        simp [setattr, hm, ih h]

/-! ## Python value semantics used by the module -/

/-- Python truthiness, for the values that occur in a configuration. -/
def pyTruthy : PyValue → Bool
  | PyValue.none => false
  | PyValue.bool b => b
  | PyValue.int n => n != 0
  | PyValue.float q => q != 0
  | PyValue.str s => s ≠ ""
  | PyValue.list l => ¬ l.isEmpty

/-- Python `v is None`. -/
def PyValue.isNone : PyValue → Bool
  | PyValue.none => true
  | _ => false

/-- Python `==` for the comparisons the module performs (`int` and `float`
compare numerically, as in Python; values of different kinds compare
unequal on every path the module exercises). -/
def pyEq : PyValue → PyValue → Bool
  | PyValue.none, PyValue.none => true
  | PyValue.bool a, PyValue.bool b => a == b
  | PyValue.int a, PyValue.int b => a == b
  | PyValue.float a, PyValue.float b => a == b
  | PyValue.int a, PyValue.float b => (a : Rat) == b
  | PyValue.float a, PyValue.int b => a == (b : Rat)
  | PyValue.str a, PyValue.str b => a == b
  | _, _ => false

/-- Extract an `int`; any other operand of an arithmetic comparison or
index computation is modelled as a `TypeError` (no such path is exercised
by a well-typed configuration). -/
def asInt : PyValue → Except PyErr Int
  | PyValue.int n => Except.ok n
  | _ => Except.error PyErr.typeError

/-- Python `len`. -/
def pyLen : PyValue → Except PyErr Int
  | PyValue.list l => Except.ok (l.length : Int)
  | PyValue.str s => Except.ok (s.length : Int)
  | _ => Except.error PyErr.typeError

/-- Python `sum` over a list of ints (starts from 0, adds left to right). -/
def pySum : List PyValue → Except PyErr Int
  | [] => Except.ok 0
  | v :: rest => do
      let n ← asInt v
      let m ← pySum rest
      Except.ok (n + m)

/-- Python list indexing `l[i]` for a non-negative index. -/
def pyIndex (l : List PyValue) (i : Nat) : Except PyErr PyValue :=
  match l.get? i with
  | some v => Except.ok v
  | Option.none => Except.error PyErr.indexError

/-- Python list indexing `l[-1]`. -/
def pyLast (l : List PyValue) : Except PyErr PyValue :=
  match l.getLast? with
  | some v => Except.ok v
  | Option.none => Except.error PyErr.indexError

/-- Python indexing `v[i]` on a configuration value (lists only). -/
def pyIndexV (v : PyValue) (i : Nat) : Except PyErr PyValue :=
  match v with
  | PyValue.list l => pyIndex l i
  | _ => Except.error PyErr.typeError

/-- Python `x * n` list replication (non-positive `n` gives `[]`). -/
def pyRepeat (x : PyValue) (n : Int) : List PyValue :=
  List.replicate n.toNat x

/-- Maximum of a non-empty list of ints (`max(d.values())`). -/
def maxValues (x : Int) (xs : List Int) : Int :=
  xs.foldl max x

/-! ## Load-context metadata and derivation functions

`MetaNS` models the transient `meta_config` namespace: `from_cmdline` and
`from_theano`.  Each derivation function is translated directly from the
corresponding `_derive_*` function of the source; `Env` threads the
dictionary-file contents needed by the vocabulary-size derivations. -/

/-- The `meta_config` namespace of load-context metadata. -/
structure MetaNS : Type where
  from_cmdline : Bool
  from_theano : Bool
  deriving DecidableEq, Repr

/-- The type of a `derivation_func`. -/
abbrev DFn : Type := Env → Config → MetaNS → Except PyErr PyValue

/-- Source `_determine_vocab_size_from_file`: any failure of
`util.load_dict` (IOError or parse error) is logged and exits with status
1; on success Python computes `max(d.values()) + 1`, which lies outside
the `try` block and raises an uncaught `ValueError` when the mapping is
empty. Passing a non-string path makes `util.load_dict` raise, which the
bare `except` also turns into exit status 1. -/
def determine_vocab_size_from_file (env : Env) (path : PyValue) : Except PyErr Int :=
  match path with
  | PyValue.str s =>
      match env s with
      | Option.none => Except.error (PyErr.systemExit 1)
      | some [] => Except.error PyErr.valueError
      | some ((_, v) :: rest) => Except.ok (maxValues v (rest.map Prod.snd) + 1)
  | _ => Except.error (PyErr.systemExit 1)

/-- Source `_derive_model_version`. -/
def derive_model_version : DFn := fun _ c meta => do
  if meta.from_cmdline then
    Except.ok (PyValue.float (1/5))
  else do
    let v ← getAttrE c "model_version"
    if v.isNone then
      if meta.from_theano then do
        let u ← getAttrE c "use_dropout"
        if pyTruthy u then
          Except.error (PyErr.systemExit 1)
        else
          Except.ok (PyValue.float (1/10))
      else
        Except.ok (PyValue.float (1/10))
    else
      Except.ok v

/-- The `lambda _, meta_config: meta_config.from_theano` stored for
`theano_compat`. -/
def derive_theano_compat : DFn := fun _ _ meta =>
  Except.ok (PyValue.bool meta.from_theano)

/-- The `lambda config, _: config.dictionaries[:-1]` stored for
`source_dicts`. -/
def derive_source_dicts : DFn := fun _ c _ => do
  let d ← getAttrE c "dictionaries"
  match d with
  | PyValue.list l => Except.ok (PyValue.list l.dropLast)
  | _ => Except.error PyErr.typeError

/-- The `lambda config, _: config.dictionaries[-1]` stored for
`target_dict`. -/
def derive_target_dict : DFn := fun _ c _ => do
  let d ← getAttrE c "dictionaries"
  match d with
  | PyValue.list l => pyLast l
  | _ => Except.error PyErr.typeError

/-- Source `_derive_target_embedding_size`. -/
def derive_target_embedding_size : DFn := fun _ c _ => do
  if ¬ hasattr c "embedding_size" then
    Except.error PyErr.assertionError
  else do
    let t ← getAttrE c "tie_encoder_decoder_embeddings"
    if ¬ pyTruthy t then
      getAttrE c "embedding_size"
    else do
      let f ← asInt (← getAttrE c "factors")
      if f > 1 then
        if ¬ hasattr c "dim_per_factor" then
          Except.error PyErr.assertionError
        else do
          let d ← getAttrE c "dim_per_factor"
          if d.isNone then
            Except.error PyErr.assertionError
          else
            pyIndexV d 0
      else
        getAttrE c "embedding_size"

/-- Source `_derive_source_dataset`. -/
def derive_source_dataset : DFn := fun _ c _ => do
  let v ← getAttrE c "source_dataset"
  if ¬ v.isNone then
    Except.ok v
  else do
    let d ← getAttrE c "datasets"
    if d.isNone then
      Except.error PyErr.assertionError
    else
      pyIndexV d 0

/-- Source `_derive_target_dataset`. -/
def derive_target_dataset : DFn := fun _ c _ => do
  let v ← getAttrE c "target_dataset"
  if ¬ v.isNone then
    Except.ok v
  else do
    let d ← getAttrE c "datasets"
    if d.isNone then
      Except.error PyErr.assertionError
    else
      pyIndexV d 1

/-- The back-fill loop at the end of `_derive_source_vocab_sizes`: for
every entry that is `< 0`, replace it by the size determined from the
dictionary file `config.dictionaries[i]`. -/
def fillVocabSizes (env : Env) (c : Config) : List PyValue → Nat → Except PyErr (List PyValue)
  | [], _ => Except.ok []
  | v :: rest, i => do
      let n ← asInt v
      let v' ←
        if n ≥ 0 then
          Except.ok v
        else do
          let ds ← getAttrE c "dictionaries"
          let path ← pyIndexV ds i
          let sz ← determine_vocab_size_from_file env path
          Except.ok (PyValue.int sz)
      let rest' ← fillVocabSizes env c rest (i + 1)
      Except.ok (v' :: rest')

/-- Source `_derive_source_vocab_sizes`. -/
def derive_source_vocab_sizes : DFn := fun env c meta => do
  let svs ← getAttrE c "source_vocab_sizes"
  if ¬ svs.isNone then do
    let l ← pyLen svs
    let f ← asInt (← getAttrE c "factors")
    if l = f then
      Except.ok svs
    else do
      if ¬ meta.from_cmdline then Except.error PyErr.assertionError
      else if ¬ (l < f) then Except.error PyErr.assertionError
      else do
        match svs with
        | PyValue.list sl => do
            let filled ← fillVocabSizes env c (sl ++ pyRepeat (PyValue.int (-1)) (f - l)) 0
            Except.ok (PyValue.list filled)
        | _ => Except.error PyErr.typeError
  else if hasattr c "n_words_src" then do
    if meta.from_cmdline then Except.error PyErr.assertionError
    else if ¬ meta.from_theano then Except.error PyErr.assertionError
    else do
      let n ← getAttrE c "n_words_src"
      match n with
      | PyValue.int _ => do
          let f ← asInt (← getAttrE c "factors")
          Except.ok (PyValue.list (pyRepeat n f))
      | _ => Except.error PyErr.assertionError
  else if hasattr c "source_vocab_size" then do
    if meta.from_cmdline then Except.error PyErr.assertionError
    else if meta.from_theano then Except.error PyErr.assertionError
    else do
      let f ← getAttrE c "factors"
      if ¬ pyEq f (PyValue.int 1) then Except.error PyErr.assertionError
      else do
        let v ← getAttrE c "source_vocab_size"
        Except.ok (PyValue.list [v])
  else do
    if ¬ meta.from_cmdline then Except.error PyErr.assertionError
    else do
      let f ← asInt (← getAttrE c "factors")
      let filled ← fillVocabSizes env c (pyRepeat (PyValue.int (-1)) f) 0
      Except.ok (PyValue.list filled)

/-- Source `_derive_target_vocab_size`. -/
def derive_target_vocab_size : DFn := fun env c _ => do
  let v ← getAttrE c "target_vocab_size"
  if ¬ pyEq v (PyValue.int (-1)) then
    Except.ok v
  else do
    let ds ← getAttrE c "dictionaries"
    let path ←
      match ds with
      | PyValue.list l => pyLast l
      | _ => Except.error PyErr.typeError
    let sz ← determine_vocab_size_from_file env path
    Except.ok (PyValue.int sz)

/-- Source `_derive_dim_per_factor`. -/
def derive_dim_per_factor : DFn := fun _ c _ => do
  let v ← getAttrE c "dim_per_factor"
  if ¬ v.isNone then
    Except.ok v
  else do
    let f ← getAttrE c "factors"
    if ¬ pyEq f (PyValue.int 1) then Except.error PyErr.assertionError
    else do
      let e ← getAttrE c "embedding_size"
      Except.ok (PyValue.list [e])

/-- Source `_derive_dropout_embedding`. -/
def derive_dropout_embedding : DFn := fun _ c meta => do
  let v ← getAttrE c "dropout_embedding"
  if ¬ v.isNone then
    Except.ok v
  else
    Except.ok (PyValue.float (if meta.from_cmdline then 1/5 else 0))

/-- Source `_derive_dropout_hidden`. -/
def derive_dropout_hidden : DFn := fun _ c meta => do
  let v ← getAttrE c "dropout_hidden"
  if ¬ v.isNone then
    Except.ok v
  else
    Except.ok (PyValue.float (if meta.from_cmdline then 1/5 else 0))

/-- Source `_derive_valid_source_dataset`. -/
def derive_valid_source_dataset : DFn := fun _ c _ => do
  let v ← getAttrE c "valid_source_dataset"
  if ¬ v.isNone then
    Except.ok v
  else do
    let d ← getAttrE c "valid_datasets"
    if d.isNone then
      Except.error PyErr.assertionError
    else
      pyIndexV d 0

/-- Source `_derive_valid_target_dataset`. -/
def derive_valid_target_dataset : DFn := fun _ c _ => do
  let v ← getAttrE c "valid_target_dataset"
  if ¬ v.isNone then
    Except.ok v
  else do
    let d ← getAttrE c "valid_datasets"
    if d.isNone then
      Except.error PyErr.assertionError
    else
      pyIndexV d 1

/-! ## The parameter specification table

`ParameterSpecification` keeps the semantically relevant argparse
arguments: `argType` models `type`, `nargs`, `action` and `choices`
combined; `required` models `required=True`.  Presentation-only arguments
(`help`, `metavar`) are elided.  A parameter with no command-line
arguments has `argType := Option.none`. -/

/-- The shape of value a command-line argument accepts, combining the
`type`, `nargs`, `action` and `choices` argparse arguments. -/
inductive ArgType : Type where
  | int : ArgType
  | float : ArgType
  | str : ArgType
  | strChoices : List String → ArgType
  | listStr2 : ArgType
  | listStrPlus : ArgType
  | listIntPlus : ArgType
  | flagTrue : ArgType
  | flagFalse : ArgType

/-- Does the value have `str` shape? -/
def PyValue.isStr : PyValue → Bool
  | PyValue.str _ => true
  | _ => false

/-- Does the value have `int` shape? -/
def PyValue.isInt : PyValue → Bool
  | PyValue.int _ => true
  | _ => false

/-- Which parsed values argparse can produce for an argument. -/
def typeOk : ArgType → PyValue → Bool
  | ArgType.int, PyValue.int _ => true
  | ArgType.float, PyValue.float _ => true
  | ArgType.str, PyValue.str _ => true
  | ArgType.strChoices cs, PyValue.str s => cs.contains s
  | ArgType.listStr2, PyValue.list l => l.length = 2 && l.all PyValue.isStr
  | ArgType.listStrPlus, PyValue.list l => ¬ l.isEmpty && l.all PyValue.isStr
  | ArgType.listIntPlus, PyValue.list l => ¬ l.isEmpty && l.all PyValue.isInt
  | ArgType.flagTrue, PyValue.bool b => b
  | ArgType.flagFalse, PyValue.bool b => ¬ b
  | _, _ => false

/-- Describes one Nematus configuration parameter. -/
structure ParameterSpecification : Type where
  name : String
  default : PyValue
  legacy_names : List String := []
  visible_arg_names : List String := []
  hidden_arg_names : List String := []
  argType : Option ArgType := Option.none
  required : Bool := false
  derivation_func : Option DFn := Option.none

/-- The `model_version` parameter specification. -/
def ps_model_version : ParameterSpecification :=
  { name := "model_version", default := PyValue.none,
    derivation_func := some derive_model_version }

/-- The `theano_compat` parameter specification. -/
def ps_theano_compat : ParameterSpecification :=
  { name := "theano_compat", default := PyValue.none,
    derivation_func := some derive_theano_compat }

/-- The `source_dicts` parameter specification. -/
def ps_source_dicts : ParameterSpecification :=
  { name := "source_dicts", default := PyValue.none,
    derivation_func := some derive_source_dicts }

/-- The `target_dict` parameter specification. -/
def ps_target_dict : ParameterSpecification :=
  { name := "target_dict", default := PyValue.none,
    derivation_func := some derive_target_dict }

/-- The `target_embedding_size` parameter specification. -/
def ps_target_embedding_size : ParameterSpecification :=
  { name := "target_embedding_size", default := PyValue.none,
    derivation_func := some derive_target_embedding_size }

/-- The `source_dataset` parameter specification. -/
def ps_source_dataset : ParameterSpecification :=
  { name := "source_dataset", default := PyValue.none,
    visible_arg_names := ["--source_dataset"],
    derivation_func := some derive_source_dataset,
    argType := some ArgType.str }

/-- The `target_dataset` parameter specification. -/
def ps_target_dataset : ParameterSpecification :=
  { name := "target_dataset", default := PyValue.none,
    visible_arg_names := ["--target_dataset"],
    derivation_func := some derive_target_dataset,
    argType := some ArgType.str }

/-- The `datasets` parameter specification. -/
def ps_datasets : ParameterSpecification :=
  { name := "datasets", default := PyValue.none,
    hidden_arg_names := ["--datasets"],
    argType := some ArgType.listStr2 }

/-- The `dictionaries` parameter specification. -/
def ps_dictionaries : ParameterSpecification :=
  { name := "dictionaries", default := PyValue.none,
    visible_arg_names := ["--dictionaries"],
    argType := some ArgType.listStrPlus, required := true }

/-- The `saveFreq` parameter specification. -/
def ps_saveFreq : ParameterSpecification :=
  { name := "saveFreq", default := PyValue.int 30000,
    visible_arg_names := ["--saveFreq"],
    argType := some ArgType.int }

/-- The `saveto` parameter specification. -/
def ps_saveto : ParameterSpecification :=
  { name := "saveto", default := PyValue.str "model",
    visible_arg_names := ["--model", "--saveto"],
    argType := some ArgType.str }

/-- The `reload` parameter specification. -/
def ps_reload : ParameterSpecification :=
  { name := "reload", default := PyValue.none,
    visible_arg_names := ["--reload"],
    argType := some ArgType.str }

/-- The `reload_training_progress` parameter specification. -/
def ps_reload_training_progress : ParameterSpecification :=
  { name := "reload_training_progress", default := PyValue.bool true,
    visible_arg_names := ["--no_reload_training_progress"],
    argType := some ArgType.flagFalse }

/-- The `summary_dir` parameter specification. -/
def ps_summary_dir : ParameterSpecification :=
  { name := "summary_dir", default := PyValue.none,
    visible_arg_names := ["--summary_dir"],
    argType := some ArgType.str }

/-- The `summaryFreq` parameter specification. -/
def ps_summaryFreq : ParameterSpecification :=
  { name := "summaryFreq", default := PyValue.int 0,
    visible_arg_names := ["--summaryFreq"],
    argType := some ArgType.int }

/-- The `embedding_size` parameter specification. -/
def ps_embedding_size : ParameterSpecification :=
  { name := "embedding_size", default := PyValue.int 512,
    legacy_names := ["dim_word"],
    visible_arg_names := ["--embedding_size", "--dim_word"],
    argType := some ArgType.int }

/-- The `state_size` parameter specification. -/
def ps_state_size : ParameterSpecification :=
  { name := "state_size", default := PyValue.int 1000,
    legacy_names := ["dim"],
    visible_arg_names := ["--state_size", "--dim"],
    argType := some ArgType.int }

/-- The `source_vocab_sizes` parameter specification. -/
def ps_source_vocab_sizes : ParameterSpecification :=
  { name := "source_vocab_sizes", default := PyValue.none,
    visible_arg_names := ["--source_vocab_sizes", "--n_words_src"],
    derivation_func := some derive_source_vocab_sizes,
    argType := some ArgType.listIntPlus }

/-- The `target_vocab_size` parameter specification. -/
def ps_target_vocab_size : ParameterSpecification :=
  { name := "target_vocab_size", default := PyValue.int (-1),
    legacy_names := ["n_words"],
    visible_arg_names := ["--target_vocab_size", "--n_words"],
    derivation_func := some derive_target_vocab_size,
    argType := some ArgType.int }

/-- The `factors` parameter specification. -/
def ps_factors : ParameterSpecification :=
  { name := "factors", default := PyValue.int 1,
    visible_arg_names := ["--factors"],
    argType := some ArgType.int }

/-- The `dim_per_factor` parameter specification. -/
def ps_dim_per_factor : ParameterSpecification :=
  { name := "dim_per_factor", default := PyValue.none,
    visible_arg_names := ["--dim_per_factor"],
    derivation_func := some derive_dim_per_factor,
    argType := some ArgType.listIntPlus }

/-- The `enc_depth` parameter specification. -/
def ps_enc_depth : ParameterSpecification :=
  { name := "enc_depth", default := PyValue.int 1,
    visible_arg_names := ["--enc_depth"],
    argType := some ArgType.int }

/-- The `enc_recurrence_transition_depth` parameter specification. -/
def ps_enc_recurrence_transition_depth : ParameterSpecification :=
  { name := "enc_recurrence_transition_depth", default := PyValue.int 1,
    visible_arg_names := ["--enc_recurrence_transition_depth"],
    argType := some ArgType.int }

/-- The `dec_depth` parameter specification. -/
def ps_dec_depth : ParameterSpecification :=
  { name := "dec_depth", default := PyValue.int 1,
    visible_arg_names := ["--dec_depth"],
    argType := some ArgType.int }

/-- The `dec_base_recurrence_transition_depth` parameter specification. -/
def ps_dec_base_recurrence_transition_depth : ParameterSpecification :=
  { name := "dec_base_recurrence_transition_depth", default := PyValue.int 2,
    visible_arg_names := ["--dec_base_recurrence_transition_depth"],
    argType := some ArgType.int }

/-- The `dec_high_recurrence_transition_depth` parameter specification. -/
def ps_dec_high_recurrence_transition_depth : ParameterSpecification :=
  { name := "dec_high_recurrence_transition_depth", default := PyValue.int 1,
    visible_arg_names := ["--dec_high_recurrence_transition_depth"],
    argType := some ArgType.int }

/-- The `dec_deep_context` parameter specification. -/
def ps_dec_deep_context : ParameterSpecification :=
  { name := "dec_deep_context", default := PyValue.bool false,
    visible_arg_names := ["--dec_deep_context"],
    argType := some ArgType.flagTrue }

/-- The `use_dropout` parameter specification. -/
def ps_use_dropout : ParameterSpecification :=
  { name := "use_dropout", default := PyValue.bool false,
    visible_arg_names := ["--use_dropout"],
    argType := some ArgType.flagTrue }

/-- The `dropout_embedding` parameter specification. -/
def ps_dropout_embedding : ParameterSpecification :=
  { name := "dropout_embedding", default := PyValue.none,
    visible_arg_names := ["--dropout_embedding"],
    derivation_func := some derive_dropout_embedding,
    argType := some ArgType.float }

/-- The `dropout_hidden` parameter specification. -/
def ps_dropout_hidden : ParameterSpecification :=
  { name := "dropout_hidden", default := PyValue.none,
    visible_arg_names := ["--dropout_hidden"],
    derivation_func := some derive_dropout_hidden,
    argType := some ArgType.float }

/-- The `dropout_source` parameter specification. -/
def ps_dropout_source : ParameterSpecification :=
  { name := "dropout_source", default := PyValue.float 0,
    visible_arg_names := ["--dropout_source"],
    argType := some ArgType.float }

/-- The `dropout_target` parameter specification. -/
def ps_dropout_target : ParameterSpecification :=
  { name := "dropout_target", default := PyValue.float 0,
    visible_arg_names := ["--dropout_target"],
    argType := some ArgType.float }

/-- The `use_layer_norm` parameter specification. -/
def ps_use_layer_norm : ParameterSpecification :=
  { name := "use_layer_norm", default := PyValue.bool false,
    legacy_names := ["layer_normalisation"],
    visible_arg_names := ["--use_layer_norm", "--layer_normalisation"],
    argType := some ArgType.flagTrue }

/-- The `tie_encoder_decoder_embeddings` parameter specification. -/
def ps_tie_encoder_decoder_embeddings : ParameterSpecification :=
  { name := "tie_encoder_decoder_embeddings", default := PyValue.bool false,
    visible_arg_names := ["--tie_encoder_decoder_embeddings"],
    argType := some ArgType.flagTrue }

/-- The `tie_decoder_embeddings` parameter specification. -/
def ps_tie_decoder_embeddings : ParameterSpecification :=
  { name := "tie_decoder_embeddings", default := PyValue.bool false,
    visible_arg_names := ["--tie_decoder_embeddings"],
    argType := some ArgType.flagTrue }

/-- The `output_hidden_activation` parameter specification. -/
def ps_output_hidden_activation : ParameterSpecification :=
  { name := "output_hidden_activation", default := PyValue.str "tanh",
    visible_arg_names := ["--output_hidden_activation"],
    argType := some (ArgType.strChoices ["tanh", "relu", "prelu", "linear"]) }

/-- The `softmax_mixture_size` parameter specification. -/
def ps_softmax_mixture_size : ParameterSpecification :=
  { name := "softmax_mixture_size", default := PyValue.int 1,
    visible_arg_names := ["--softmax_mixture_size"],
    argType := some ArgType.int }

/-- The `maxlen` parameter specification. -/
def ps_maxlen : ParameterSpecification :=
  { name := "maxlen", default := PyValue.int 100,
    visible_arg_names := ["--maxlen"],
    argType := some ArgType.int }

/-- The `batch_size` parameter specification. -/
def ps_batch_size : ParameterSpecification :=
  { name := "batch_size", default := PyValue.int 80,
    visible_arg_names := ["--batch_size"],
    argType := some ArgType.int }

/-- The `token_batch_size` parameter specification. -/
def ps_token_batch_size : ParameterSpecification :=
  { name := "token_batch_size", default := PyValue.int 0,
    visible_arg_names := ["--token_batch_size"],
    argType := some ArgType.int }

/-- The `max_epochs` parameter specification. -/
def ps_max_epochs : ParameterSpecification :=
  { name := "max_epochs", default := PyValue.int 5000,
    visible_arg_names := ["--max_epochs"],
    argType := some ArgType.int }

/-- The `finish_after` parameter specification. -/
def ps_finish_after : ParameterSpecification :=
  { name := "finish_after", default := PyValue.int 10000000,
    visible_arg_names := ["--finish_after"],
    argType := some ArgType.int }

/-- The `decay_c` parameter specification. -/
def ps_decay_c : ParameterSpecification :=
  { name := "decay_c", default := PyValue.float 0,
    visible_arg_names := ["--decay_c"],
    argType := some ArgType.float }

/-- The `map_decay_c` parameter specification. -/
def ps_map_decay_c : ParameterSpecification :=
  { name := "map_decay_c", default := PyValue.float 0,
    visible_arg_names := ["--map_decay_c"],
    argType := some ArgType.float }

/-- The `prior_model` parameter specification. -/
def ps_prior_model : ParameterSpecification :=
  { name := "prior_model", default := PyValue.none,
    visible_arg_names := ["--prior_model"],
    argType := some ArgType.str }

/-- The `clip_c` parameter specification. -/
def ps_clip_c : ParameterSpecification :=
  { name := "clip_c", default := PyValue.float 1,
    visible_arg_names := ["--clip_c"],
    argType := some ArgType.float }

/-- The `label_smoothing` parameter specification. -/
def ps_label_smoothing : ParameterSpecification :=
  { name := "label_smoothing", default := PyValue.float 0,
    visible_arg_names := ["--label_smoothing"],
    argType := some ArgType.float }

/-- The `shuffle_each_epoch` parameter specification. -/
def ps_shuffle_each_epoch : ParameterSpecification :=
  { name := "shuffle_each_epoch", default := PyValue.bool true,
    visible_arg_names := ["--no_shuffle"],
    argType := some ArgType.flagFalse }

/-- The `keep_train_set_in_memory` parameter specification. -/
def ps_keep_train_set_in_memory : ParameterSpecification :=
  { name := "keep_train_set_in_memory", default := PyValue.bool false,
    visible_arg_names := ["--keep_train_set_in_memory"],
    argType := some ArgType.flagTrue }

/-- The `sort_by_length` parameter specification. -/
def ps_sort_by_length : ParameterSpecification :=
  { name := "sort_by_length", default := PyValue.bool true,
    visible_arg_names := ["--no_sort_by_length"],
    argType := some ArgType.flagFalse }

/-- The `maxibatch_size` parameter specification. -/
def ps_maxibatch_size : ParameterSpecification :=
  { name := "maxibatch_size", default := PyValue.int 20,
    visible_arg_names := ["--maxibatch_size"],
    argType := some ArgType.int }

/-- The `optimizer` parameter specification. -/
def ps_optimizer : ParameterSpecification :=
  { name := "optimizer", default := PyValue.str "adam",
    visible_arg_names := ["--optimizer"],
    argType := some (ArgType.strChoices ["adam"]) }

/-- The `learning_rate` parameter specification. -/
def ps_learning_rate : ParameterSpecification :=
  { name := "learning_rate", default := PyValue.float (1/10000),
    legacy_names := ["lrate"],
    visible_arg_names := ["--learning_rate", "--lrate"],
    argType := some ArgType.float }

/-- The `adam_beta1` parameter specification. -/
def ps_adam_beta1 : ParameterSpecification :=
  { name := "adam_beta1", default := PyValue.float (9/10),
    visible_arg_names := ["--adam_beta1"],
    argType := some ArgType.float }

/-- The `adam_beta2` parameter specification. -/
def ps_adam_beta2 : ParameterSpecification :=
  { name := "adam_beta2", default := PyValue.float (999/1000),
    visible_arg_names := ["--adam_beta2"],
    argType := some ArgType.float }

/-- The `adam_epsilon` parameter specification. -/
def ps_adam_epsilon : ParameterSpecification :=
  { name := "adam_epsilon", default := PyValue.float (1/100000000),
    visible_arg_names := ["--adam_epsilon"],
    argType := some ArgType.float }

/-- The `valid_source_dataset` parameter specification. -/
def ps_valid_source_dataset : ParameterSpecification :=
  { name := "valid_source_dataset", default := PyValue.none,
    visible_arg_names := ["--valid_source_dataset"],
    derivation_func := some derive_valid_source_dataset,
    argType := some ArgType.str }

/-- The `valid_target_dataset` parameter specification. -/
def ps_valid_target_dataset : ParameterSpecification :=
  { name := "valid_target_dataset", default := PyValue.none,
    visible_arg_names := ["--valid_target_dataset"],
    derivation_func := some derive_valid_target_dataset,
    argType := some ArgType.str }

/-- The `valid_datasets` parameter specification. -/
def ps_valid_datasets : ParameterSpecification :=
  { name := "valid_datasets", default := PyValue.none,
    hidden_arg_names := ["--valid_datasets"],
    argType := some ArgType.listStr2 }

/-- The `valid_batch_size` parameter specification. -/
def ps_valid_batch_size : ParameterSpecification :=
  { name := "valid_batch_size", default := PyValue.int 80,
    visible_arg_names := ["--valid_batch_size"],
    argType := some ArgType.int }

/-- The `valid_token_batch_size` parameter specification. -/
def ps_valid_token_batch_size : ParameterSpecification :=
  { name := "valid_token_batch_size", default := PyValue.int 0,
    visible_arg_names := ["--valid_token_batch_size"],
    argType := some ArgType.int }

/-- The `validFreq` parameter specification. -/
def ps_validFreq : ParameterSpecification :=
  { name := "validFreq", default := PyValue.int 10000,
    visible_arg_names := ["--validFreq"],
    argType := some ArgType.int }

/-- The `valid_script` parameter specification. -/
def ps_valid_script : ParameterSpecification :=
  { name := "valid_script", default := PyValue.none,
    visible_arg_names := ["--valid_script"],
    argType := some ArgType.str }

/-- The `patience` parameter specification. -/
def ps_patience : ParameterSpecification :=
  { name := "patience", default := PyValue.int 10,
    visible_arg_names := ["--patience"],
    argType := some ArgType.int }

/-- The `dispFreq` parameter specification. -/
def ps_dispFreq : ParameterSpecification :=
  { name := "dispFreq", default := PyValue.int 1000,
    visible_arg_names := ["--dispFreq"],
    argType := some ArgType.int }

/-- The `sampleFreq` parameter specification. -/
def ps_sampleFreq : ParameterSpecification :=
  { name := "sampleFreq", default := PyValue.int 10000,
    visible_arg_names := ["--sampleFreq"],
    argType := some ArgType.int }

/-- The `beamFreq` parameter specification. -/
def ps_beamFreq : ParameterSpecification :=
  { name := "beamFreq", default := PyValue.int 10000,
    visible_arg_names := ["--beamFreq"],
    argType := some ArgType.int }

/-- The `beam_size` parameter specification. -/
def ps_beam_size : ParameterSpecification :=
  { name := "beam_size", default := PyValue.int 12,
    visible_arg_names := ["--beam_size"],
    argType := some ArgType.int }

/-- The `normalize` parameter specification. -/
def ps_normalize : ParameterSpecification :=
  { name := "normalize", default := PyValue.bool true,
    visible_arg_names := ["--no_normalize"],
    argType := some ArgType.flagFalse }

/-- The `n_best` parameter specification. -/
def ps_n_best : ParameterSpecification :=
  { name := "n_best", default := PyValue.bool false,
    visible_arg_names := ["--n_best"],
    argType := some ArgType.flagTrue }

/-- The `translation_maxlen` parameter specification. -/
def ps_translation_maxlen : ParameterSpecification :=
  { name := "translation_maxlen", default := PyValue.int 200,
    visible_arg_names := ["--translation_maxlen"],
    argType := some ArgType.int }

/-- The full parameter table of `ConfigSpecification._define_param_specs`,
as the ordered list of groups. -/
def config_spec_groups : List (String × List ParameterSpecification) :=
  [("", [ps_model_version,
    ps_theano_compat,
    ps_source_dicts,
    ps_target_dict,
    ps_target_embedding_size]),
   ("data", [ps_source_dataset,
    ps_target_dataset,
    ps_datasets,
    ps_dictionaries,
    ps_saveFreq,
    ps_saveto,
    ps_reload,
    ps_reload_training_progress,
    ps_summary_dir,
    ps_summaryFreq]),
   ("network", [ps_embedding_size,
    ps_state_size,
    ps_source_vocab_sizes,
    ps_target_vocab_size,
    ps_factors,
    ps_dim_per_factor,
    ps_enc_depth,
    ps_enc_recurrence_transition_depth,
    ps_dec_depth,
    ps_dec_base_recurrence_transition_depth,
    ps_dec_high_recurrence_transition_depth,
    ps_dec_deep_context,
    ps_use_dropout,
    ps_dropout_embedding,
    ps_dropout_hidden,
    ps_dropout_source,
    ps_dropout_target,
    ps_use_layer_norm,
    ps_tie_encoder_decoder_embeddings,
    ps_tie_decoder_embeddings,
    ps_output_hidden_activation,
    ps_softmax_mixture_size]),
   ("training", [ps_maxlen,
    ps_batch_size,
    ps_token_batch_size,
    ps_max_epochs,
    ps_finish_after,
    ps_decay_c,
    ps_map_decay_c,
    ps_prior_model,
    ps_clip_c,
    ps_label_smoothing,
    ps_shuffle_each_epoch,
    ps_keep_train_set_in_memory,
    ps_sort_by_length,
    ps_maxibatch_size,
    ps_optimizer,
    ps_learning_rate,
    ps_adam_beta1,
    ps_adam_beta2,
    ps_adam_epsilon]),
   ("validation", [ps_valid_source_dataset,
    ps_valid_target_dataset,
    ps_valid_datasets,
    ps_valid_batch_size,
    ps_valid_token_batch_size,
    ps_validFreq,
    ps_valid_script,
    ps_patience]),
   ("display", [ps_dispFreq,
    ps_sampleFreq,
    ps_beamFreq,
    ps_beam_size]),
   ("translate", [ps_normalize,
    ps_n_best,
    ps_translation_maxlen])]

/-- The parameters of all groups, flattened in group order, matching
every `for group in spec.group_names: for param in ...` loop. -/
def allParams : List ParameterSpecification :=
  (config_spec_groups.map Prod.snd).flatten

/-- The declared parameter names, in declaration order. -/
def allParamNames : List String :=
  allParams.map ParameterSpecification.name

/-! ## The specification self-check (`ConfigSpecification._check_self`) -/

/-- One `assert name not in seen; seen.add(name)` step. -/
def addUnique (seen : List String) (n : String) : Option (List String) :=
  if seen.contains n then Option.none else some (n :: seen)

/-- The inner legacy-name loop of the first `_check_self` pass. -/
def addLegacyNames (seen : List String) : List String → Option (List String)
  | [] => some seen
  | n :: ns =>
      match addUnique seen n with
      | Option.none => Option.none
      | some seen' => addLegacyNames seen' ns

/-- First `_check_self` pass: no duplicated parameter or legacy names. -/
def checkParamNames (seen : List String) : List ParameterSpecification → Option (List String)
  | [] => some seen
  | ps :: rest =>
      match addUnique seen ps.name with
      | Option.none => Option.none
      | some seen' =>
          match addLegacyNames seen' ps.legacy_names with
          | Option.none => Option.none
          | some seen'' => checkParamNames seen'' rest

/-- The inner alias loop of the second `_check_self` pass.  This mirrors
the source exactly: after asserting `name not in arg_names` the source
executes `arg_names.add(param.name)` - it adds the PARAMETER name, not
the alias `name` that was just checked. -/
def addArgNames (seen : List String) (paramName : String) : List String → Option (List String)
  | [] => some seen
  | n :: ns =>
      if seen.contains n then Option.none
      else addArgNames (paramName :: seen) paramName ns

/-- Second `_check_self` pass over visible then hidden argument names. -/
def checkArgNames (seen : List String) : List ParameterSpecification → Option (List String)
  | [] => some seen
  | ps :: rest =>
      match addArgNames seen ps.name (ps.visible_arg_names ++ ps.hidden_arg_names) with
      | Option.none => Option.none
      | some seen' => checkArgNames seen' rest

/-- Source `ConfigSpecification._check_self`, as a predicate: `true` when
both assertion passes finish without an `AssertionError`.  Constructing a
`ConfigSpecification` whose groups fail this predicate aborts. -/
def check_self (groups : List (String × List ParameterSpecification)) : Bool :=
  (checkParamNames [] ((groups.map Prod.snd).flatten)).isSome &&
  (checkArgNames [] ((groups.map Prod.snd).flatten)).isSome

/-! ## The command-line reader (`read_config_from_cmdline`)

The argparse layer is modelled at the level of the parsed result: the
command line is given as a finite map from destination parameter name to
parsed value (each parameter's visible and hidden flags share one `dest`,
so a flag name never appears here).  Argparse behaviour that happens
before the module's own code runs is folded into `parse_cmdline_args`:
a value of the wrong shape for its argument (type, nargs, action,
choices), an unknown destination, or a missing required argument makes
argparse terminate the process (modelled as exit status 2). -/

/-- The supplied command-line values, keyed by destination name. -/
abbrev Cmdline : Type := List (String × PyValue)

/-- First supplied value for a destination name. -/
def lookupSupplied (s : Cmdline) (n : String) : Option PyValue :=
  (s.find? (fun nv => nv.1 == n)).map Prod.snd

/-- Look up a parameter specification by name. -/
def findParam (n : String) : Option ParameterSpecification :=
  allParams.find? (fun ps => ps.name == n)

/-- Every supplied value belongs to a command-line parameter and has the
shape its argument declaration accepts. -/
def suppliedOk (s : Cmdline) : Bool :=
  s.all (fun nv =>
    match findParam nv.1 with
    | some ps =>
        match ps.argType with
        | some t => typeOk t nv.2
        | Option.none => false
    | Option.none => false)

/-- Every `required=True` argument was supplied. -/
def requiredOk (s : Cmdline) : Bool :=
  allParams.all (fun ps => !ps.required || (lookupSupplied s ps.name).isSome)

/-- The value a parameter holds after parsing: non-command-line parameters
are seeded with their default; command-line parameters receive the
supplied value, or their default when the flag was not given. -/
def parsedValue (s : Cmdline) (ps : ParameterSpecification) : PyValue :=
  if ps.visible_arg_names.isEmpty && ps.hidden_arg_names.isEmpty then ps.default
  else
    match lookupSupplied s ps.name with
    | some v => v
    | Option.none => ps.default

/-- The `argparse.Namespace` resulting from a successful parse. -/
def parseNamespace (s : Cmdline) : Config :=
  allParams.map (fun ps => (ps.name, parsedValue s ps))

/-- The argparse phase of `read_config_from_cmdline` (namespace seeding,
parser construction and `parse_args`). -/
def parse_cmdline_args (s : Cmdline) : Except PyErr Config :=
  if suppliedOk s && requiredOk s then Except.ok (parseNamespace s)
  else Except.error (PyErr.systemExit 2)

/-- An error message produced by `_check_config_consistency`, with the
values interpolated into the format string as payload. -/
inductive Msg : Type where
  | datasetsClash : Msg
  | sourceDatasetRequired : Msg
  | targetDatasetRequired : Msg
  | validDatasetsClash : Msg
  | tooManyVocabSizes : Int → Msg
  | mustSpecifyDimPerFactor : Msg
  | factorsDimPerFactorMismatch : Int → Int → Msg
  | embeddingDimPerFactorMismatch : PyValue → Int → Msg
  | dictionariesCountMismatch : Msg

/-- The first `_check_config_consistency` block: mutually exclusive
dataset-path forms (reads `datasets`, `source_dataset`,
`target_dataset`, with Python's short-circuit `or` preserved). -/
def check_datasets_block (c : Config) : Except PyErr (List Msg) := do
  let ds ← getAttrE c "datasets"
  if pyTruthy ds then do
    let sd ← getAttrE c "source_dataset"
    if pyTruthy sd then pure [Msg.datasetsClash]
    else do
      let td ← getAttrE c "target_dataset"
      if pyTruthy td then pure [Msg.datasetsClash] else pure []
  else do
    let sd ← getAttrE c "source_dataset"
    if ¬ pyTruthy sd then pure [Msg.sourceDatasetRequired]
    else do
      let td ← getAttrE c "target_dataset"
      if ¬ pyTruthy td then pure [Msg.targetDatasetRequired] else pure []

/-- The second block: validation dataset-path clash (reads
`valid_datasets`, `valid_source_dataset`, `valid_target_dataset`). -/
def check_valid_datasets_block (c : Config) : Except PyErr (List Msg) := do
  let vds ← getAttrE c "valid_datasets"
  if pyTruthy vds then do
    let vsd ← getAttrE c "valid_source_dataset"
    if pyTruthy vsd then pure [Msg.validDatasetsClash]
    else do
      let vtd ← getAttrE c "valid_target_dataset"
      if pyTruthy vtd then pure [Msg.validDatasetsClash] else pure []
  else pure []

/-- The third block: `source_vocab_sizes` must not have more entries than
`factors` (reads `source_vocab_sizes`, `factors`). -/
def check_vocab_sizes_block (c : Config) : Except PyErr (List Msg) := do
  let svs ← getAttrE c "source_vocab_sizes"
  if ¬ svs.isNone then do
    let l ← pyLen svs
    let f ← asInt (← getAttrE c "factors")
    if l > f then pure [Msg.tooManyVocabSizes f] else pure []
  else pure []

/-- The fourth block: factored input requires an explicit
`dim_per_factor` (reads `dim_per_factor`, `factors`). -/
def check_dim_presence_block (c : Config) : Except PyErr (List Msg) := do
  let dpf ← getAttrE c "dim_per_factor"
  if dpf.isNone then do
    let f ← getAttrE c "factors"
    if ¬ pyEq f (PyValue.int 1) then pure [Msg.mustSpecifyDimPerFactor]
    else pure []
  else pure []

/-- The fifth block: `dim_per_factor` length must equal `factors`, and
only when it does, its sum must equal `embedding_size` (reads
`dim_per_factor`, `factors`, `embedding_size`; the two conditions are
chained with `elif` in the source). -/
def check_dim_block (c : Config) : Except PyErr (List Msg) := do
  let dpf ← getAttrE c "dim_per_factor"
  if ¬ dpf.isNone then do
    let l ← pyLen dpf
    let f ← asInt (← getAttrE c "factors")
    if l ≠ f then pure [Msg.factorsDimPerFactorMismatch f l]
    else
      match dpf with
      | PyValue.list dl => do
          let s ← pySum dl
          let e ← getAttrE c "embedding_size"
          if ¬ pyEq (PyValue.int s) e then
            pure [Msg.embeddingDimPerFactorMismatch e s]
          else pure []
      | _ => Except.error PyErr.typeError
  else pure []

/-- The sixth block: one dictionary per source factor plus one target
dictionary (reads `dictionaries`, `factors`). -/
def check_dictionaries_block (c : Config) : Except PyErr (List Msg) := do
  let dicts ← getAttrE c "dictionaries"
  let ld ← pyLen dicts
  let f ← asInt (← getAttrE c "factors")
  if ld ≠ f + 1 then pure [Msg.dictionariesCountMismatch] else pure []

/-- Source `_check_config_consistency`: the six checks in source order
(each block reads exactly the attributes its source lines read, in the
same order, so this composition performs the same attribute accesses and
raises at the same points as the source's single function body), with
the messages accumulating in `error_messages` across blocks. -/
def check_config_consistency (c : Config) : Except PyErr (List Msg) := do
  let m1 ← check_datasets_block c
  let m2 ← check_valid_datasets_block c
  let m3 ← check_vocab_sizes_block c
  let m4 ← check_dim_presence_block c
  let m5 ← check_dim_block c
  let m6 ← check_dictionaries_block c
  pure (m1 ++ m2 ++ m3 ++ m4 ++ m5 ++ m6)

/-- The `for group in spec.group_names: for param in ...` derivation loop
shared by both loaders: run every derivation function in group order,
writing each result back before the next derivation runs. -/
def run_derivations (env : Env) (meta : MetaNS) :
    List ParameterSpecification → Config → Except PyErr Config
  | [], c => Except.ok c
  | ps :: rest, c =>
      match ps.derivation_func with
      | Option.none => run_derivations env meta rest c
      | some f => do
          let v ← f env c meta
          run_derivations env meta rest (setattr c ps.name v)

/-- Source `read_config_from_cmdline`: parse, consistency-check (log the
messages and `sys.exit(1)` when any check fails), then derive. -/
def read_config_from_cmdline (env : Env) (s : Cmdline) : Except PyErr Config := do
  let p ← parse_cmdline_args s
  let msgs ← check_config_consistency p
  if ¬ msgs.isEmpty then Except.error (PyErr.systemExit 1)
  else run_derivations env { from_cmdline := true, from_theano := false } allParams p

/-! ## The file-based loader (`load_config_from_json_file`) -/

/-- One legacy name of one parameter: move the value stored under the
legacy name to the current name. -/
def migrate_one (c : Config) (paramName legacyName : String) : Except PyErr Config :=
  if hasattr c legacyName then do
    let v ← getAttrE c legacyName
    if hasattr c paramName then Except.error PyErr.assertionError
    else Except.ok (delattr (setattr c paramName v) legacyName)
  else Except.ok c

/-- The legacy names of one parameter, in order. -/
def migrate_list (paramName : String) : List String → Config → Except PyErr Config
  | [], c => Except.ok c
  | n :: ns, c => do
      let c' ← migrate_one c paramName n
      migrate_list paramName ns c'

/-- The `Update config to use current parameter names` loop. -/
def migrate_legacy_names : List ParameterSpecification → Config → Except PyErr Config
  | [], c => Except.ok c
  | ps :: rest, c => do
      let c' ← migrate_list ps.name ps.legacy_names c
      migrate_legacy_names rest c'

/-- The `Add missing parameters` loop. -/
def fill_missing : List ParameterSpecification → Config → Config
  | [], c => c
  | ps :: rest, c =>
      fill_missing rest (if hasattr c ps.name then c else setattr c ps.name ps.default)

/-- Source `load_config_from_json_file`.  The two-format file read is
modelled by its outcome: `none` when neither the JSON nor the Pickle
file could be loaded (the source logs a missing-file error and exits
with status 1), otherwise the parsed key/value mapping, which
`argparse.Namespace(**config_as_dict)` turns into the namespace
unchanged. -/
def load_config_from_json_file (env : Env)
    (file : Option (List (String × PyValue))) : Except PyErr Config := do
  match file with
  | Option.none => Except.error (PyErr.systemExit 1)
  | some config_as_dict => do
      let c : Config := config_as_dict
      let meta : MetaNS :=
        { from_cmdline := false, from_theano := ¬ hasattr c "embedding_size" }
      let c ← migrate_legacy_names allParams c
      let c := fill_missing allParams c
      run_derivations env meta allParams c

/-! ## Generic lemmas about the embedding's monadic plumbing -/

@[simp] theorem exceptOkBind {ε α β : Type} (a : α) (f : α → Except ε β) :
    (Except.ok a >>= f) = f a := rfl

@[simp] theorem exceptErrorBind {ε α β : Type} (e : ε) (f : α → Except ε β) :
    ((Except.error e : Except ε α) >>= f) = Except.error e := rfl

@[simp] theorem exceptPureEq {ε α : Type} (a : α) :
    (pure a : Except ε α) = Except.ok a := rfl

theorem exceptBindOk {ε α β : Type} {x : Except ε α} {f : α → Except ε β} {b : β}
    (h : (x >>= f) = Except.ok b) : ∃ a, x = Except.ok a ∧ f a = Except.ok b := by
  cases x with
  | ok a => exact ⟨a, rfl, h⟩
  | error e => simp at h

@[simp] theorem getAttrE_eq_ok {c : Config} {n : String} {v : PyValue}
    (h : getattr c n = some v) : getAttrE c n = Except.ok v := by
  simp [getAttrE, h]

/-! ## Concrete inputs used by witnesses and counterexamples -/

/-- An environment with no readable dictionary files. -/
def envEmpty : Env := fun _ => Option.none

/-- The attribute a successful load gives a name (`Option.none` when the
load fails). -/
def loadAttr (env : Env) (file : Option (List (String × PyValue))) (n : String) :
    Option PyValue :=
  match load_config_from_json_file env file with
  | Except.ok c => getattr c n
  | Except.error _ => Option.none

/-- Two parameter specifications that both declare the visible
command-line alias `--dup`. -/
def dup_alias_groups : List (String × List ParameterSpecification) :=
  [("data", [
    { name := "param_one", default := PyValue.none,
      visible_arg_names := ["--dup"], argType := some ArgType.str },
    { name := "param_two", default := PyValue.none,
      visible_arg_names := ["--dup"], argType := some ArgType.str }])]

/-- Dictionary files for the minimal command line of C7. -/
def c7_env : Env := fun s =>
  if s = "D1" then some [("a", 0)]
  else if s = "D2" then some [("b", 0)]
  else Option.none

/-- The minimal command line `--source_dataset A --target_dataset B
--dictionaries D1 D2` (and nothing else). -/
def c7_cmdline : Cmdline :=
  [("source_dataset", PyValue.str "A"), ("target_dataset", PyValue.str "B"),
   ("dictionaries", PyValue.list [PyValue.str "D1", PyValue.str "D2"])]

/-- A persisted configuration with embeddings tied, one factor, and a
`dim_per_factor` whose first entry (300) differs from `embedding_size`
(512). -/
def c4_file : List (String × PyValue) :=
  [("source_dataset", PyValue.str "A"), ("target_dataset", PyValue.str "B"),
   ("dictionaries", PyValue.list [PyValue.str "D1", PyValue.str "D2"]),
   ("embedding_size", PyValue.int 512),
   ("tie_encoder_decoder_embeddings", PyValue.bool true),
   ("factors", PyValue.int 1),
   ("dim_per_factor", PyValue.list [PyValue.int 300]),
   ("source_vocab_sizes", PyValue.list [PyValue.int 7]),
   ("target_vocab_size", PyValue.int 9),
   ("valid_source_dataset", PyValue.str "V"),
   ("valid_target_dataset", PyValue.str "W")]

/-! ## Claims -/

/-- C1: the spec claims constructing a `ConfigSpecification` in which a
CLI alias collides with another fails the self-check.  It does not: the
second `_check_self` pass executes `arg_names.add(param.name)` instead of
adding the alias it just checked, so the seen-set never contains any
alias and duplicate aliases are accepted.  Here a specification whose two
parameters both declare the visible alias `--dup` passes `_check_self`. -/
theorem C1_check_self_accepts_duplicate_alias :
    check_self dup_alias_groups = true ∧
    (dup_alias_groups.map Prod.snd).flatten.map ParameterSpecification.visible_arg_names =
      [["--dup"], ["--dup"]] :=
  ⟨rfl, rfl⟩

/-- C7: the spec claims the command line `--source_dataset A
--target_dataset B --dictionaries D1 D2` (and nothing else) yields a
configuration.  In the code it does not: parsing and the consistency
checks succeed, but the derivation `_derive_valid_source_dataset` asserts
`config.valid_datasets is not None`, which fails because no validation
dataset argument was supplied, so the reader dies with an
`AssertionError`. -/
theorem C7_minimal_cmdline_input_crashes :
    read_config_from_cmdline c7_env c7_cmdline = Except.error PyErr.assertionError ∧
    check_config_consistency (parseNamespace c7_cmdline) = Except.ok [] :=
  ⟨rfl, rfl⟩

/-- C9: a dropout parameter that was not explicitly supplied (its value
is still `None`) derives to 0.2 when the configuration originates from
the command line and to 0.0 when it was loaded from a file; an
explicitly supplied value is returned unchanged.  (Python's float
literals 0.2 and 0.0 are represented exactly as the rationals 1/5 and
0.) -/
theorem C9_dropout_defaults (env : Env) (c : Config) (meta : MetaNS) :
    (getattr c "dropout_embedding" = some PyValue.none →
      derive_dropout_embedding env c meta =
        Except.ok (PyValue.float (if meta.from_cmdline then 1/5 else 0))) ∧
    (∀ v, getattr c "dropout_embedding" = some v → v.isNone = false →
      derive_dropout_embedding env c meta = Except.ok v) ∧
    (getattr c "dropout_hidden" = some PyValue.none →
      derive_dropout_hidden env c meta =
        Except.ok (PyValue.float (if meta.from_cmdline then 1/5 else 0))) ∧
    (∀ v, getattr c "dropout_hidden" = some v → v.isNone = false →
      derive_dropout_hidden env c meta = Except.ok v) := by
  refine ⟨fun h => ?_, fun v h hv => ?_, fun h => ?_, fun v h hv => ?_⟩
  · simp [derive_dropout_embedding, getAttrE_eq_ok h, PyValue.isNone]
  · simp [derive_dropout_embedding, getAttrE_eq_ok h, hv]
  · simp [derive_dropout_hidden, getAttrE_eq_ok h, PyValue.isNone]
  · simp [derive_dropout_hidden, getAttrE_eq_ok h, hv]

/-- A configuration exercising all four cases of C9. -/
def c9_config : Config :=
  [("dropout_embedding", PyValue.none), ("dropout_hidden", PyValue.float (3/10))]

/-- Witness for C9 at a concrete configuration, from the command line and
from a file. -/
theorem C9_dropout_defaults_witness :
    derive_dropout_embedding envEmpty c9_config
      { from_cmdline := true, from_theano := false } =
        Except.ok (PyValue.float (1/5)) ∧
    derive_dropout_embedding envEmpty c9_config
      { from_cmdline := false, from_theano := false } =
        Except.ok (PyValue.float 0) ∧
    derive_dropout_hidden envEmpty c9_config
      { from_cmdline := true, from_theano := false } =
        Except.ok (PyValue.float (3/10)) :=
  ⟨(C9_dropout_defaults envEmpty c9_config
      { from_cmdline := true, from_theano := false }).1 rfl,
   (C9_dropout_defaults envEmpty c9_config
      { from_cmdline := false, from_theano := false }).1 rfl,
   (C9_dropout_defaults envEmpty c9_config
      { from_cmdline := true, from_theano := false }).2.2.2
      (PyValue.float (3/10)) rfl rfl⟩

/-- C10: a dictionary file that parses to an empty mapping is not covered
by the reported-fatal-error guarantee: `max(d.values()) + 1` is computed
outside the `try` block, so the empty mapping raises an uncaught
`ValueError` instead of taking the logged `sys.exit(1)` path. -/
theorem C10_empty_mapping_outside_guard (env : Env) (s : String)
    (h : env s = some []) :
    determine_vocab_size_from_file env (PyValue.str s) =
      Except.error PyErr.valueError ∧
    PyErr.valueError ≠ PyErr.systemExit 1 := by
  refine ⟨by simp [determine_vocab_size_from_file, h], by simp⟩

/-- A file system with one empty dictionary file. -/
def c10_env : Env := fun s =>
  if s = "empty_dict.json" then some [] else Option.none

/-- Witness for C10 at a concrete environment. -/
theorem C10_empty_mapping_outside_guard_witness :
    determine_vocab_size_from_file c10_env (PyValue.str "empty_dict.json") =
      Except.error PyErr.valueError ∧
    PyErr.valueError ≠ PyErr.systemExit 1 :=
  C10_empty_mapping_outside_guard c10_env "empty_dict.json" rfl

/-- C8: a vocabulary size back-filled from a dictionary file equals one
more than the maximum index value of the file's key-to-integer mapping;
a file that cannot be read or parsed is a fatal, reported error
(logged, `sys.exit(1)`).  The last conjunct shows the back-fill inside
`_derive_target_vocab_size` (`target_vocab_size == -1`). -/
theorem C8_vocab_size_from_dictionary_file (env : Env) :
    (∀ s x v rest, env s = some ((x, v) :: rest) →
      determine_vocab_size_from_file env (PyValue.str s) =
        Except.ok (maxValues v (rest.map Prod.snd) + 1)) ∧
    (∀ s, env s = Option.none →
      determine_vocab_size_from_file env (PyValue.str s) =
        Except.error (PyErr.systemExit 1)) ∧
    (∀ c meta l s x v rest,
      getattr (c : Config) "target_vocab_size" = some (PyValue.int (-1)) →
      getattr c "dictionaries" = some (PyValue.list l) →
      l.getLast? = some (PyValue.str s) →
      env s = some ((x, v) :: rest) →
      derive_target_vocab_size env c meta =
        Except.ok (PyValue.int (maxValues v (rest.map Prod.snd) + 1))) := by
  refine ⟨fun s x v rest h => ?_, fun s h => ?_, fun c meta l s x v rest h1 h2 h3 h4 => ?_⟩
  · simp [determine_vocab_size_from_file, h]
  · simp [determine_vocab_size_from_file, h]
  · simp [derive_target_vocab_size, getAttrE_eq_ok h1, getAttrE_eq_ok h2, pyEq,
          pyLast, h3, determine_vocab_size_from_file, h4]

/-- A file system with one three-entry dictionary file (maximum index 3). -/
def c8_env : Env := fun s =>
  if s = "dict.json" then some [("a", 1), ("b", 3), ("c", 2)] else Option.none

/-- A configuration whose `target_vocab_size` must be back-filled from
the last dictionary. -/
def c8_config : Config :=
  [("target_vocab_size", PyValue.int (-1)),
   ("dictionaries", PyValue.list [PyValue.str "src.json", PyValue.str "dict.json"])]

/-- Witness for C8 at a concrete environment and configuration: the
derived size is 3 + 1 = 4, and a missing file exits with status 1. -/
theorem C8_vocab_size_from_dictionary_file_witness :
    determine_vocab_size_from_file c8_env (PyValue.str "dict.json") =
      Except.ok 4 ∧
    determine_vocab_size_from_file c8_env (PyValue.str "missing.json") =
      Except.error (PyErr.systemExit 1) ∧
    derive_target_vocab_size c8_env c8_config
      { from_cmdline := false, from_theano := false } =
        Except.ok (PyValue.int 4) :=
  ⟨(C8_vocab_size_from_dictionary_file c8_env).1 "dict.json" "a" 1 [("b", 3), ("c", 2)] rfl,
   (C8_vocab_size_from_dictionary_file c8_env).2.1 "missing.json" rfl,
   (C8_vocab_size_from_dictionary_file c8_env).2.2 c8_config
     { from_cmdline := false, from_theano := false }
     [PyValue.str "src.json", PyValue.str "dict.json"] "dict.json" "a" 1
     [("b", 3), ("c", 2)] rfl rfl rfl rfl⟩

/-- C4 counterexample: the claim says that for every configuration with
`tie_encoder_decoder_embeddings` set the derived `target_embedding_size`
equals the first element of `dim_per_factor`.  Loading this persisted
configuration (tied, `factors = 1`, `dim_per_factor = [300]`,
`embedding_size = 512`) yields `target_embedding_size = 512`, which is
`embedding_size`, not `dim_per_factor[0] = 300`. -/
theorem C4_claim_counterexample :
    loadAttr envEmpty (some c4_file) "tie_encoder_decoder_embeddings" =
      some (PyValue.bool true) ∧
    loadAttr envEmpty (some c4_file) "dim_per_factor" =
      some (PyValue.list [PyValue.int 300]) ∧
    loadAttr envEmpty (some c4_file) "target_embedding_size" =
      some (PyValue.int 512) ∧
    PyValue.int 512 ≠ PyValue.int 300 := by
  refine ⟨rfl, rfl, rfl, by simp⟩

/-- C4 (amended): with `tie_encoder_decoder_embeddings` set the derived
`target_embedding_size` equals the first element of `dim_per_factor`
only when `factors > 1`; when `factors ≤ 1`, and whenever tying is
unset, it equals `embedding_size`. -/
theorem C4_target_embedding_size_tying (env : Env) (c : Config) (meta : MetaNS)
    (ev : PyValue) (tb : Bool) (k : Int)
    (h_e : getattr c "embedding_size" = some ev)
    (h_t : getattr c "tie_encoder_decoder_embeddings" = some (PyValue.bool tb))
    (h_f : getattr c "factors" = some (PyValue.int k)) :
    (tb = false → derive_target_embedding_size env c meta = Except.ok ev) ∧
    (tb = true → k ≤ 1 → derive_target_embedding_size env c meta = Except.ok ev) ∧
    (tb = true → 1 < k → ∀ d ds,
      getattr c "dim_per_factor" = some (PyValue.list (d :: ds)) →
      derive_target_embedding_size env c meta = Except.ok d) := by
  have he : hasattr c "embedding_size" = true := by simp [hasattr, h_e]
  refine ⟨fun ht => ?_, fun ht hk => ?_, fun ht hk d ds hd => ?_⟩
  · subst ht
    simp [derive_target_embedding_size, he, getAttrE_eq_ok h_t,
          getAttrE_eq_ok h_e, pyTruthy]
  · subst ht
    simp [derive_target_embedding_size, he, getAttrE_eq_ok h_t,
          getAttrE_eq_ok h_f, getAttrE_eq_ok h_e, pyTruthy, asInt,
          not_lt.mpr hk]
  · subst ht
    have hd' : hasattr c "dim_per_factor" = true := by simp [hasattr, hd]
    simp [derive_target_embedding_size, he, getAttrE_eq_ok h_t,
          getAttrE_eq_ok h_f, pyTruthy, asInt, hk, hd', getAttrE_eq_ok hd,
          PyValue.isNone, pyIndexV, pyIndex]

/-- A configuration with tying set and three factors. -/
def c4_config : Config :=
  [("embedding_size", PyValue.int 500),
   ("tie_encoder_decoder_embeddings", PyValue.bool true),
   ("factors", PyValue.int 3),
   ("dim_per_factor", PyValue.list [PyValue.int 250, PyValue.int 200, PyValue.int 50])]

/-- Witness for the amended C4 at concrete configurations: tied with
three factors gives the first factor's dimension; untied gives the
embedding size. -/
theorem C4_target_embedding_size_tying_witness :
    derive_target_embedding_size envEmpty c4_config
      { from_cmdline := false, from_theano := false } =
        Except.ok (PyValue.int 250) ∧
    derive_target_embedding_size envEmpty
      [("embedding_size", PyValue.int 500),
       ("tie_encoder_decoder_embeddings", PyValue.bool false),
       ("factors", PyValue.int 3)]
      { from_cmdline := false, from_theano := false } =
        Except.ok (PyValue.int 500) :=
  ⟨(C4_target_embedding_size_tying envEmpty c4_config
      { from_cmdline := false, from_theano := false }
      (PyValue.int 500) true 3 rfl rfl rfl).2.2 rfl (by decide)
      (PyValue.int 250) [PyValue.int 200, PyValue.int 50] rfl,
   (C4_target_embedding_size_tying envEmpty
      [("embedding_size", PyValue.int 500),
       ("tie_encoder_decoder_embeddings", PyValue.bool false),
       ("factors", PyValue.int 3)]
      { from_cmdline := false, from_theano := false }
      (PyValue.int 500) false 3 rfl rfl rfl).1 rfl⟩

/-! ## C3: block structure of the consistency checker -/

theorem pySum_map_int (l : List Int) :
    pySum (l.map PyValue.int) = Except.ok l.sum := by
  induction l with
  | nil => rfl
  | cons x xs ih => simp [pySum, asInt, ih]

/-- An optional list attribute value (`None` or a Python list). -/
def pyOptList : Option (List PyValue) → PyValue
  | Option.none => PyValue.none
  | some l => PyValue.list l

/-- An optional list-of-ints attribute value. -/
def pyOptIntList : Option (List Int) → PyValue
  | Option.none => PyValue.none
  | some l => PyValue.list (l.map PyValue.int)

/-- The messages of the dataset-path block, as a function of the three
attributes it reads. -/
def msgs_datasets (ds sd td : PyValue) : List Msg :=
  if pyTruthy ds then
    if pyTruthy sd then [Msg.datasetsClash]
    else if pyTruthy td then [Msg.datasetsClash] else []
  else
    if ¬ pyTruthy sd then [Msg.sourceDatasetRequired]
    else if ¬ pyTruthy td then [Msg.targetDatasetRequired] else []

/-- The messages of the validation dataset-path block. -/
def msgs_valid_datasets (vds vsd vtd : PyValue) : List Msg :=
  if pyTruthy vds then
    if pyTruthy vsd then [Msg.validDatasetsClash]
    else if pyTruthy vtd then [Msg.validDatasetsClash] else []
  else []

/-- The messages of the vocabulary-size-count block. -/
def msgs_vocab_sizes (svs : Option (List PyValue)) (k : Int) : List Msg :=
  match svs with
  | some l => if (l.length : Int) > k then [Msg.tooManyVocabSizes k] else []
  | Option.none => []

/-- The messages of the `dim_per_factor`-presence block. -/
def msgs_dim_missing (dpf : Option (List Int)) (k : Int) : List Msg :=
  match dpf with
  | Option.none =>
      if ¬ pyEq (PyValue.int k) (PyValue.int 1) then [Msg.mustSpecifyDimPerFactor] else []
  | some _ => []

/-- The messages of the `dim_per_factor` length/sum block: the sum check
runs only when the length check passed (the source chains them with
`elif`). -/
def msgs_dim (dpf : Option (List Int)) (k : Int) (e : PyValue) : List Msg :=
  match dpf with
  | some dl =>
      if (dl.length : Int) ≠ k then [Msg.factorsDimPerFactorMismatch k dl.length]
      else if ¬ pyEq (PyValue.int dl.sum) e then [Msg.embeddingDimPerFactorMismatch e dl.sum]
      else []
  | Option.none => []

/-- The messages of the dictionary-count block. -/
def msgs_dictionaries (dicts : List PyValue) (k : Int) : List Msg :=
  if (dicts.length : Int) ≠ k + 1 then [Msg.dictionariesCountMismatch] else []

theorem check_datasets_block_eval {c : Config} {ds sd td : PyValue}
    (h_ds : getattr c "datasets" = some ds)
    (h_sd : getattr c "source_dataset" = some sd)
    (h_td : getattr c "target_dataset" = some td) :
    check_datasets_block c = Except.ok (msgs_datasets ds sd td) := by
  by_cases h1 : pyTruthy ds <;> by_cases h2 : pyTruthy sd <;> by_cases h3 : pyTruthy td <;>
    simp [check_datasets_block, msgs_datasets, getAttrE_eq_ok h_ds,
          getAttrE_eq_ok h_sd, getAttrE_eq_ok h_td, h1, h2, h3]

theorem check_valid_datasets_block_eval {c : Config} {vds vsd vtd : PyValue}
    (h_vds : getattr c "valid_datasets" = some vds)
    (h_vsd : getattr c "valid_source_dataset" = some vsd)
    (h_vtd : getattr c "valid_target_dataset" = some vtd) :
    check_valid_datasets_block c = Except.ok (msgs_valid_datasets vds vsd vtd) := by
  by_cases h1 : pyTruthy vds <;> by_cases h2 : pyTruthy vsd <;> by_cases h3 : pyTruthy vtd <;>
    simp [check_valid_datasets_block, msgs_valid_datasets, getAttrE_eq_ok h_vds,
          getAttrE_eq_ok h_vsd, getAttrE_eq_ok h_vtd, h1, h2, h3]

theorem check_vocab_sizes_block_eval {c : Config} {svs : Option (List PyValue)} {k : Int}
    (h_svs : getattr c "source_vocab_sizes" = some (pyOptList svs))
    (h_f : getattr c "factors" = some (PyValue.int k)) :
    check_vocab_sizes_block c = Except.ok (msgs_vocab_sizes svs k) := by
  cases svs with
  | none =>
      simp [check_vocab_sizes_block, msgs_vocab_sizes, getAttrE_eq_ok h_svs,
            pyOptList, PyValue.isNone]
  | some sl =>
      simp [check_vocab_sizes_block, msgs_vocab_sizes, getAttrE_eq_ok h_svs,
            getAttrE_eq_ok h_f, pyOptList, PyValue.isNone, pyLen, asInt, apply_ite]

theorem check_dim_presence_block_eval {c : Config} {dpf : Option (List Int)} {k : Int}
    (h_dpf : getattr c "dim_per_factor" = some (pyOptIntList dpf))
    (h_f : getattr c "factors" = some (PyValue.int k)) :
    check_dim_presence_block c = Except.ok (msgs_dim_missing dpf k) := by
  cases dpf with
  | none =>
      simp [check_dim_presence_block, msgs_dim_missing, getAttrE_eq_ok h_dpf,
            getAttrE_eq_ok h_f, pyOptIntList, PyValue.isNone, apply_ite]
  | some dl =>
      simp [check_dim_presence_block, msgs_dim_missing, getAttrE_eq_ok h_dpf,
            pyOptIntList, PyValue.isNone]

theorem check_dim_block_eval {c : Config} {dpf : Option (List Int)} {k : Int} {e : PyValue}
    (h_dpf : getattr c "dim_per_factor" = some (pyOptIntList dpf))
    (h_f : getattr c "factors" = some (PyValue.int k))
    (h_e : getattr c "embedding_size" = some e) :
    check_dim_block c = Except.ok (msgs_dim dpf k e) := by
  cases dpf with
  | none =>
      simp [check_dim_block, msgs_dim, getAttrE_eq_ok h_dpf, pyOptIntList,
            PyValue.isNone]
  | some dl =>
      by_cases hl : (dl.length : Int) = k
      · simp [check_dim_block, msgs_dim, getAttrE_eq_ok h_dpf, getAttrE_eq_ok h_f,
              getAttrE_eq_ok h_e, pyOptIntList, PyValue.isNone, pyLen, asInt, hl,
              pySum_map_int, apply_ite]
      · simp [check_dim_block, msgs_dim, getAttrE_eq_ok h_dpf, getAttrE_eq_ok h_f,
              pyOptIntList, PyValue.isNone, pyLen, asInt, hl]

theorem check_dictionaries_block_eval {c : Config} {dicts : List PyValue} {k : Int}
    (h_dicts : getattr c "dictionaries" = some (PyValue.list dicts))
    (h_f : getattr c "factors" = some (PyValue.int k)) :
    check_dictionaries_block c = Except.ok (msgs_dictionaries dicts k) := by
  simp [check_dictionaries_block, msgs_dictionaries, getAttrE_eq_ok h_dicts,
        getAttrE_eq_ok h_f, pyLen, asInt, apply_ite]

/-- A configuration violating both conditions of the
`dim_per_factor` block: length 1 ≠ factors 2, and sum 300 ≠
embedding size 512. -/
def c3_counter_config : Config :=
  [("datasets", PyValue.none), ("source_dataset", PyValue.str "A"),
   ("target_dataset", PyValue.str "B"), ("valid_datasets", PyValue.none),
   ("valid_source_dataset", PyValue.none), ("valid_target_dataset", PyValue.none),
   ("source_vocab_sizes", PyValue.none), ("factors", PyValue.int 2),
   ("dim_per_factor", PyValue.list [PyValue.int 300]),
   ("embedding_size", PyValue.int 512),
   ("dictionaries", PyValue.list [PyValue.str "D1", PyValue.str "D2", PyValue.str "D3"])]

/-- C3 counterexample: the claim says every failing check contributes its
message.  On this configuration the sum check fails (300 ≠ 512) but the
returned list contains only the length-mismatch message: the `elif`
chain inside the `dim_per_factor` block suppresses the sum message. -/
theorem C3_claim_counterexample :
    check_config_consistency c3_counter_config =
      Except.ok [Msg.factorsDimPerFactorMismatch 2 1] ∧
    pySum [PyValue.int 300] = Except.ok 300 ∧
    pyEq (PyValue.int 300) (PyValue.int 512) = false ∧
    Msg.embeddingDimPerFactorMismatch (PyValue.int 512) 300 ∉
      [Msg.factorsDimPerFactorMismatch 2 1] := by
  refine ⟨rfl, rfl, rfl, by simp⟩

/-- Blockwise evaluation of the checker on a configuration whose
relevant attributes are known, with the emptiness criterion. -/
theorem checker_blocks_eval (c : Config) (ds sd td vds vsd vtd e : PyValue)
    (svs : Option (List PyValue)) (dpf : Option (List Int)) (k : Int)
    (dicts : List PyValue)
    (h_ds : getattr c "datasets" = some ds)
    (h_sd : getattr c "source_dataset" = some sd)
    (h_td : getattr c "target_dataset" = some td)
    (h_vds : getattr c "valid_datasets" = some vds)
    (h_vsd : getattr c "valid_source_dataset" = some vsd)
    (h_vtd : getattr c "valid_target_dataset" = some vtd)
    (h_svs : getattr c "source_vocab_sizes" = some (pyOptList svs))
    (h_f : getattr c "factors" = some (PyValue.int k))
    (h_dpf : getattr c "dim_per_factor" = some (pyOptIntList dpf))
    (h_e : getattr c "embedding_size" = some e)
    (h_dicts : getattr c "dictionaries" = some (PyValue.list dicts)) :
    check_config_consistency c =
      Except.ok (msgs_datasets ds sd td ++ msgs_valid_datasets vds vsd vtd ++
        msgs_vocab_sizes svs k ++ msgs_dim_missing dpf k ++
        msgs_dim dpf k e ++ msgs_dictionaries dicts k) ∧
    (msgs_datasets ds sd td ++ msgs_valid_datasets vds vsd vtd ++
        msgs_vocab_sizes svs k ++ msgs_dim_missing dpf k ++
        msgs_dim dpf k e ++ msgs_dictionaries dicts k = [] ↔
      msgs_datasets ds sd td = [] ∧ msgs_valid_datasets vds vsd vtd = [] ∧
      msgs_vocab_sizes svs k = [] ∧ msgs_dim_missing dpf k = [] ∧
      msgs_dim dpf k e = [] ∧ msgs_dictionaries dicts k = []) := by
  constructor
  · simp [check_config_consistency, check_datasets_block_eval h_ds h_sd h_td,
          check_valid_datasets_block_eval h_vds h_vsd h_vtd,
          check_vocab_sizes_block_eval h_svs h_f,
          check_dim_presence_block_eval h_dpf h_f,
          check_dim_block_eval h_dpf h_f h_e,
          check_dictionaries_block_eval h_dicts h_f]
  · simp [List.append_eq_nil, and_assoc]

/-- C3 (amended): the checker is a pure function of the configuration
returning its message list; the six blocks run independently (each
depends only on the attributes its source lines read) and their messages
accumulate across blocks, and the empty list is returned exactly when
every block passes.  Within a block, however, the conditions are chained:
the dataset block emits at most one of its three messages, and the
`dim_per_factor` block checks the sum only when the length matched. -/
theorem C3_checker_block_decomposition (c : Config) (ds sd td vds vsd vtd e : PyValue)
    (svs : Option (List PyValue)) (dpf : Option (List Int)) (k : Int)
    (dicts : List PyValue)
    (h_ds : getattr c "datasets" = some ds)
    (h_sd : getattr c "source_dataset" = some sd)
    (h_td : getattr c "target_dataset" = some td)
    (h_vds : getattr c "valid_datasets" = some vds)
    (h_vsd : getattr c "valid_source_dataset" = some vsd)
    (h_vtd : getattr c "valid_target_dataset" = some vtd)
    (h_svs : getattr c "source_vocab_sizes" = some (pyOptList svs))
    (h_f : getattr c "factors" = some (PyValue.int k))
    (h_dpf : getattr c "dim_per_factor" = some (pyOptIntList dpf))
    (h_e : getattr c "embedding_size" = some e)
    (h_dicts : getattr c "dictionaries" = some (PyValue.list dicts)) :
    check_config_consistency c =
      Except.ok (msgs_datasets ds sd td ++ msgs_valid_datasets vds vsd vtd ++
        msgs_vocab_sizes svs k ++ msgs_dim_missing dpf k ++
        msgs_dim dpf k e ++ msgs_dictionaries dicts k) ∧
    (msgs_datasets ds sd td ++ msgs_valid_datasets vds vsd vtd ++
        msgs_vocab_sizes svs k ++ msgs_dim_missing dpf k ++
        msgs_dim dpf k e ++ msgs_dictionaries dicts k = [] ↔
      msgs_datasets ds sd td = [] ∧ msgs_valid_datasets vds vsd vtd = [] ∧
      msgs_vocab_sizes svs k = [] ∧ msgs_dim_missing dpf k = [] ∧
      msgs_dim dpf k e = [] ∧ msgs_dictionaries dicts k = []) :=
  checker_blocks_eval c ds sd td vds vsd vtd e svs dpf k dicts
    h_ds h_sd h_td h_vds h_vsd h_vtd h_svs h_f h_dpf h_e h_dicts

/-- Witness for C3 at the concrete configuration above. -/
theorem C3_checker_block_decomposition_witness :
    check_config_consistency c3_counter_config =
      Except.ok (msgs_datasets PyValue.none (PyValue.str "A") (PyValue.str "B") ++
        msgs_valid_datasets PyValue.none PyValue.none PyValue.none ++
        msgs_vocab_sizes Option.none 2 ++ msgs_dim_missing (some [300]) 2 ++
        msgs_dim (some [300]) 2 (PyValue.int 512) ++
        msgs_dictionaries [PyValue.str "D1", PyValue.str "D2", PyValue.str "D3"] 2) :=
  (C3_checker_block_decomposition c3_counter_config PyValue.none (PyValue.str "A")
    (PyValue.str "B") PyValue.none PyValue.none PyValue.none (PyValue.int 512)
    Option.none (some [300]) 2 [PyValue.str "D1", PyValue.str "D2", PyValue.str "D3"]
    rfl rfl rfl rfl rfl rfl rfl rfl rfl rfl rfl).1

/-! ## Soundness facts about the parsed command-line namespace -/

theorem getattr_map_name (l : List ParameterSpecification)
    (g : ParameterSpecification → PyValue) (n : String) :
    getattr (l.map fun ps => (ps.name, g ps)) n =
      (l.find? (fun ps => ps.name == n)).map g := by
  induction l with
  | nil => rfl
  | cons ps rest ih =>
      by_cases h : ps.name = n
      · simp [getattr, List.find?_cons, h]
      · simp [getattr, List.find?_cons, h, ih]

theorem parse_inv {s : Cmdline} {p : Config}
    (h : parse_cmdline_args s = Except.ok p) :
    suppliedOk s = true ∧ requiredOk s = true ∧ p = parseNamespace s := by
  by_cases h1 : (suppliedOk s && requiredOk s) = true
  · obtain ⟨ha, hb⟩ := Bool.and_eq_true_iff.mp h1
    refine ⟨ha, hb, ?_⟩
    simp [parse_cmdline_args, h1] at h
    exact h.symm
  · simp [parse_cmdline_args, h1] at h

theorem lookupSupplied_typeOk {s : Cmdline} {n : String} {v : PyValue}
    (hok : suppliedOk s = true) (hl : lookupSupplied s n = some v)
    (ps : ParameterSpecification) (hf : findParam n = some ps) :
    ∃ t, ps.argType = some t ∧ typeOk t v = true := by
  unfold lookupSupplied at hl
  obtain ⟨nv, hfind, hv⟩ := Option.map_eq_some'.mp hl
  have hmem : nv ∈ s := List.mem_of_find?_eq_some hfind
  have hpred := List.find?_some hfind
  have hname : nv.1 = n := by simpa using hpred
  have hall := (List.all_eq_true.mp hok) nv hmem
  rw [hname, hf] at hall
  cases ht : ps.argType with
  | none => simp [ht] at hall
  | some t =>
      refine ⟨t, rfl, ?_⟩
      rw [← hv]
      simpa [ht] using hall

theorem parsedValue_cases {s : Cmdline} (hok : suppliedOk s = true)
    (ps : ParameterSpecification) (hf : findParam ps.name = some ps)
    (hcli : (ps.visible_arg_names.isEmpty && ps.hidden_arg_names.isEmpty) = false) :
    parsedValue s ps = ps.default ∨
      ∃ t, ps.argType = some t ∧ typeOk t (parsedValue s ps) = true := by
  unfold parsedValue
  rw [hcli]
  simp only [Bool.false_eq_true, if_false]
  cases hls : lookupSupplied s ps.name with
  | none => left; rfl
  | some v => right; exact lookupSupplied_typeOk hok hls ps hf

theorem requiredOk_dictionaries {s : Cmdline} (h : requiredOk s = true) :
    ∃ v, lookupSupplied s "dictionaries" = some v := by
  have h2 : ((lookupSupplied s "dictionaries").isSome && true) = true := h
  simp at h2
  exact Option.isSome_iff_exists.mp h2

theorem all_isInt_exists {l : List PyValue} (h : ∀ x ∈ l, PyValue.isInt x = true) :
    ∃ il : List Int, l = il.map PyValue.int := by
  induction l with
  | nil => exact ⟨[], rfl⟩
  | cons x xs ih =>
      obtain ⟨il, rfl⟩ := ih (fun y hy => h y (List.mem_cons_of_mem _ hy))
      have hx := h x (List.mem_cons_self _ _)
      cases x
      case int n => exact ⟨n :: il, rfl⟩
      all_goals simp [PyValue.isInt] at hx

theorem all_isStr_exists {l : List PyValue} (h : ∀ x ∈ l, PyValue.isStr x = true) :
    ∃ sl : List String, l = sl.map PyValue.str := by
  induction l with
  | nil => exact ⟨[], rfl⟩
  | cons x xs ih =>
      obtain ⟨sl, rfl⟩ := ih (fun y hy => h y (List.mem_cons_of_mem _ hy))
      have hx := h x (List.mem_cons_self _ _)
      cases x
      case str a => exact ⟨a :: sl, rfl⟩
      all_goals simp [PyValue.isStr] at hx

theorem typeOk_int {v : PyValue} (h : typeOk ArgType.int v = true) :
    ∃ k : Int, v = PyValue.int k := by
  cases v <;> simp [typeOk] at h ⊢

theorem typeOk_float {v : PyValue} (h : typeOk ArgType.float v = true) :
    ∃ q : Rat, v = PyValue.float q := by
  cases v <;> simp [typeOk] at h ⊢

theorem typeOk_str {v : PyValue} (h : typeOk ArgType.str v = true) :
    ∃ a : String, v = PyValue.str a := by
  cases v <;> simp [typeOk] at h ⊢

theorem typeOk_strChoices {cs : List String} {v : PyValue}
    (h : typeOk (ArgType.strChoices cs) v = true) :
    ∃ a : String, v = PyValue.str a := by
  cases v <;> simp [typeOk] at h ⊢

theorem typeOk_listStr2 {v : PyValue} (h : typeOk ArgType.listStr2 v = true) :
    ∃ a b : String, v = PyValue.list [PyValue.str a, PyValue.str b] := by
  cases v <;> simp [typeOk] at h
  case list l =>
    obtain ⟨hlen, hall⟩ := h
    obtain ⟨x, y, rfl⟩ := List.length_eq_two.mp hlen
    have hx := hall x (by simp)
    have hy := hall y (by simp)
    cases x
    case str a =>
      cases y
      case str b => exact ⟨a, b, rfl⟩
      all_goals simp [PyValue.isStr] at hy
    all_goals simp [PyValue.isStr] at hx

theorem typeOk_listStrPlus {v : PyValue} (h : typeOk ArgType.listStrPlus v = true) :
    ∃ sl : List String, v = PyValue.list (sl.map PyValue.str) ∧ sl ≠ [] := by
  cases v <;> simp [typeOk] at h
  case list l =>
    obtain ⟨hne, hall⟩ := h
    obtain ⟨sl, rfl⟩ := all_isStr_exists hall
    exact ⟨sl, rfl, by rintro rfl; simp at hne⟩

theorem typeOk_listIntPlus {v : PyValue} (h : typeOk ArgType.listIntPlus v = true) :
    ∃ il : List Int, v = PyValue.list (il.map PyValue.int) ∧ il ≠ [] := by
  cases v <;> simp [typeOk] at h
  case list l =>
    obtain ⟨hne, hall⟩ := h
    obtain ⟨il, rfl⟩ := all_isInt_exists hall
    exact ⟨il, rfl, by rintro rfl; simp at hne⟩

theorem typeOk_flagTrue {v : PyValue} (h : typeOk ArgType.flagTrue v = true) :
    v = PyValue.bool true := by
  cases v <;> simp [typeOk] at h ⊢
  assumption

theorem typeOk_flagFalse {v : PyValue} (h : typeOk ArgType.flagFalse v = true) :
    v = PyValue.bool false := by
  cases v <;> simp [typeOk] at h ⊢
  assumption

/-! ## C6: dim_per_factor sum mismatch is fatal on the command line -/

/-- C6: for every parsed command line supplying `dim_per_factor` with as
many entries as `factors` but whose entries do not sum to
`embedding_size`, the consistency checker's message list contains the
sum-mismatch message, and `read_config_from_cmdline` exits with status
1 (it logs every collected message first). -/
theorem C6_dim_sum_mismatch_fails (env : Env) (s : Cmdline) (p : Config)
    (dl : List Int) (k ei : Int)
    (hp : parse_cmdline_args s = Except.ok p)
    (h_dpf : getattr p "dim_per_factor" = some (PyValue.list (dl.map PyValue.int)))
    (h_f : getattr p "factors" = some (PyValue.int k))
    (h_e : getattr p "embedding_size" = some (PyValue.int ei))
    (hlen : (dl.length : Int) = k)
    (hsum : dl.sum ≠ ei) :
    (∀ msgs, check_config_consistency p = Except.ok msgs →
      Msg.embeddingDimPerFactorMismatch (PyValue.int ei) dl.sum ∈ msgs) ∧
    read_config_from_cmdline env s = Except.error (PyErr.systemExit 1) := by
  obtain ⟨hok, hreq, rfl⟩ := parse_inv hp
  have h_ds : getattr (parseNamespace s) "datasets" =
      some (parsedValue s ps_datasets) := rfl
  have h_sd : getattr (parseNamespace s) "source_dataset" =
      some (parsedValue s ps_source_dataset) := rfl
  have h_td : getattr (parseNamespace s) "target_dataset" =
      some (parsedValue s ps_target_dataset) := rfl
  have h_vds : getattr (parseNamespace s) "valid_datasets" =
      some (parsedValue s ps_valid_datasets) := rfl
  have h_vsd : getattr (parseNamespace s) "valid_source_dataset" =
      some (parsedValue s ps_valid_source_dataset) := rfl
  have h_vtd : getattr (parseNamespace s) "valid_target_dataset" =
      some (parsedValue s ps_valid_target_dataset) := rfl
  -- source_vocab_sizes has Option-of-list shape
  have hsvs0 := parsedValue_cases hok ps_source_vocab_sizes rfl rfl
  have hsvs : ∃ o, getattr (parseNamespace s) "source_vocab_sizes" =
      some (pyOptList o) := by
    rcases hsvs0 with hd | ⟨t, hat, hto⟩
    · exact ⟨Option.none, by rw [show getattr (parseNamespace s) "source_vocab_sizes" =
        some (parsedValue s ps_source_vocab_sizes) from rfl, hd]; rfl⟩
    · obtain rfl : ArgType.listIntPlus = t := by injection hat
      obtain ⟨il, hil, -⟩ := typeOk_listIntPlus hto
      exact ⟨some (il.map PyValue.int), by
        rw [show getattr (parseNamespace s) "source_vocab_sizes" =
          some (parsedValue s ps_source_vocab_sizes) from rfl, hil]; rfl⟩
  obtain ⟨osvs, h_svs⟩ := hsvs
  -- dictionaries is a supplied non-empty list of strings
  obtain ⟨vd, hvd⟩ := requiredOk_dictionaries hreq
  have hpd : parsedValue s ps_dictionaries = vd := by
    unfold parsedValue
    rw [show (ps_dictionaries.visible_arg_names.isEmpty &&
      ps_dictionaries.hidden_arg_names.isEmpty) = false from rfl]
    rw [show ps_dictionaries.name = "dictionaries" from rfl]
    simp only [Bool.false_eq_true, if_false, hvd]
  obtain ⟨t2, hat2, hto2⟩ := lookupSupplied_typeOk hok hvd ps_dictionaries rfl
  obtain rfl : ArgType.listStrPlus = t2 := by injection hat2
  obtain ⟨slst, hslst, -⟩ := typeOk_listStrPlus hto2
  have h_dicts : getattr (parseNamespace s) "dictionaries" =
      some (PyValue.list (slst.map PyValue.str)) := by
    rw [show getattr (parseNamespace s) "dictionaries" =
      some (parsedValue s ps_dictionaries) from rfl, hpd, hslst]
  -- apply the block decomposition
  obtain ⟨hcheck, -⟩ := checker_blocks_eval (parseNamespace s)
    (parsedValue s ps_datasets) (parsedValue s ps_source_dataset)
    (parsedValue s ps_target_dataset) (parsedValue s ps_valid_datasets)
    (parsedValue s ps_valid_source_dataset) (parsedValue s ps_valid_target_dataset)
    (PyValue.int ei) osvs (some dl) k (slst.map PyValue.str)
    h_ds h_sd h_td h_vds h_vsd h_vtd h_svs h_f h_dpf h_e h_dicts
  have hdim : msgs_dim (some dl) k (PyValue.int ei) =
      [Msg.embeddingDimPerFactorMismatch (PyValue.int ei) dl.sum] := by
    have hpe : pyEq (PyValue.int dl.sum) (PyValue.int ei) = false := by
      simp [pyEq, hsum]
    simp [msgs_dim, hlen, hpe]
  constructor
  · intro msgs hm
    rw [hcheck] at hm
    injection hm with hm
    subst hm
    simp [List.mem_append, hdim]
  · have hne : (msgs_datasets (parsedValue s ps_datasets) (parsedValue s ps_source_dataset)
        (parsedValue s ps_target_dataset) ++
        msgs_valid_datasets (parsedValue s ps_valid_datasets)
          (parsedValue s ps_valid_source_dataset) (parsedValue s ps_valid_target_dataset) ++
        msgs_vocab_sizes osvs k ++ msgs_dim_missing (some dl) k ++
        msgs_dim (some dl) k (PyValue.int ei) ++
        msgs_dictionaries (slst.map PyValue.str) k) ≠ [] := by
      intro h0
      have : Msg.embeddingDimPerFactorMismatch (PyValue.int ei) dl.sum ∈
          ([] : List Msg) := by
        rw [← h0]
        simp [List.mem_append, hdim]
      simp at this
    simp [read_config_from_cmdline, hp, hcheck, hne]
    intro _ _ _ _ h5 _
    rw [hdim] at h5
    simp at h5

/-- The command line `--factors 2 --dim_per_factor 300 200
--embedding_size 512 --dictionaries D1 D2 D3`. -/
def c6_cmdline : Cmdline :=
  [("factors", PyValue.int 2),
   ("dim_per_factor", PyValue.list [PyValue.int 300, PyValue.int 200]),
   ("embedding_size", PyValue.int 512),
   ("dictionaries", PyValue.list [PyValue.str "D1", PyValue.str "D2", PyValue.str "D3"])]

/-- Witness for C6 at the concrete command line: 300 + 200 = 500 ≠ 512,
the message is reported, and the reader exits 1. -/
theorem C6_dim_sum_mismatch_fails_witness :
    Msg.embeddingDimPerFactorMismatch (PyValue.int 512) 500 ∈
      [Msg.sourceDatasetRequired,
       Msg.embeddingDimPerFactorMismatch (PyValue.int 512) 500] ∧
    read_config_from_cmdline envEmpty c6_cmdline =
      Except.error (PyErr.systemExit 1) :=
  ⟨(C6_dim_sum_mismatch_fails envEmpty c6_cmdline (parseNamespace c6_cmdline)
      [300, 200] 2 512 rfl rfl rfl rfl (by decide) (by decide)).1
      [Msg.sourceDatasetRequired,
       Msg.embeddingDimPerFactorMismatch (PyValue.int 512) 500] rfl,
   (C6_dim_sum_mismatch_fails envEmpty c6_cmdline (parseNamespace c6_cmdline)
      [300, 200] 2 512 rfl rfl rfl rfl (by decide) (by decide)).2⟩

/-! ## Further association-list and loader-phase lemmas (toward C5 and C2) -/

theorem getattr_delattr_ne (c : Config) (n m : String) (h : n ≠ m) :
    getattr (delattr c n) m = getattr c m := by
  induction c with
  | nil => rfl
  | cons p rest ih =>
      obtain ⟨k, w⟩ := p
      by_cases hk : k = n
      · subst hk; simp [delattr, h]
      · simp [delattr, hk, ih]

theorem getattr_eq_none_iff (c : Config) (n : String) :
    getattr c n = Option.none ↔ n ∉ c.map Prod.fst := by
  induction c with
  | nil => simp
  | cons p rest ih =>
      obtain ⟨k, w⟩ := p
      simp only [getattr_cons, List.map_cons, List.mem_cons, not_or]
      by_cases hk : k = n
      · subst hk
        simp
      · rw [if_neg hk, ih]
        constructor
        · intro h
          exact ⟨fun hh => hk hh.symm, h⟩
        · intro h
          exact h.2

theorem keys_setattr (c : Config) (n : String) (v : PyValue)
    (h : n ∉ c.map Prod.fst) :
    (setattr c n v).map Prod.fst = c.map Prod.fst ++ [n] := by
  induction c with
  | nil => rfl
  | cons p rest ih =>
      obtain ⟨k, w⟩ := p
      simp only [List.map_cons, List.mem_cons, not_or] at h
      obtain ⟨hk, hrest⟩ := h
      rw [setattr, if_neg (fun hh : k = n => hk hh.symm)]
      simp [ih hrest]

theorem getattr_delattr_self_of_nodup (c : Config) (n : String)
    (h : (c.map Prod.fst).Nodup) :
    getattr (delattr c n) n = Option.none := by
  induction c with
  | nil => rfl
  | cons p rest ih =>
      obtain ⟨k, w⟩ := p
      simp at h
      obtain ⟨hk, hrest⟩ := h
      by_cases hkn : k = n
      · subst hkn
        simp [delattr, (getattr_eq_none_iff rest k).mpr (by simpa using hk)]
      · simp [delattr, hkn, ih hrest]



@[simp] theorem migrate_legacy_names_nil (c : Config) :
    migrate_legacy_names [] c = Except.ok c := rfl

theorem migrate_legacy_names_cons_nolegacy {ps : ParameterSpecification}
    (rest : List ParameterSpecification) (c : Config) (h : ps.legacy_names = []) :
    migrate_legacy_names (ps :: rest) c = migrate_legacy_names rest c := by
  simp [migrate_legacy_names, migrate_list, h]

theorem migrate_legacy_names_cons_one {ps : ParameterSpecification} {n : String}
    (rest : List ParameterSpecification) (c : Config) (h : ps.legacy_names = [n]) :
    migrate_legacy_names (ps :: rest) c =
      (migrate_one c ps.name n) >>= (fun c' => migrate_legacy_names rest c') := by
  simp only [migrate_legacy_names, migrate_list, h]
  cases migrate_one c ps.name n <;> simp [migrate_list]

theorem migrate_one_ok_preserves {c c' : Config} {p n : String}
    (h : migrate_one c p n = Except.ok c') (m : String) (hp : m ≠ p) (hn : m ≠ n) :
    getattr c' m = getattr c m := by
  unfold migrate_one at h
  by_cases h1 : hasattr c n
  · rw [if_pos h1] at h
    obtain ⟨v, hv⟩ := Option.isSome_iff_exists.mp h1
    rw [getAttrE_eq_ok hv] at h
    simp only [exceptOkBind] at h
    by_cases h2 : hasattr c p
    · simp [h2] at h
    · simp only [h2, Bool.false_eq_true, if_false] at h
      injection h with h
      subst h
      rw [getattr_delattr_ne _ _ _ (fun hh => hn hh.symm),
          getattr_setattr_ne _ _ _ _ (fun hh => hp hh.symm)]
  · rw [if_neg h1] at h
    injection h with h
    subst h
    rfl
@[simp] theorem exceptBindPureEq {ε α : Type} (x : Except ε α) :
    (x >>= fun a => Except.ok a) = x := by
  cases x <;> rfl

theorem nodup_keys_setattr_fresh {c : Config} {n : String} {v : PyValue}
    (hn : getattr c n = Option.none) (h : (c.map Prod.fst).Nodup) :
    ((setattr c n v).map Prod.fst).Nodup := by
  rw [keys_setattr c n v ((getattr_eq_none_iff c n).mp hn)]
  simp [List.nodup_append, h, (getattr_eq_none_iff c n).mp hn]

theorem fill_missing_getattr_of_present {l : List ParameterSpecification}
    {c : Config} {n : String} {v : PyValue} (h : getattr c n = some v) :
    getattr (fill_missing l c) n = some v := by
  induction l generalizing c with
  | nil => exact h
  | cons ps rest ih =>
      by_cases hh : hasattr c ps.name
      · simp only [fill_missing, hh, if_true]
        exact ih h
      · have hne : ps.name ≠ n := by
          intro h2
          rw [h2] at hh
          simp [hasattr, h] at hh
        simp only [fill_missing, hh, Bool.false_eq_true, if_false]
        exact ih (by rw [getattr_setattr_ne _ _ _ _ hne]; exact h)

theorem fill_missing_getattr_not_mem {l : List ParameterSpecification}
    {c : Config} {n : String} (h : n ∉ l.map (fun ps => ps.name)) :
    getattr (fill_missing l c) n = getattr c n := by
  induction l generalizing c with
  | nil => rfl
  | cons ps rest ih =>
      simp only [List.map_cons, List.mem_cons, not_or] at h
      obtain ⟨h1, h2⟩ := h
      by_cases hh : hasattr c ps.name
      · simp only [fill_missing, hh, if_true]
        exact ih h2
      · simp only [fill_missing, hh, Bool.false_eq_true, if_false]
        rw [ih h2, getattr_setattr_ne _ _ _ _ (fun he => h1 he.symm)]

theorem run_derivations_preserves {env : Env} {meta : MetaNS} :
    ∀ {l : List ParameterSpecification} {c0 c : Config} {n : String},
    run_derivations env meta l c0 = Except.ok c →
    (∀ ps ∈ l, ps.derivation_func.isSome = true → ps.name ≠ n) →
    getattr c n = getattr c0 n := by
  intro l
  induction l with
  | nil =>
      intro c0 c n h _
      injection h with h
      rw [h]
  | cons ps rest ih =>
      intro c0 c n h hcond
      cases hd : ps.derivation_func with
      | none =>
          rw [run_derivations, hd] at h
          exact ih h (fun q hq => hcond q (List.mem_cons_of_mem _ hq))
      | some f =>
          rw [run_derivations, hd] at h
          obtain ⟨v, hv, hrest⟩ := exceptBindOk h
          rw [ih hrest (fun q hq => hcond q (List.mem_cons_of_mem _ hq))]
          exact getattr_setattr_ne _ _ _ _
            (hcond ps (List.mem_cons_self _ _) (by rw [hd]; rfl))

theorem not_mem_derived_names {l : List ParameterSpecification} {n : String}
    (h : n ∉ (l.filter (fun ps => ps.derivation_func.isSome)).map
      (fun ps => ps.name)) :
    ∀ ps ∈ l, ps.derivation_func.isSome = true → ps.name ≠ n := by
  intro ps hmem hd he
  exact h (List.mem_map.mpr ⟨ps, List.mem_filter.mpr ⟨hmem, hd⟩, he⟩)

/-! ## C5: legacy-name migration in the file loader -/

/-- The legacy-name migration loop over the full table reduces to the
five parameters that declare legacy names, in group order. -/
theorem migrate_allParams (c : Config) :
    migrate_legacy_names allParams c =
      (migrate_one c "embedding_size" "dim_word") >>= (fun c1 =>
      (migrate_one c1 "state_size" "dim") >>= (fun c2 =>
      (migrate_one c2 "target_vocab_size" "n_words") >>= (fun c3 =>
      (migrate_one c3 "use_layer_norm" "layer_normalisation") >>= (fun c4 =>
      (migrate_one c4 "learning_rate" "lrate"))))) := by
  simp [allParams, config_spec_groups, migrate_legacy_names, migrate_list,
        ps_model_version, ps_theano_compat, ps_source_dicts, ps_target_dict,
        ps_target_embedding_size, ps_source_dataset, ps_target_dataset,
        ps_datasets, ps_dictionaries, ps_saveFreq, ps_saveto, ps_reload,
        ps_reload_training_progress, ps_summary_dir, ps_summaryFreq,
        ps_embedding_size, ps_state_size, ps_source_vocab_sizes,
        ps_target_vocab_size, ps_factors, ps_dim_per_factor, ps_enc_depth,
        ps_enc_recurrence_transition_depth, ps_dec_depth,
        ps_dec_base_recurrence_transition_depth,
        ps_dec_high_recurrence_transition_depth, ps_dec_deep_context,
        ps_use_dropout, ps_dropout_embedding, ps_dropout_hidden,
        ps_dropout_source, ps_dropout_target, ps_use_layer_norm,
        ps_tie_encoder_decoder_embeddings, ps_tie_decoder_embeddings,
        ps_output_hidden_activation, ps_softmax_mixture_size, ps_maxlen,
        ps_batch_size, ps_token_batch_size, ps_max_epochs, ps_finish_after,
        ps_decay_c, ps_map_decay_c, ps_prior_model, ps_clip_c,
        ps_label_smoothing, ps_shuffle_each_epoch, ps_keep_train_set_in_memory,
        ps_sort_by_length, ps_maxibatch_size, ps_optimizer, ps_learning_rate,
        ps_adam_beta1, ps_adam_beta2, ps_adam_epsilon, ps_valid_source_dataset,
        ps_valid_target_dataset, ps_valid_datasets, ps_valid_batch_size,
        ps_valid_token_batch_size, ps_validFreq, ps_valid_script, ps_patience,
        ps_dispFreq, ps_sampleFreq, ps_beamFreq, ps_beam_size, ps_normalize,
        ps_n_best, ps_translation_maxlen]

/-- The configuration a successful load yields (`[]` when the load
fails). -/
def loadedOrNil (env : Env) (file : Option (List (String × PyValue))) : Config :=
  match load_config_from_json_file env file with
  | Except.ok c => c
  | Except.error _ => []

/-- A persisted pre-rename configuration holding `dim_word = 300` and no
`embedding_size`. -/
def c5_file : Config :=
  [("dim_word", PyValue.int 300), ("source_dataset", PyValue.str "A"),
   ("target_dataset", PyValue.str "B"),
   ("dictionaries", PyValue.list [PyValue.str "D1", PyValue.str "D2"]),
   ("source_vocab_sizes", PyValue.list [PyValue.int 7]),
   ("target_vocab_size", PyValue.int 9), ("factors", PyValue.int 1),
   ("valid_source_dataset", PyValue.str "V"),
   ("valid_target_dataset", PyValue.str "W")]

/-- A file holding both the legacy `dim_word` and the current
`embedding_size`. -/
def c5_both_file : Config :=
  [("dim_word", PyValue.int 300), ("embedding_size", PyValue.int 512)]



/-! ## C2: the command-line/file round trip

Helper lemmas evaluating each derivation function at a configuration
whose relevant attributes are known, followed by the round-trip theorem
itself. -/

set_option maxHeartbeats 2000000 in
/-- The derivation loop over the full table reduces to the fourteen
parameters that declare derivation functions, in group order. -/
theorem run_derivations_allParams (env : Env) (meta : MetaNS) (c : Config) :
    run_derivations env meta allParams c =
      (derive_model_version env c meta) >>= (fun v1 =>
      (derive_theano_compat env (setattr c "model_version" v1) meta) >>= (fun v2 =>
      (derive_source_dicts env (setattr (setattr c "model_version" v1) "theano_compat" v2) meta) >>= (fun v3 =>
      (derive_target_dict env (setattr (setattr (setattr c "model_version" v1) "theano_compat" v2) "source_dicts" v3) meta) >>= (fun v4 =>
      (derive_target_embedding_size env (setattr (setattr (setattr (setattr c "model_version" v1) "theano_compat" v2) "source_dicts" v3) "target_dict" v4) meta) >>= (fun v5 =>
      (derive_source_dataset env (setattr (setattr (setattr (setattr (setattr c "model_version" v1) "theano_compat" v2) "source_dicts" v3) "target_dict" v4) "target_embedding_size" v5) meta) >>= (fun v6 =>
      (derive_target_dataset env (setattr (setattr (setattr (setattr (setattr (setattr c "model_version" v1) "theano_compat" v2) "source_dicts" v3) "target_dict" v4) "target_embedding_size" v5) "source_dataset" v6) meta) >>= (fun v7 =>
      (derive_source_vocab_sizes env (setattr (setattr (setattr (setattr (setattr (setattr (setattr c "model_version" v1) "theano_compat" v2) "source_dicts" v3) "target_dict" v4) "target_embedding_size" v5) "source_dataset" v6) "target_dataset" v7) meta) >>= (fun v8 =>
      (derive_target_vocab_size env (setattr (setattr (setattr (setattr (setattr (setattr (setattr (setattr c "model_version" v1) "theano_compat" v2) "source_dicts" v3) "target_dict" v4) "target_embedding_size" v5) "source_dataset" v6) "target_dataset" v7) "source_vocab_sizes" v8) meta) >>= (fun v9 =>
      (derive_dim_per_factor env (setattr (setattr (setattr (setattr (setattr (setattr (setattr (setattr (setattr c "model_version" v1) "theano_compat" v2) "source_dicts" v3) "target_dict" v4) "target_embedding_size" v5) "source_dataset" v6) "target_dataset" v7) "source_vocab_sizes" v8) "target_vocab_size" v9) meta) >>= (fun v10 =>
      (derive_dropout_embedding env (setattr (setattr (setattr (setattr (setattr (setattr (setattr (setattr (setattr (setattr c "model_version" v1) "theano_compat" v2) "source_dicts" v3) "target_dict" v4) "target_embedding_size" v5) "source_dataset" v6) "target_dataset" v7) "source_vocab_sizes" v8) "target_vocab_size" v9) "dim_per_factor" v10) meta) >>= (fun v11 =>
      (derive_dropout_hidden env (setattr (setattr (setattr (setattr (setattr (setattr (setattr (setattr (setattr (setattr (setattr c "model_version" v1) "theano_compat" v2) "source_dicts" v3) "target_dict" v4) "target_embedding_size" v5) "source_dataset" v6) "target_dataset" v7) "source_vocab_sizes" v8) "target_vocab_size" v9) "dim_per_factor" v10) "dropout_embedding" v11) meta) >>= (fun v12 =>
      (derive_valid_source_dataset env (setattr (setattr (setattr (setattr (setattr (setattr (setattr (setattr (setattr (setattr (setattr (setattr c "model_version" v1) "theano_compat" v2) "source_dicts" v3) "target_dict" v4) "target_embedding_size" v5) "source_dataset" v6) "target_dataset" v7) "source_vocab_sizes" v8) "target_vocab_size" v9) "dim_per_factor" v10) "dropout_embedding" v11) "dropout_hidden" v12) meta) >>= (fun v13 =>
      (derive_valid_target_dataset env (setattr (setattr (setattr (setattr (setattr (setattr (setattr (setattr (setattr (setattr (setattr (setattr (setattr c "model_version" v1) "theano_compat" v2) "source_dicts" v3) "target_dict" v4) "target_embedding_size" v5) "source_dataset" v6) "target_dataset" v7) "source_vocab_sizes" v8) "target_vocab_size" v9) "dim_per_factor" v10) "dropout_embedding" v11) "dropout_hidden" v12) "valid_source_dataset" v13) meta) >>= (fun v14 =>
      Except.ok (setattr (setattr (setattr (setattr (setattr (setattr (setattr (setattr (setattr (setattr (setattr (setattr (setattr (setattr c "model_version" v1) "theano_compat" v2) "source_dicts" v3) "target_dict" v4) "target_embedding_size" v5) "source_dataset" v6) "target_dataset" v7) "source_vocab_sizes" v8) "target_vocab_size" v9) "dim_per_factor" v10) "dropout_embedding" v11) "dropout_hidden" v12) "valid_source_dataset" v13) "valid_target_dataset" v14))))))))))))))) := by
  simp [allParams, config_spec_groups, run_derivations, ps_adam_beta1, ps_adam_beta2, ps_adam_epsilon, ps_batch_size, ps_beamFreq, ps_beam_size, ps_clip_c, ps_datasets, ps_dec_base_recurrence_transition_depth, ps_dec_deep_context, ps_dec_depth, ps_dec_high_recurrence_transition_depth, ps_decay_c, ps_dictionaries, ps_dim_per_factor, ps_dispFreq, ps_dropout_embedding, ps_dropout_hidden, ps_dropout_source, ps_dropout_target, ps_embedding_size, ps_enc_depth, ps_enc_recurrence_transition_depth, ps_factors, ps_finish_after, ps_keep_train_set_in_memory, ps_label_smoothing, ps_learning_rate, ps_map_decay_c, ps_max_epochs, ps_maxibatch_size, ps_maxlen, ps_model_version, ps_n_best, ps_normalize, ps_optimizer, ps_output_hidden_activation, ps_patience, ps_prior_model, ps_reload, ps_reload_training_progress, ps_sampleFreq, ps_saveFreq, ps_saveto, ps_shuffle_each_epoch, ps_softmax_mixture_size, ps_sort_by_length, ps_source_dataset, ps_source_dicts, ps_source_vocab_sizes, ps_state_size, ps_summaryFreq, ps_summary_dir, ps_target_dataset, ps_target_dict, ps_target_embedding_size, ps_target_vocab_size, ps_theano_compat, ps_tie_decoder_embeddings, ps_tie_encoder_decoder_embeddings, ps_token_batch_size, ps_translation_maxlen, ps_use_dropout, ps_use_layer_norm, ps_validFreq, ps_valid_batch_size, ps_valid_datasets, ps_valid_script, ps_valid_source_dataset, ps_valid_target_dataset, ps_valid_token_batch_size]

theorem hasattr_setattr_mono {c : Config} {m : String} (n : String) (v : PyValue)
    (h : hasattr c m = true) : hasattr (setattr c n v) m = true := by
  by_cases hnm : n = m
  · subst hnm
    simp [hasattr, getattr_setattr_self]
  · rw [hasattr, getattr_setattr_ne _ _ _ _ hnm]
    exact h

theorem fill_missing_id {l : List ParameterSpecification} {c : Config}
    (h : ∀ ps ∈ l, hasattr c ps.name = true) : fill_missing l c = c := by
  induction l with
  | nil => rfl
  | cons ps rest ih =>
      simp only [fill_missing, h ps (List.mem_cons_self _ _), if_true]
      exact ih (fun q hq => h q (List.mem_cons_of_mem _ hq))

theorem fillVocabSizes_length {env : Env} {c : Config} :
    ∀ {l : List PyValue} {i : Nat} {l' : List PyValue},
    fillVocabSizes env c l i = Except.ok l' → l'.length = l.length := by
  intro l
  induction l with
  | nil =>
      intro i l' h
      injection h with h
      rw [← h]
  | cons x xs ih =>
      intro i l' h
      rw [fillVocabSizes] at h
      obtain ⟨n, hn, h⟩ := exceptBindOk h
      by_cases hge : n ≥ 0
      · simp only [hge, if_true, exceptOkBind] at h
        obtain ⟨ys, hys, h⟩ := exceptBindOk h
        injection h with h
        rw [← h]
        simp [ih hys]
      · simp only [hge, if_false, exceptOkBind] at h
        obtain ⟨ds, hds, h⟩ := exceptBindOk h
        obtain ⟨path, hpath, h⟩ := exceptBindOk h
        obtain ⟨sz, hsz, h⟩ := exceptBindOk h
        obtain ⟨ys, hys, h⟩ := exceptBindOk h
        injection h with h
        rw [← h]
        simp [ih hys]

theorem hasattr_parseNamespace (s : Cmdline) {ps : ParameterSpecification}
    (hmem : ps ∈ allParams) : hasattr (parseNamespace s) ps.name = true := by
  rw [hasattr, parseNamespace, getattr_map_name]
  have hs : (allParams.find? (fun q => q.name == ps.name)).isSome :=
    List.find?_isSome.mpr ⟨ps, hmem, by simp⟩
  cases hfind : allParams.find? (fun q => q.name == ps.name) with
  | none => rw [hfind] at hs; simp at hs
  | some q => simp

theorem derive_model_version_stored {env : Env} {c : Config} {meta : MetaNS}
    {v : PyValue} (hm : meta.from_cmdline = false)
    (h : getattr c "model_version" = some v) (hv : v.isNone = false) :
    derive_model_version env c meta = Except.ok v := by
  simp [derive_model_version, hm, getAttrE_eq_ok h, hv]

theorem derive_source_dataset_stored {env : Env} {c : Config} {meta : MetaNS}
    {v : PyValue} (h : getattr c "source_dataset" = some v) (hv : v.isNone = false) :
    derive_source_dataset env c meta = Except.ok v := by
  simp [derive_source_dataset, getAttrE_eq_ok h, hv]

theorem derive_target_dataset_stored {env : Env} {c : Config} {meta : MetaNS}
    {v : PyValue} (h : getattr c "target_dataset" = some v) (hv : v.isNone = false) :
    derive_target_dataset env c meta = Except.ok v := by
  simp [derive_target_dataset, getAttrE_eq_ok h, hv]

theorem derive_valid_source_dataset_stored {env : Env} {c : Config} {meta : MetaNS}
    {v : PyValue} (h : getattr c "valid_source_dataset" = some v)
    (hv : v.isNone = false) :
    derive_valid_source_dataset env c meta = Except.ok v := by
  simp [derive_valid_source_dataset, getAttrE_eq_ok h, hv]

theorem derive_valid_target_dataset_stored {env : Env} {c : Config} {meta : MetaNS}
    {v : PyValue} (h : getattr c "valid_target_dataset" = some v)
    (hv : v.isNone = false) :
    derive_valid_target_dataset env c meta = Except.ok v := by
  simp [derive_valid_target_dataset, getAttrE_eq_ok h, hv]

theorem derive_dim_per_factor_stored {env : Env} {c : Config} {meta : MetaNS}
    {v : PyValue} (h : getattr c "dim_per_factor" = some v) (hv : v.isNone = false) :
    derive_dim_per_factor env c meta = Except.ok v := by
  simp [derive_dim_per_factor, getAttrE_eq_ok h, hv]

theorem derive_dropout_embedding_stored {env : Env} {c : Config} {meta : MetaNS}
    {v : PyValue} (h : getattr c "dropout_embedding" = some v) (hv : v.isNone = false) :
    derive_dropout_embedding env c meta = Except.ok v := by
  simp [derive_dropout_embedding, getAttrE_eq_ok h, hv]

theorem derive_dropout_hidden_stored {env : Env} {c : Config} {meta : MetaNS}
    {v : PyValue} (h : getattr c "dropout_hidden" = some v) (hv : v.isNone = false) :
    derive_dropout_hidden env c meta = Except.ok v := by
  simp [derive_dropout_hidden, getAttrE_eq_ok h, hv]

theorem derive_target_vocab_size_stored {env : Env} {c : Config} {meta : MetaNS}
    {v : PyValue} (h : getattr c "target_vocab_size" = some v)
    (hv : pyEq v (PyValue.int (-1)) = false) :
    derive_target_vocab_size env c meta = Except.ok v := by
  simp [derive_target_vocab_size, getAttrE_eq_ok h, hv]

theorem derive_target_vocab_size_refill {env : Env} {c : Config} {meta : MetaNS}
    {L : List PyValue} {lastv : PyValue} {sz : Int}
    (h : getattr c "target_vocab_size" = some (PyValue.int (-1)))
    (hd : getattr c "dictionaries" = some (PyValue.list L))
    (hlast : L.getLast? = some lastv)
    (hdet : determine_vocab_size_from_file env lastv = Except.ok sz) :
    derive_target_vocab_size env c meta = Except.ok (PyValue.int sz) := by
  simp [derive_target_vocab_size, getAttrE_eq_ok h, getAttrE_eq_ok hd, pyEq,
        pyLast, hlast, hdet]

theorem derive_theano_compat_eval (env : Env) (c : Config) (meta : MetaNS) :
    derive_theano_compat env c meta = Except.ok (PyValue.bool meta.from_theano) := rfl

theorem derive_source_dicts_eval {env : Env} {c : Config} {meta : MetaNS}
    {L : List PyValue} (h : getattr c "dictionaries" = some (PyValue.list L)) :
    derive_source_dicts env c meta = Except.ok (PyValue.list L.dropLast) := by
  simp [derive_source_dicts, getAttrE_eq_ok h]

theorem derive_target_dict_eval {env : Env} {c : Config} {meta : MetaNS}
    {L : List PyValue} {lastv : PyValue}
    (h : getattr c "dictionaries" = some (PyValue.list L))
    (hlast : L.getLast? = some lastv) :
    derive_target_dict env c meta = Except.ok lastv := by
  simp [derive_target_dict, getAttrE_eq_ok h, pyLast, hlast]

theorem derive_tes_untied {env : Env} {c : Config} {meta : MetaNS} {ev : PyValue}
    (he : getattr c "embedding_size" = some ev)
    (ht : getattr c "tie_encoder_decoder_embeddings" = some (PyValue.bool false)) :
    derive_target_embedding_size env c meta = Except.ok ev := by
  have hE : hasattr c "embedding_size" = true := by simp [hasattr, he]
  simp [derive_target_embedding_size, hE, getAttrE_eq_ok ht, getAttrE_eq_ok he,
        pyTruthy]

theorem derive_tes_tied_small {env : Env} {c : Config} {meta : MetaNS} {ev : PyValue}
    {k : Int} (he : getattr c "embedding_size" = some ev)
    (ht : getattr c "tie_encoder_decoder_embeddings" = some (PyValue.bool true))
    (hf : getattr c "factors" = some (PyValue.int k)) (hk : ¬ 1 < k) :
    derive_target_embedding_size env c meta = Except.ok ev := by
  have hE : hasattr c "embedding_size" = true := by simp [hasattr, he]
  simp [derive_target_embedding_size, hE, getAttrE_eq_ok ht, getAttrE_eq_ok he,
        getAttrE_eq_ok hf, pyTruthy, asInt, hk]

theorem derive_tes_tied_big {env : Env} {c : Config} {meta : MetaNS} {ev d : PyValue}
    {ds : List PyValue} {k : Int} (he : getattr c "embedding_size" = some ev)
    (ht : getattr c "tie_encoder_decoder_embeddings" = some (PyValue.bool true))
    (hf : getattr c "factors" = some (PyValue.int k)) (hk : 1 < k)
    (hd : getattr c "dim_per_factor" = some (PyValue.list (d :: ds))) :
    derive_target_embedding_size env c meta = Except.ok d := by
  have hE : hasattr c "embedding_size" = true := by simp [hasattr, he]
  have hD : hasattr c "dim_per_factor" = true := by simp [hasattr, hd]
  simp [derive_target_embedding_size, hE, hD, getAttrE_eq_ok ht, getAttrE_eq_ok he,
        getAttrE_eq_ok hf, getAttrE_eq_ok hd, pyTruthy, asInt, hk,
        PyValue.isNone, pyIndexV, pyIndex]

theorem derive_tes_tied_none_fails {env : Env} {c : Config} {meta : MetaNS}
    {ev : PyValue} {k : Int} (he : getattr c "embedding_size" = some ev)
    (ht : getattr c "tie_encoder_decoder_embeddings" = some (PyValue.bool true))
    (hf : getattr c "factors" = some (PyValue.int k)) (hk : 1 < k)
    (hd : getattr c "dim_per_factor" = some PyValue.none) :
    derive_target_embedding_size env c meta = Except.error PyErr.assertionError := by
  have hE : hasattr c "embedding_size" = true := by simp [hasattr, he]
  have hD : hasattr c "dim_per_factor" = true := by simp [hasattr, hd]
  simp [derive_target_embedding_size, hE, hD, getAttrE_eq_ok ht, getAttrE_eq_ok he,
        getAttrE_eq_ok hf, pyTruthy, asInt, hk, getAttrE_eq_ok hd, PyValue.isNone]

theorem derive_svs_case1 {env : Env} {c : Config} {meta : MetaNS}
    {l : List PyValue} {k : Int}
    (hs : getattr c "source_vocab_sizes" = some (PyValue.list l))
    (hf : getattr c "factors" = some (PyValue.int k))
    (hlen : (l.length : Int) = k) :
    derive_source_vocab_sizes env c meta = Except.ok (PyValue.list l) := by
  simp [derive_source_vocab_sizes, getAttrE_eq_ok hs, getAttrE_eq_ok hf,
        PyValue.isNone, pyLen, asInt, hlen]

theorem derive_svs_cmdline_shape {env : Env} {c : Config} {v svsv : PyValue} {k : Int}
    (hs : getattr c "source_vocab_sizes" = some svsv)
    (hshape : svsv = PyValue.none ∨ ∃ l : List PyValue, svsv = PyValue.list l)
    (hf : getattr c "factors" = some (PyValue.int k))
    (hnw : getattr c "n_words_src" = Option.none)
    (hsv : getattr c "source_vocab_size" = Option.none)
    (hk : 0 ≤ k)
    (h : derive_source_vocab_sizes env c { from_cmdline := true, from_theano := false } =
      Except.ok v) :
    ∃ l : List PyValue, v = PyValue.list l ∧ (l.length : Int) = k := by
  rcases hshape with rfl | ⟨l, rfl⟩
  · have h1 : hasattr c "n_words_src" = false := by simp [hasattr, hnw]
    have h2 : hasattr c "source_vocab_size" = false := by simp [hasattr, hsv]
    simp only [derive_source_vocab_sizes, getAttrE_eq_ok hs, getAttrE_eq_ok hf,
      exceptOkBind, PyValue.isNone, h1, h2, Bool.not_true, Bool.false_eq_true,
      if_false, Bool.not_false, if_true, asInt, not_true, not_false_iff] at h
    obtain ⟨filled, hfill, h⟩ := exceptBindOk h
    injection h with h
    refine ⟨filled, h.symm, ?_⟩
    rw [fillVocabSizes_length hfill]
    simp [pyRepeat, Int.toNat_of_nonneg hk]
  · simp only [derive_source_vocab_sizes, getAttrE_eq_ok hs, getAttrE_eq_ok hf,
      exceptOkBind, PyValue.isNone, Bool.not_false, if_true, pyLen, asInt] at h
    by_cases hlen : (l.length : Int) = k
    · simp only [hlen, if_true] at h
      injection h with h
      exact ⟨l, h.symm, hlen⟩
    · simp only [hlen, if_false] at h
      by_cases hlt : (l.length : Int) < k
      · simp only [hlt, not_true, not_false_iff, if_false, if_true,
          Bool.not_true, MetaNS.from_cmdline] at h
        obtain ⟨filled, hfill, h⟩ := exceptBindOk h
        injection h with h
        refine ⟨filled, h.symm, ?_⟩
        rw [fillVocabSizes_length hfill]
        simp [pyRepeat]
        omega
      · simp [hlt] at h

theorem derive_sd_ok_notnone {env : Env} {c : Config} {meta : MetaNS}
    {v sd dsv : PyValue}
    (hsd : getattr c "source_dataset" = some sd)
    (hsshape : sd = PyValue.none ∨ ∃ a, sd = PyValue.str a)
    (hds : getattr c "datasets" = some dsv)
    (hdshape : dsv = PyValue.none ∨
      ∃ a b, dsv = PyValue.list [PyValue.str a, PyValue.str b])
    (h : derive_source_dataset env c meta = Except.ok v) :
    v.isNone = false := by
  rcases hsshape with rfl | ⟨a, rfl⟩
  · rcases hdshape with rfl | ⟨a, b, rfl⟩
    · simp [derive_source_dataset, getAttrE_eq_ok hsd, getAttrE_eq_ok hds,
            PyValue.isNone] at h
    · simp [derive_source_dataset, getAttrE_eq_ok hsd, getAttrE_eq_ok hds,
            PyValue.isNone, pyIndexV, pyIndex] at h
      rw [← h]
      rfl
  · simp [derive_source_dataset, getAttrE_eq_ok hsd, PyValue.isNone] at h
    rw [← h]
    rfl

theorem derive_td_ok_notnone {env : Env} {c : Config} {meta : MetaNS}
    {v td dsv : PyValue}
    (htd : getattr c "target_dataset" = some td)
    (htshape : td = PyValue.none ∨ ∃ a, td = PyValue.str a)
    (hds : getattr c "datasets" = some dsv)
    (hdshape : dsv = PyValue.none ∨
      ∃ a b, dsv = PyValue.list [PyValue.str a, PyValue.str b])
    (h : derive_target_dataset env c meta = Except.ok v) :
    v.isNone = false := by
  rcases htshape with rfl | ⟨a, rfl⟩
  · rcases hdshape with rfl | ⟨a, b, rfl⟩
    · simp [derive_target_dataset, getAttrE_eq_ok htd, getAttrE_eq_ok hds,
            PyValue.isNone] at h
    · simp [derive_target_dataset, getAttrE_eq_ok htd, getAttrE_eq_ok hds,
            PyValue.isNone, pyIndexV, pyIndex] at h
      rw [← h]
      rfl
  · simp [derive_target_dataset, getAttrE_eq_ok htd, PyValue.isNone] at h
    rw [← h]
    rfl

theorem derive_vsd_ok_notnone {env : Env} {c : Config} {meta : MetaNS}
    {v sd dsv : PyValue}
    (hsd : getattr c "valid_source_dataset" = some sd)
    (hsshape : sd = PyValue.none ∨ ∃ a, sd = PyValue.str a)
    (hds : getattr c "valid_datasets" = some dsv)
    (hdshape : dsv = PyValue.none ∨
      ∃ a b, dsv = PyValue.list [PyValue.str a, PyValue.str b])
    (h : derive_valid_source_dataset env c meta = Except.ok v) :
    v.isNone = false := by
  rcases hsshape with rfl | ⟨a, rfl⟩
  · rcases hdshape with rfl | ⟨a, b, rfl⟩
    · simp [derive_valid_source_dataset, getAttrE_eq_ok hsd, getAttrE_eq_ok hds,
            PyValue.isNone] at h
    · simp [derive_valid_source_dataset, getAttrE_eq_ok hsd, getAttrE_eq_ok hds,
            PyValue.isNone, pyIndexV, pyIndex] at h
      rw [← h]
      rfl
  · simp [derive_valid_source_dataset, getAttrE_eq_ok hsd, PyValue.isNone] at h
    rw [← h]
    rfl

theorem derive_vtd_ok_notnone {env : Env} {c : Config} {meta : MetaNS}
    {v td dsv : PyValue}
    (htd : getattr c "valid_target_dataset" = some td)
    (htshape : td = PyValue.none ∨ ∃ a, td = PyValue.str a)
    (hds : getattr c "valid_datasets" = some dsv)
    (hdshape : dsv = PyValue.none ∨
      ∃ a b, dsv = PyValue.list [PyValue.str a, PyValue.str b])
    (h : derive_valid_target_dataset env c meta = Except.ok v) :
    v.isNone = false := by
  rcases htshape with rfl | ⟨a, rfl⟩
  · rcases hdshape with rfl | ⟨a, b, rfl⟩
    · simp [derive_valid_target_dataset, getAttrE_eq_ok htd, getAttrE_eq_ok hds,
            PyValue.isNone] at h
    · simp [derive_valid_target_dataset, getAttrE_eq_ok htd, getAttrE_eq_ok hds,
            PyValue.isNone, pyIndexV, pyIndex] at h
      rw [← h]
      rfl
  · simp [derive_valid_target_dataset, getAttrE_eq_ok htd, PyValue.isNone] at h
    rw [← h]
    rfl

theorem derive_tvs_eval {env : Env} {c : Config} {meta : MetaNS} {v : PyValue}
    {t0 : Int} {L : List PyValue} {lastv : PyValue}
    (ht : getattr c "target_vocab_size" = some (PyValue.int t0))
    (hd : getattr c "dictionaries" = some (PyValue.list L))
    (hlast : L.getLast? = some lastv)
    (h : derive_target_vocab_size env c meta = Except.ok v) :
    (pyEq (PyValue.int t0) (PyValue.int (-1)) = false ∧ v = PyValue.int t0) ∨
    (t0 = -1 ∧ ∃ sz, determine_vocab_size_from_file env lastv = Except.ok sz ∧
      v = PyValue.int sz) := by
  by_cases h0 : t0 = -1
  · right
    subst h0
    refine ⟨rfl, ?_⟩
    simp only [derive_target_vocab_size, getAttrE_eq_ok ht, getAttrE_eq_ok hd,
      exceptOkBind, pyLast, hlast, pyEq] at h
    simp only [show ((-1 : Int) == (-1 : Int)) = true from rfl, Bool.not_true,
      Bool.true_eq_false, if_false] at h
    obtain ⟨sz, hsz, h⟩ := exceptBindOk h
    injection h with h
    exact ⟨sz, hsz, h.symm⟩
  · left
    have hpe : pyEq (PyValue.int t0) (PyValue.int (-1)) = false := by
      simp [pyEq, h0]
    refine ⟨hpe, ?_⟩
    simp only [derive_target_vocab_size, getAttrE_eq_ok ht, exceptOkBind, hpe,
      Bool.not_false, if_true] at h
    injection h with h
    exact h.symm

theorem derive_dpf_default {env : Env} {c : Config} {meta : MetaNS} {ev : PyValue}
    (hd : getattr c "dim_per_factor" = some PyValue.none)
    (hf : getattr c "factors" = some (PyValue.int 1))
    (he : getattr c "embedding_size" = some ev) :
    derive_dim_per_factor env c meta = Except.ok (PyValue.list [ev]) := by
  simp [derive_dim_per_factor, getAttrE_eq_ok hd, getAttrE_eq_ok hf,
        getAttrE_eq_ok he, PyValue.isNone, pyEq]

theorem derive_de_default {env : Env} {c : Config} {meta : MetaNS}
    (hd : getattr c "dropout_embedding" = some PyValue.none) :
    derive_dropout_embedding env c meta =
      Except.ok (PyValue.float (if meta.from_cmdline then 1/5 else 0)) := by
  simp [derive_dropout_embedding, getAttrE_eq_ok hd, PyValue.isNone]

theorem derive_dh_default {env : Env} {c : Config} {meta : MetaNS}
    (hd : getattr c "dropout_hidden" = some PyValue.none) :
    derive_dropout_hidden env c meta =
      Except.ok (PyValue.float (if meta.from_cmdline then 1/5 else 0)) := by
  simp [derive_dropout_hidden, getAttrE_eq_ok hd, PyValue.isNone]


/-! ## C5 (generalized): legacy-name migration for every legacy pair -/

theorem keys_delattr_sublist (c : Config) (n : String) :
    ((delattr c n).map Prod.fst).Sublist (c.map Prod.fst) := by
  induction c with
  | nil => exact List.Sublist.refl _
  | cons p rest ih =>
      obtain ⟨k, w⟩ := p
      by_cases hk : k = n
      · simp only [delattr, hk, if_true, List.map_cons]
        exact List.Sublist.cons _ (List.Sublist.refl _)
      · simp only [delattr, hk, if_false, List.map_cons]
        exact List.Sublist.cons₂ _ ih

theorem nodup_keys_delattr {c : Config} (n : String)
    (h : (c.map Prod.fst).Nodup) : ((delattr c n).map Prod.fst).Nodup :=
  List.Nodup.sublist (keys_delattr_sublist c n) h

theorem nodup_keys_migrate_one {c c2 : Config} {p n : String}
    (h : migrate_one c p n = Except.ok c2)
    (hnd : (c.map Prod.fst).Nodup) : (c2.map Prod.fst).Nodup := by
  unfold migrate_one at h
  by_cases h1 : hasattr c n
  · rw [if_pos h1] at h
    obtain ⟨v, hv⟩ := Option.isSome_iff_exists.mp h1
    rw [getAttrE_eq_ok hv] at h
    simp only [exceptOkBind] at h
    by_cases h2 : hasattr c p
    · simp [h2] at h
    · simp only [h2, Bool.false_eq_true, if_false] at h
      injection h with h
      have hgp : getattr c p = Option.none := by
        cases hg : getattr c p with
        | none => rfl
        | some w =>
            rw [hasattr, hg] at h2
            simp at h2
      rw [← h]
      exact nodup_keys_delattr _ (nodup_keys_setattr_fresh hgp hnd)
  · rw [if_neg h1] at h
    injection h with h
    rw [← h]
    exact hnd

theorem migrate_one_error {c : Config} {p n : String} {e : PyErr}
    (h : migrate_one c p n = Except.error e) : e = PyErr.assertionError := by
  unfold migrate_one at h
  by_cases h1 : hasattr c n
  · rw [if_pos h1] at h
    obtain ⟨v, hv⟩ := Option.isSome_iff_exists.mp h1
    rw [getAttrE_eq_ok hv] at h
    simp only [exceptOkBind] at h
    by_cases h2 : hasattr c p
    · rw [if_pos h2] at h
      injection h with h
      exact h.symm
    · rw [if_neg h2] at h
      cases h
  · rw [if_neg h1] at h
    cases h

theorem migrate_list_error {p : String} :
    ∀ {ns : List String} {c : Config} {e : PyErr},
    migrate_list p ns c = Except.error e → e = PyErr.assertionError := by
  intro ns
  induction ns with
  | nil =>
      intro c e h
      cases h
  | cons n ns ih =>
      intro c e h
      rw [migrate_list] at h
      cases hm : migrate_one c p n with
      | error e2 =>
          rw [hm] at h
          simp only [exceptErrorBind] at h
          injection h with h
          rw [← h]
          exact migrate_one_error hm
      | ok c2 =>
          rw [hm] at h
          simp only [exceptOkBind] at h
          exact ih h

theorem migrate_legacy_names_error :
    ∀ {l : List ParameterSpecification} {c : Config} {e : PyErr},
    migrate_legacy_names l c = Except.error e → e = PyErr.assertionError := by
  intro l
  induction l with
  | nil =>
      intro c e h
      cases h
  | cons ps rest ih =>
      intro c e h
      rw [migrate_legacy_names] at h
      cases hm : migrate_list ps.name ps.legacy_names c with
      | error e2 =>
          rw [hm] at h
          simp only [exceptErrorBind] at h
          injection h with h
          rw [← h]
          exact migrate_list_error hm
      | ok c2 =>
          rw [hm] at h
          simp only [exceptOkBind] at h
          exact ih h

/-- The five legacy pairs the full table declares. -/
theorem legacy_pairs : ∀ ps ∈ allParams, ∀ ln ∈ ps.legacy_names,
    (ps.name = "embedding_size" ∧ ln = "dim_word") ∨
    (ps.name = "state_size" ∧ ln = "dim") ∨
    (ps.name = "target_vocab_size" ∧ ln = "n_words") ∨
    (ps.name = "use_layer_norm" ∧ ln = "layer_normalisation") ∨
    (ps.name = "learning_rate" ∧ ln = "lrate") := by
  decide

/-- A stored `target_vocab_size` other than -1 survives the derivation
pass unchanged (its own derivation returns the stored value and no
other derivation writes it). -/
theorem run_derivations_tvs_stored {env : Env} {meta : MetaNS} {cf c : Config}
    {v : PyValue} (h : run_derivations env meta allParams cf = Except.ok c)
    (hst : getattr cf "target_vocab_size" = some v)
    (hne : pyEq v (PyValue.int (-1)) = false) :
    getattr c "target_vocab_size" = some v := by
  rw [run_derivations_allParams] at h
  obtain ⟨v1, hv1, h⟩ := exceptBindOk h
  revert h
  generalize hc1 : setattr cf "model_version" v1 = c1
  intro h
  have hg1 : getattr c1 "target_vocab_size" = some v := by
    rw [← hc1, getattr_setattr_ne _ _ _ _ (by decide)]
    exact hst
  obtain ⟨v2, hv2, h⟩ := exceptBindOk h
  revert h
  generalize hc2 : setattr c1 "theano_compat" v2 = c2
  intro h
  have hg2 : getattr c2 "target_vocab_size" = some v := by
    rw [← hc2, getattr_setattr_ne _ _ _ _ (by decide)]
    exact hg1
  obtain ⟨v3, hv3, h⟩ := exceptBindOk h
  revert h
  generalize hc3 : setattr c2 "source_dicts" v3 = c3
  intro h
  have hg3 : getattr c3 "target_vocab_size" = some v := by
    rw [← hc3, getattr_setattr_ne _ _ _ _ (by decide)]
    exact hg2
  obtain ⟨v4, hv4, h⟩ := exceptBindOk h
  revert h
  generalize hc4 : setattr c3 "target_dict" v4 = c4
  intro h
  have hg4 : getattr c4 "target_vocab_size" = some v := by
    rw [← hc4, getattr_setattr_ne _ _ _ _ (by decide)]
    exact hg3
  obtain ⟨v5, hv5, h⟩ := exceptBindOk h
  revert h
  generalize hc5 : setattr c4 "target_embedding_size" v5 = c5
  intro h
  have hg5 : getattr c5 "target_vocab_size" = some v := by
    rw [← hc5, getattr_setattr_ne _ _ _ _ (by decide)]
    exact hg4
  obtain ⟨v6, hv6, h⟩ := exceptBindOk h
  revert h
  generalize hc6 : setattr c5 "source_dataset" v6 = c6
  intro h
  have hg6 : getattr c6 "target_vocab_size" = some v := by
    rw [← hc6, getattr_setattr_ne _ _ _ _ (by decide)]
    exact hg5
  obtain ⟨v7, hv7, h⟩ := exceptBindOk h
  revert h
  generalize hc7 : setattr c6 "target_dataset" v7 = c7
  intro h
  have hg7 : getattr c7 "target_vocab_size" = some v := by
    rw [← hc7, getattr_setattr_ne _ _ _ _ (by decide)]
    exact hg6
  obtain ⟨v8, hv8, h⟩ := exceptBindOk h
  revert h
  generalize hc8 : setattr c7 "source_vocab_sizes" v8 = c8
  intro h
  have hg8 : getattr c8 "target_vocab_size" = some v := by
    rw [← hc8, getattr_setattr_ne _ _ _ _ (by decide)]
    exact hg7
  obtain ⟨v9, hv9, h⟩ := exceptBindOk h
  revert h
  generalize hc9 : setattr c8 "target_vocab_size" v9 = c9
  intro h
  have hv9v : v9 = v := by
    rw [derive_target_vocab_size_stored hg8 hne] at hv9
    injection hv9 with hv9
    exact hv9.symm
  have hg9 : getattr c9 "target_vocab_size" = some v := by
    rw [← hc9, hv9v]
    exact getattr_setattr_self _ _ _
  obtain ⟨v10, hv10, h⟩ := exceptBindOk h
  revert h
  generalize hc10 : setattr c9 "dim_per_factor" v10 = c10
  intro h
  have hg10 : getattr c10 "target_vocab_size" = some v := by
    rw [← hc10, getattr_setattr_ne _ _ _ _ (by decide)]
    exact hg9
  obtain ⟨v11, hv11, h⟩ := exceptBindOk h
  revert h
  generalize hc11 : setattr c10 "dropout_embedding" v11 = c11
  intro h
  have hg11 : getattr c11 "target_vocab_size" = some v := by
    rw [← hc11, getattr_setattr_ne _ _ _ _ (by decide)]
    exact hg10
  obtain ⟨v12, hv12, h⟩ := exceptBindOk h
  revert h
  generalize hc12 : setattr c11 "dropout_hidden" v12 = c12
  intro h
  have hg12 : getattr c12 "target_vocab_size" = some v := by
    rw [← hc12, getattr_setattr_ne _ _ _ _ (by decide)]
    exact hg11
  obtain ⟨v13, hv13, h⟩ := exceptBindOk h
  revert h
  generalize hc13 : setattr c12 "valid_source_dataset" v13 = c13
  intro h
  have hg13 : getattr c13 "target_vocab_size" = some v := by
    rw [← hc13, getattr_setattr_ne _ _ _ _ (by decide)]
    exact hg12
  obtain ⟨v14, hv14, h⟩ := exceptBindOk h
  revert h
  generalize hc14 : setattr c13 "valid_target_dataset" v14 = c14
  intro h
  have hg14 : getattr c14 "target_vocab_size" = some v := by
    rw [← hc14, getattr_setattr_ne _ _ _ _ (by decide)]
    exact hg13
  injection h with hc
  rw [← hc]
  exact hg14

set_option maxHeartbeats 2000000 in
/-- C5: for every parameter of the table that declares a legacy name,
when a loaded file mapping (with the unique keys of a Python dict)
holds a value under the legacy name and none under the current name, a
successful load has moved the value to the current name during
migration and the loaded configuration has no legacy-name attribute;
the moved value is also the value of the current name in the loaded
configuration (for `target_vocab_size`, whose own derivation replaces
a stored -1, provided the value is not -1).  When both the legacy and
the current name are present, loading fails with the
internal-consistency `AssertionError`. -/
theorem C5_legacy_name_migration :
    (∀ ps ∈ allParams, ∀ ln ∈ ps.legacy_names,
      ∀ (file : Config) (v : PyValue) (env : Env) (c : Config),
      (file.map Prod.fst).Nodup →
      getattr file ln = some v →
      getattr file ps.name = Option.none →
      load_config_from_json_file env (some file) = Except.ok c →
      (∃ m, migrate_legacy_names allParams file = Except.ok m ∧
        getattr m ps.name = some v ∧ getattr m ln = Option.none) ∧
      getattr c ln = Option.none ∧
      (ps.name = "target_vocab_size" → pyEq v (PyValue.int (-1)) = false →
        getattr c ps.name = some v) ∧
      (ps.name ≠ "target_vocab_size" → getattr c ps.name = some v)) ∧
    (∀ ps ∈ allParams, ∀ ln ∈ ps.legacy_names,
      ∀ (file : Config) (env : Env),
      hasattr file ln = true → hasattr file ps.name = true →
      load_config_from_json_file env (some file) =
        Except.error PyErr.assertionError) := by
  constructor
  · intro ps hmem ln hln file v env c hnodup hla hcur hload
    simp only [load_config_from_json_file] at hload
    obtain ⟨m, hmig, hrest⟩ := exceptBindOk hload
    have hmig0 := hmig
    rw [migrate_allParams] at hmig
    obtain ⟨m1, h1, hmig⟩ := exceptBindOk hmig
    obtain ⟨m2, h2, hmig⟩ := exceptBindOk hmig
    obtain ⟨m3, h3, hmig⟩ := exceptBindOk hmig
    obtain ⟨m4, h4, h5⟩ := exceptBindOk hmig
    rcases legacy_pairs ps hmem ln hln with
      ⟨hn, rfl⟩ | ⟨hn, rfl⟩ | ⟨hn, rfl⟩ | ⟨hn, rfl⟩ | ⟨hn, rfl⟩
    -- pair embedding_size / dim_word
    · rw [hn] at hcur ⊢
      have hstep : migrate_one file "embedding_size" "dim_word" =
          Except.ok (delattr (setattr file "embedding_size" v) "dim_word") := by
        simp [migrate_one, hasattr, hla, hcur, getAttrE_eq_ok hla]
      rw [hstep] at h1
      injection h1 with hmi
      have hX1 : getattr m1 "embedding_size" = some v := by
        rw [← hmi, getattr_delattr_ne _ _ _ (by decide), getattr_setattr_self]
      have hL1 : getattr m1 "dim_word" = Option.none := by
        rw [← hmi]
        exact getattr_delattr_self_of_nodup _ _ (nodup_keys_setattr_fresh hcur hnodup)
      have hX2 : getattr m2 "embedding_size" = some v := by
        rw [migrate_one_ok_preserves h2 _ (by decide) (by decide)]
        exact hX1
      have hL2 : getattr m2 "dim_word" = Option.none := by
        rw [migrate_one_ok_preserves h2 _ (by decide) (by decide)]
        exact hL1
      have hX3 : getattr m3 "embedding_size" = some v := by
        rw [migrate_one_ok_preserves h3 _ (by decide) (by decide)]
        exact hX2
      have hL3 : getattr m3 "dim_word" = Option.none := by
        rw [migrate_one_ok_preserves h3 _ (by decide) (by decide)]
        exact hL2
      have hX4 : getattr m4 "embedding_size" = some v := by
        rw [migrate_one_ok_preserves h4 _ (by decide) (by decide)]
        exact hX3
      have hL4 : getattr m4 "dim_word" = Option.none := by
        rw [migrate_one_ok_preserves h4 _ (by decide) (by decide)]
        exact hL3
      have hX5 : getattr m "embedding_size" = some v := by
        rw [migrate_one_ok_preserves h5 _ (by decide) (by decide)]
        exact hX4
      have hL5 : getattr m "dim_word" = Option.none := by
        rw [migrate_one_ok_preserves h5 _ (by decide) (by decide)]
        exact hL4
      refine ⟨⟨m, hmig0, hX5, hL5⟩, ?_, ?_, ?_⟩
      · rw [run_derivations_preserves hrest (not_mem_derived_names (by decide)),
            fill_missing_getattr_not_mem (by decide)]
        exact hL5
      · intro _ _
        rw [run_derivations_preserves hrest (not_mem_derived_names (by decide))]
        exact fill_missing_getattr_of_present hX5
      · intro _
        rw [run_derivations_preserves hrest (not_mem_derived_names (by decide))]
        exact fill_missing_getattr_of_present hX5
    -- pair state_size / dim
    · rw [hn] at hcur ⊢
      have hla1 : getattr m1 "dim" = some v := by
        rw [migrate_one_ok_preserves h1 _ (by decide) (by decide)]
        exact hla
      have hcur1 : getattr m1 "state_size" = Option.none := by
        rw [migrate_one_ok_preserves h1 _ (by decide) (by decide)]
        exact hcur
      have hnd1 : (m1.map Prod.fst).Nodup :=
        nodup_keys_migrate_one h1 hnodup
      have hstep : migrate_one m1 "state_size" "dim" =
          Except.ok (delattr (setattr m1 "state_size" v) "dim") := by
        simp [migrate_one, hasattr, hla1, hcur1, getAttrE_eq_ok hla1]
      rw [hstep] at h2
      injection h2 with hmi
      have hX2 : getattr m2 "state_size" = some v := by
        rw [← hmi, getattr_delattr_ne _ _ _ (by decide), getattr_setattr_self]
      have hL2 : getattr m2 "dim" = Option.none := by
        rw [← hmi]
        exact getattr_delattr_self_of_nodup _ _ (nodup_keys_setattr_fresh hcur1 hnd1)
      have hX3 : getattr m3 "state_size" = some v := by
        rw [migrate_one_ok_preserves h3 _ (by decide) (by decide)]
        exact hX2
      have hL3 : getattr m3 "dim" = Option.none := by
        rw [migrate_one_ok_preserves h3 _ (by decide) (by decide)]
        exact hL2
      have hX4 : getattr m4 "state_size" = some v := by
        rw [migrate_one_ok_preserves h4 _ (by decide) (by decide)]
        exact hX3
      have hL4 : getattr m4 "dim" = Option.none := by
        rw [migrate_one_ok_preserves h4 _ (by decide) (by decide)]
        exact hL3
      have hX5 : getattr m "state_size" = some v := by
        rw [migrate_one_ok_preserves h5 _ (by decide) (by decide)]
        exact hX4
      have hL5 : getattr m "dim" = Option.none := by
        rw [migrate_one_ok_preserves h5 _ (by decide) (by decide)]
        exact hL4
      refine ⟨⟨m, hmig0, hX5, hL5⟩, ?_, ?_, ?_⟩
      · rw [run_derivations_preserves hrest (not_mem_derived_names (by decide)),
            fill_missing_getattr_not_mem (by decide)]
        exact hL5
      · intro _ _
        rw [run_derivations_preserves hrest (not_mem_derived_names (by decide))]
        exact fill_missing_getattr_of_present hX5
      · intro _
        rw [run_derivations_preserves hrest (not_mem_derived_names (by decide))]
        exact fill_missing_getattr_of_present hX5
    -- pair target_vocab_size / n_words
    · rw [hn] at hcur ⊢
      have hla1 : getattr m1 "n_words" = some v := by
        rw [migrate_one_ok_preserves h1 _ (by decide) (by decide)]
        exact hla
      have hcur1 : getattr m1 "target_vocab_size" = Option.none := by
        rw [migrate_one_ok_preserves h1 _ (by decide) (by decide)]
        exact hcur
      have hnd1 : (m1.map Prod.fst).Nodup :=
        nodup_keys_migrate_one h1 hnodup
      have hla2 : getattr m2 "n_words" = some v := by
        rw [migrate_one_ok_preserves h2 _ (by decide) (by decide)]
        exact hla1
      have hcur2 : getattr m2 "target_vocab_size" = Option.none := by
        rw [migrate_one_ok_preserves h2 _ (by decide) (by decide)]
        exact hcur1
      have hnd2 : (m2.map Prod.fst).Nodup :=
        nodup_keys_migrate_one h2 hnd1
      have hstep : migrate_one m2 "target_vocab_size" "n_words" =
          Except.ok (delattr (setattr m2 "target_vocab_size" v) "n_words") := by
        simp [migrate_one, hasattr, hla2, hcur2, getAttrE_eq_ok hla2]
      rw [hstep] at h3
      injection h3 with hmi
      have hX3 : getattr m3 "target_vocab_size" = some v := by
        rw [← hmi, getattr_delattr_ne _ _ _ (by decide), getattr_setattr_self]
      have hL3 : getattr m3 "n_words" = Option.none := by
        rw [← hmi]
        exact getattr_delattr_self_of_nodup _ _ (nodup_keys_setattr_fresh hcur2 hnd2)
      have hX4 : getattr m4 "target_vocab_size" = some v := by
        rw [migrate_one_ok_preserves h4 _ (by decide) (by decide)]
        exact hX3
      have hL4 : getattr m4 "n_words" = Option.none := by
        rw [migrate_one_ok_preserves h4 _ (by decide) (by decide)]
        exact hL3
      have hX5 : getattr m "target_vocab_size" = some v := by
        rw [migrate_one_ok_preserves h5 _ (by decide) (by decide)]
        exact hX4
      have hL5 : getattr m "n_words" = Option.none := by
        rw [migrate_one_ok_preserves h5 _ (by decide) (by decide)]
        exact hL4
      refine ⟨⟨m, hmig0, hX5, hL5⟩, ?_, ?_, ?_⟩
      · rw [run_derivations_preserves hrest (not_mem_derived_names (by decide)),
            fill_missing_getattr_not_mem (by decide)]
        exact hL5
      · intro _ hvne
        exact run_derivations_tvs_stored hrest
          (fill_missing_getattr_of_present hX5) hvne
      · intro hne
        exact absurd rfl hne
    -- pair use_layer_norm / layer_normalisation
    · rw [hn] at hcur ⊢
      have hla1 : getattr m1 "layer_normalisation" = some v := by
        rw [migrate_one_ok_preserves h1 _ (by decide) (by decide)]
        exact hla
      have hcur1 : getattr m1 "use_layer_norm" = Option.none := by
        rw [migrate_one_ok_preserves h1 _ (by decide) (by decide)]
        exact hcur
      have hnd1 : (m1.map Prod.fst).Nodup :=
        nodup_keys_migrate_one h1 hnodup
      have hla2 : getattr m2 "layer_normalisation" = some v := by
        rw [migrate_one_ok_preserves h2 _ (by decide) (by decide)]
        exact hla1
      have hcur2 : getattr m2 "use_layer_norm" = Option.none := by
        rw [migrate_one_ok_preserves h2 _ (by decide) (by decide)]
        exact hcur1
      have hnd2 : (m2.map Prod.fst).Nodup :=
        nodup_keys_migrate_one h2 hnd1
      have hla3 : getattr m3 "layer_normalisation" = some v := by
        rw [migrate_one_ok_preserves h3 _ (by decide) (by decide)]
        exact hla2
      have hcur3 : getattr m3 "use_layer_norm" = Option.none := by
        rw [migrate_one_ok_preserves h3 _ (by decide) (by decide)]
        exact hcur2
      have hnd3 : (m3.map Prod.fst).Nodup :=
        nodup_keys_migrate_one h3 hnd2
      have hstep : migrate_one m3 "use_layer_norm" "layer_normalisation" =
          Except.ok (delattr (setattr m3 "use_layer_norm" v) "layer_normalisation") := by
        simp [migrate_one, hasattr, hla3, hcur3, getAttrE_eq_ok hla3]
      rw [hstep] at h4
      injection h4 with hmi
      have hX4 : getattr m4 "use_layer_norm" = some v := by
        rw [← hmi, getattr_delattr_ne _ _ _ (by decide), getattr_setattr_self]
      have hL4 : getattr m4 "layer_normalisation" = Option.none := by
        rw [← hmi]
        exact getattr_delattr_self_of_nodup _ _ (nodup_keys_setattr_fresh hcur3 hnd3)
      have hX5 : getattr m "use_layer_norm" = some v := by
        rw [migrate_one_ok_preserves h5 _ (by decide) (by decide)]
        exact hX4
      have hL5 : getattr m "layer_normalisation" = Option.none := by
        rw [migrate_one_ok_preserves h5 _ (by decide) (by decide)]
        exact hL4
      refine ⟨⟨m, hmig0, hX5, hL5⟩, ?_, ?_, ?_⟩
      · rw [run_derivations_preserves hrest (not_mem_derived_names (by decide)),
            fill_missing_getattr_not_mem (by decide)]
        exact hL5
      · intro _ _
        rw [run_derivations_preserves hrest (not_mem_derived_names (by decide))]
        exact fill_missing_getattr_of_present hX5
      · intro _
        rw [run_derivations_preserves hrest (not_mem_derived_names (by decide))]
        exact fill_missing_getattr_of_present hX5
    -- pair learning_rate / lrate
    · rw [hn] at hcur ⊢
      have hla1 : getattr m1 "lrate" = some v := by
        rw [migrate_one_ok_preserves h1 _ (by decide) (by decide)]
        exact hla
      have hcur1 : getattr m1 "learning_rate" = Option.none := by
        rw [migrate_one_ok_preserves h1 _ (by decide) (by decide)]
        exact hcur
      have hnd1 : (m1.map Prod.fst).Nodup :=
        nodup_keys_migrate_one h1 hnodup
      have hla2 : getattr m2 "lrate" = some v := by
        rw [migrate_one_ok_preserves h2 _ (by decide) (by decide)]
        exact hla1
      have hcur2 : getattr m2 "learning_rate" = Option.none := by
        rw [migrate_one_ok_preserves h2 _ (by decide) (by decide)]
        exact hcur1
      have hnd2 : (m2.map Prod.fst).Nodup :=
        nodup_keys_migrate_one h2 hnd1
      have hla3 : getattr m3 "lrate" = some v := by
        rw [migrate_one_ok_preserves h3 _ (by decide) (by decide)]
        exact hla2
      have hcur3 : getattr m3 "learning_rate" = Option.none := by
        rw [migrate_one_ok_preserves h3 _ (by decide) (by decide)]
        exact hcur2
      have hnd3 : (m3.map Prod.fst).Nodup :=
        nodup_keys_migrate_one h3 hnd2
      have hla4 : getattr m4 "lrate" = some v := by
        rw [migrate_one_ok_preserves h4 _ (by decide) (by decide)]
        exact hla3
      have hcur4 : getattr m4 "learning_rate" = Option.none := by
        rw [migrate_one_ok_preserves h4 _ (by decide) (by decide)]
        exact hcur3
      have hnd4 : (m4.map Prod.fst).Nodup :=
        nodup_keys_migrate_one h4 hnd3
      have hstep : migrate_one m4 "learning_rate" "lrate" =
          Except.ok (delattr (setattr m4 "learning_rate" v) "lrate") := by
        simp [migrate_one, hasattr, hla4, hcur4, getAttrE_eq_ok hla4]
      rw [hstep] at h5
      injection h5 with hmi
      have hX5 : getattr m "learning_rate" = some v := by
        rw [← hmi, getattr_delattr_ne _ _ _ (by decide), getattr_setattr_self]
      have hL5 : getattr m "lrate" = Option.none := by
        rw [← hmi]
        exact getattr_delattr_self_of_nodup _ _ (nodup_keys_setattr_fresh hcur4 hnd4)
      refine ⟨⟨m, hmig0, hX5, hL5⟩, ?_, ?_, ?_⟩
      · rw [run_derivations_preserves hrest (not_mem_derived_names (by decide)),
            fill_missing_getattr_not_mem (by decide)]
        exact hL5
      · intro _ _
        rw [run_derivations_preserves hrest (not_mem_derived_names (by decide))]
        exact fill_missing_getattr_of_present hX5
      · intro _
        rw [run_derivations_preserves hrest (not_mem_derived_names (by decide))]
        exact fill_missing_getattr_of_present hX5
  · intro ps hmem ln hln file env hhl hhx
    rcases legacy_pairs ps hmem ln hln with
      ⟨hn, rfl⟩ | ⟨hn, rfl⟩ | ⟨hn, rfl⟩ | ⟨hn, rfl⟩ | ⟨hn, rfl⟩
    · rw [hn] at hhx
      cases hm : migrate_legacy_names allParams file with
      | error e =>
          rw [migrate_legacy_names_error hm] at hm
          simp [load_config_from_json_file, hm]
      | ok m =>
          exfalso
          rw [migrate_allParams] at hm
          obtain ⟨m1, h1, hm⟩ := exceptBindOk hm
          obtain ⟨m2, h2, hm⟩ := exceptBindOk hm
          obtain ⟨m3, h3, hm⟩ := exceptBindOk hm
          obtain ⟨m4, h4, h5⟩ := exceptBindOk hm
          obtain ⟨v0, hv0⟩ := Option.isSome_iff_exists.mp hhl
          obtain ⟨w0, hw0⟩ := Option.isSome_iff_exists.mp hhx
          have hbad : migrate_one file "embedding_size" "dim_word" =
              Except.error PyErr.assertionError := by
            simp [migrate_one, hasattr, hv0, hw0, getAttrE_eq_ok hv0]
          rw [hbad] at h1
          cases h1
    · rw [hn] at hhx
      cases hm : migrate_legacy_names allParams file with
      | error e =>
          rw [migrate_legacy_names_error hm] at hm
          simp [load_config_from_json_file, hm]
      | ok m =>
          exfalso
          rw [migrate_allParams] at hm
          obtain ⟨m1, h1, hm⟩ := exceptBindOk hm
          obtain ⟨m2, h2, hm⟩ := exceptBindOk hm
          obtain ⟨m3, h3, hm⟩ := exceptBindOk hm
          obtain ⟨m4, h4, h5⟩ := exceptBindOk hm
          obtain ⟨v0, hv0⟩ := Option.isSome_iff_exists.mp hhl
          obtain ⟨w0, hw0⟩ := Option.isSome_iff_exists.mp hhx
          have hv1 : getattr m1 "dim" = some v0 := by
            rw [migrate_one_ok_preserves h1 _ (by decide) (by decide)]
            exact hv0
          have hw1 : getattr m1 "state_size" = some w0 := by
            rw [migrate_one_ok_preserves h1 _ (by decide) (by decide)]
            exact hw0
          have hbad : migrate_one m1 "state_size" "dim" =
              Except.error PyErr.assertionError := by
            simp [migrate_one, hasattr, hv1, hw1, getAttrE_eq_ok hv1]
          rw [hbad] at h2
          cases h2
    · rw [hn] at hhx
      cases hm : migrate_legacy_names allParams file with
      | error e =>
          rw [migrate_legacy_names_error hm] at hm
          simp [load_config_from_json_file, hm]
      | ok m =>
          exfalso
          rw [migrate_allParams] at hm
          obtain ⟨m1, h1, hm⟩ := exceptBindOk hm
          obtain ⟨m2, h2, hm⟩ := exceptBindOk hm
          obtain ⟨m3, h3, hm⟩ := exceptBindOk hm
          obtain ⟨m4, h4, h5⟩ := exceptBindOk hm
          obtain ⟨v0, hv0⟩ := Option.isSome_iff_exists.mp hhl
          obtain ⟨w0, hw0⟩ := Option.isSome_iff_exists.mp hhx
          have hv1 : getattr m1 "n_words" = some v0 := by
            rw [migrate_one_ok_preserves h1 _ (by decide) (by decide)]
            exact hv0
          have hw1 : getattr m1 "target_vocab_size" = some w0 := by
            rw [migrate_one_ok_preserves h1 _ (by decide) (by decide)]
            exact hw0
          have hv2 : getattr m2 "n_words" = some v0 := by
            rw [migrate_one_ok_preserves h2 _ (by decide) (by decide)]
            exact hv1
          have hw2 : getattr m2 "target_vocab_size" = some w0 := by
            rw [migrate_one_ok_preserves h2 _ (by decide) (by decide)]
            exact hw1
          have hbad : migrate_one m2 "target_vocab_size" "n_words" =
              Except.error PyErr.assertionError := by
            simp [migrate_one, hasattr, hv2, hw2, getAttrE_eq_ok hv2]
          rw [hbad] at h3
          cases h3
    · rw [hn] at hhx
      cases hm : migrate_legacy_names allParams file with
      | error e =>
          rw [migrate_legacy_names_error hm] at hm
          simp [load_config_from_json_file, hm]
      | ok m =>
          exfalso
          rw [migrate_allParams] at hm
          obtain ⟨m1, h1, hm⟩ := exceptBindOk hm
          obtain ⟨m2, h2, hm⟩ := exceptBindOk hm
          obtain ⟨m3, h3, hm⟩ := exceptBindOk hm
          obtain ⟨m4, h4, h5⟩ := exceptBindOk hm
          obtain ⟨v0, hv0⟩ := Option.isSome_iff_exists.mp hhl
          obtain ⟨w0, hw0⟩ := Option.isSome_iff_exists.mp hhx
          have hv1 : getattr m1 "layer_normalisation" = some v0 := by
            rw [migrate_one_ok_preserves h1 _ (by decide) (by decide)]
            exact hv0
          have hw1 : getattr m1 "use_layer_norm" = some w0 := by
            rw [migrate_one_ok_preserves h1 _ (by decide) (by decide)]
            exact hw0
          have hv2 : getattr m2 "layer_normalisation" = some v0 := by
            rw [migrate_one_ok_preserves h2 _ (by decide) (by decide)]
            exact hv1
          have hw2 : getattr m2 "use_layer_norm" = some w0 := by
            rw [migrate_one_ok_preserves h2 _ (by decide) (by decide)]
            exact hw1
          have hv3 : getattr m3 "layer_normalisation" = some v0 := by
            rw [migrate_one_ok_preserves h3 _ (by decide) (by decide)]
            exact hv2
          have hw3 : getattr m3 "use_layer_norm" = some w0 := by
            rw [migrate_one_ok_preserves h3 _ (by decide) (by decide)]
            exact hw2
          have hbad : migrate_one m3 "use_layer_norm" "layer_normalisation" =
              Except.error PyErr.assertionError := by
            simp [migrate_one, hasattr, hv3, hw3, getAttrE_eq_ok hv3]
          rw [hbad] at h4
          cases h4
    · rw [hn] at hhx
      cases hm : migrate_legacy_names allParams file with
      | error e =>
          rw [migrate_legacy_names_error hm] at hm
          simp [load_config_from_json_file, hm]
      | ok m =>
          exfalso
          rw [migrate_allParams] at hm
          obtain ⟨m1, h1, hm⟩ := exceptBindOk hm
          obtain ⟨m2, h2, hm⟩ := exceptBindOk hm
          obtain ⟨m3, h3, hm⟩ := exceptBindOk hm
          obtain ⟨m4, h4, h5⟩ := exceptBindOk hm
          obtain ⟨v0, hv0⟩ := Option.isSome_iff_exists.mp hhl
          obtain ⟨w0, hw0⟩ := Option.isSome_iff_exists.mp hhx
          have hv1 : getattr m1 "lrate" = some v0 := by
            rw [migrate_one_ok_preserves h1 _ (by decide) (by decide)]
            exact hv0
          have hw1 : getattr m1 "learning_rate" = some w0 := by
            rw [migrate_one_ok_preserves h1 _ (by decide) (by decide)]
            exact hw0
          have hv2 : getattr m2 "lrate" = some v0 := by
            rw [migrate_one_ok_preserves h2 _ (by decide) (by decide)]
            exact hv1
          have hw2 : getattr m2 "learning_rate" = some w0 := by
            rw [migrate_one_ok_preserves h2 _ (by decide) (by decide)]
            exact hw1
          have hv3 : getattr m3 "lrate" = some v0 := by
            rw [migrate_one_ok_preserves h3 _ (by decide) (by decide)]
            exact hv2
          have hw3 : getattr m3 "learning_rate" = some w0 := by
            rw [migrate_one_ok_preserves h3 _ (by decide) (by decide)]
            exact hw2
          have hv4 : getattr m4 "lrate" = some v0 := by
            rw [migrate_one_ok_preserves h4 _ (by decide) (by decide)]
            exact hv3
          have hw4 : getattr m4 "learning_rate" = some w0 := by
            rw [migrate_one_ok_preserves h4 _ (by decide) (by decide)]
            exact hw3
          have hbad : migrate_one m4 "learning_rate" "lrate" =
              Except.error PyErr.assertionError := by
            simp [migrate_one, hasattr, hv4, hw4, getAttrE_eq_ok hv4]
          rw [hbad] at h5
          cases h5

/-- Witness for C5 at the `dim_word`/`embedding_size` pair: loading
`c5_file` yields `embedding_size = 300` and no `dim_word`; loading
`c5_both_file` raises the `AssertionError`. -/
theorem C5_legacy_name_migration_witness :
    getattr (loadedOrNil envEmpty (some c5_file)) "embedding_size" =
      some (PyValue.int 300) ∧
    getattr (loadedOrNil envEmpty (some c5_file)) "dim_word" = Option.none ∧
    load_config_from_json_file envEmpty (some c5_both_file) =
      Except.error PyErr.assertionError :=
  ⟨(C5_legacy_name_migration.1 ps_embedding_size
      (by simp [allParams, config_spec_groups]) "dim_word" (by decide)
      c5_file (PyValue.int 300) envEmpty (loadedOrNil envEmpty (some c5_file))
      (by decide) rfl rfl rfl).2.2.2 (by decide),
   (C5_legacy_name_migration.1 ps_embedding_size
      (by simp [allParams, config_spec_groups]) "dim_word" (by decide)
      c5_file (PyValue.int 300) envEmpty (loadedOrNil envEmpty (some c5_file))
      (by decide) rfl rfl rfl).2.1,
   C5_legacy_name_migration.2 ps_embedding_size
      (by simp [allParams, config_spec_groups]) "dim_word" (by decide)
      c5_both_file envEmpty rfl rfl⟩


theorem exceptBindOkIntro {ε α β : Type} {x : Except ε α} {f : α → Except ε β}
    {a : α} {b : β} (hx : x = Except.ok a) (hf : f a = Except.ok b) :
    (x >>= f) = Except.ok b := by
  rw [hx]
  exact hf

theorem load_config_roundtrip_assemble {env : Env} {c : Config}
    (hE : hasattr c "embedding_size" = true)
    (hmig : migrate_legacy_names allParams c = Except.ok c)
    (hfill : fill_missing allParams c = c)
    (hrun : run_derivations env { from_cmdline := false, from_theano := false }
      allParams c = Except.ok c) :
    load_config_from_json_file env (some c) = Except.ok c := by
  simp [load_config_from_json_file, hE, hmig, hfill, hrun]

set_option maxHeartbeats 4000000 in
/-- C2: serializing a configuration produced by the command-line reader
as a key/value mapping and loading it back through the file-based loader
returns exactly the same configuration (hence the value of every
declared parameter name is unchanged): reloading is the identity on
every configuration the reader can produce. -/
theorem C2_cmdline_file_roundtrip (env : Env) (s : Cmdline) (c : Config)
    (h : read_config_from_cmdline env s = Except.ok c) :
    load_config_from_json_file env (some c) = Except.ok c := by
  simp only [read_config_from_cmdline] at h
  obtain ⟨p, hp, h⟩ := exceptBindOk h
  obtain ⟨hok, hreq, rfl⟩ := parse_inv hp
  obtain ⟨msgs, hchk, h⟩ := exceptBindOk h
  by_cases hme : msgs.isEmpty = true
  case neg =>
    rw [if_pos (by simpa using hme)] at h
    simp at h
  rw [if_neg (by simp [hme])] at h
  have hmsgs : msgs = [] := by simpa [List.isEmpty_iff] using hme
  subst hmsgs
  -- raw parse facts
  have hR_ds : getattr (parseNamespace s) "datasets" =
      some (parsedValue s ps_datasets) := rfl
  have hR_sd : getattr (parseNamespace s) "source_dataset" =
      some (parsedValue s ps_source_dataset) := rfl
  have hR_td : getattr (parseNamespace s) "target_dataset" =
      some (parsedValue s ps_target_dataset) := rfl
  have hR_vds : getattr (parseNamespace s) "valid_datasets" =
      some (parsedValue s ps_valid_datasets) := rfl
  have hR_vsd : getattr (parseNamespace s) "valid_source_dataset" =
      some (parsedValue s ps_valid_source_dataset) := rfl
  have hR_vtd : getattr (parseNamespace s) "valid_target_dataset" =
      some (parsedValue s ps_valid_target_dataset) := rfl
  have hR_svs : getattr (parseNamespace s) "source_vocab_sizes" =
      some (parsedValue s ps_source_vocab_sizes) := rfl
  have hR_tvs : getattr (parseNamespace s) "target_vocab_size" =
      some (parsedValue s ps_target_vocab_size) := rfl
  have hR_fac : getattr (parseNamespace s) "factors" =
      some (parsedValue s ps_factors) := rfl
  have hR_dpf : getattr (parseNamespace s) "dim_per_factor" =
      some (parsedValue s ps_dim_per_factor) := rfl
  have hR_emb : getattr (parseNamespace s) "embedding_size" =
      some (parsedValue s ps_embedding_size) := rfl
  have hR_tie : getattr (parseNamespace s) "tie_encoder_decoder_embeddings" =
      some (parsedValue s ps_tie_encoder_decoder_embeddings) := rfl
  have hR_de : getattr (parseNamespace s) "dropout_embedding" =
      some (parsedValue s ps_dropout_embedding) := rfl
  have hR_dh : getattr (parseNamespace s) "dropout_hidden" =
      some (parsedValue s ps_dropout_hidden) := rfl
  have hR_mv : getattr (parseNamespace s) "model_version" = some PyValue.none := rfl
  have hP_nw : getattr (parseNamespace s) "n_words_src" = Option.none := rfl
  have hP_svz : getattr (parseNamespace s) "source_vocab_size" = Option.none := rfl
  -- typed shapes
  obtain ⟨k0, hk0v⟩ : ∃ k, parsedValue s ps_factors = PyValue.int k := by
    rcases parsedValue_cases hok ps_factors rfl rfl with hd | ⟨t, hat, hto⟩
    · exact ⟨1, hd⟩
    · obtain rfl : ArgType.int = t := by injection hat
      exact typeOk_int hto
  obtain ⟨e0, he0v⟩ : ∃ e, parsedValue s ps_embedding_size = PyValue.int e := by
    rcases parsedValue_cases hok ps_embedding_size rfl rfl with hd | ⟨t, hat, hto⟩
    · exact ⟨512, hd⟩
    · obtain rfl : ArgType.int = t := by injection hat
      exact typeOk_int hto
  obtain ⟨t0, ht0v⟩ : ∃ t, parsedValue s ps_target_vocab_size = PyValue.int t := by
    rcases parsedValue_cases hok ps_target_vocab_size rfl rfl with hd | ⟨t, hat, hto⟩
    · exact ⟨-1, hd⟩
    · obtain rfl : ArgType.int = t := by injection hat
      exact typeOk_int hto
  obtain ⟨tb, htbv⟩ : ∃ b, parsedValue s ps_tie_encoder_decoder_embeddings =
      PyValue.bool b := by
    rcases parsedValue_cases hok ps_tie_encoder_decoder_embeddings rfl rfl with
      hd | ⟨t, hat, hto⟩
    · exact ⟨false, hd⟩
    · obtain rfl : ArgType.flagTrue = t := by injection hat
      exact ⟨true, typeOk_flagTrue hto⟩
  have hsh_sd : parsedValue s ps_source_dataset = PyValue.none ∨
      ∃ a, parsedValue s ps_source_dataset = PyValue.str a := by
    rcases parsedValue_cases hok ps_source_dataset rfl rfl with hd | ⟨t, hat, hto⟩
    · exact Or.inl hd
    · obtain rfl : ArgType.str = t := by injection hat
      exact Or.inr (typeOk_str hto)
  have hsh_td : parsedValue s ps_target_dataset = PyValue.none ∨
      ∃ a, parsedValue s ps_target_dataset = PyValue.str a := by
    rcases parsedValue_cases hok ps_target_dataset rfl rfl with hd | ⟨t, hat, hto⟩
    · exact Or.inl hd
    · obtain rfl : ArgType.str = t := by injection hat
      exact Or.inr (typeOk_str hto)
  have hsh_vsd : parsedValue s ps_valid_source_dataset = PyValue.none ∨
      ∃ a, parsedValue s ps_valid_source_dataset = PyValue.str a := by
    rcases parsedValue_cases hok ps_valid_source_dataset rfl rfl with
      hd | ⟨t, hat, hto⟩
    · exact Or.inl hd
    · obtain rfl : ArgType.str = t := by injection hat
      exact Or.inr (typeOk_str hto)
  have hsh_vtd : parsedValue s ps_valid_target_dataset = PyValue.none ∨
      ∃ a, parsedValue s ps_valid_target_dataset = PyValue.str a := by
    rcases parsedValue_cases hok ps_valid_target_dataset rfl rfl with
      hd | ⟨t, hat, hto⟩
    · exact Or.inl hd
    · obtain rfl : ArgType.str = t := by injection hat
      exact Or.inr (typeOk_str hto)
  have hsh_ds : parsedValue s ps_datasets = PyValue.none ∨
      ∃ a b, parsedValue s ps_datasets = PyValue.list [PyValue.str a, PyValue.str b] := by
    rcases parsedValue_cases hok ps_datasets rfl rfl with hd | ⟨t, hat, hto⟩
    · exact Or.inl hd
    · obtain rfl : ArgType.listStr2 = t := by injection hat
      exact Or.inr (typeOk_listStr2 hto)
  have hsh_vds : parsedValue s ps_valid_datasets = PyValue.none ∨
      ∃ a b, parsedValue s ps_valid_datasets =
        PyValue.list [PyValue.str a, PyValue.str b] := by
    rcases parsedValue_cases hok ps_valid_datasets rfl rfl with hd | ⟨t, hat, hto⟩
    · exact Or.inl hd
    · obtain rfl : ArgType.listStr2 = t := by injection hat
      exact Or.inr (typeOk_listStr2 hto)
  have hsh_de : parsedValue s ps_dropout_embedding = PyValue.none ∨
      ∃ q, parsedValue s ps_dropout_embedding = PyValue.float q := by
    rcases parsedValue_cases hok ps_dropout_embedding rfl rfl with hd | ⟨t, hat, hto⟩
    · exact Or.inl hd
    · obtain rfl : ArgType.float = t := by injection hat
      exact Or.inr (typeOk_float hto)
  have hsh_dh : parsedValue s ps_dropout_hidden = PyValue.none ∨
      ∃ q, parsedValue s ps_dropout_hidden = PyValue.float q := by
    rcases parsedValue_cases hok ps_dropout_hidden rfl rfl with hd | ⟨t, hat, hto⟩
    · exact Or.inl hd
    · obtain rfl : ArgType.float = t := by injection hat
      exact Or.inr (typeOk_float hto)
  obtain ⟨osvs, hosvs, hsh_svs⟩ : ∃ o, parsedValue s ps_source_vocab_sizes = pyOptList o ∧
      (parsedValue s ps_source_vocab_sizes = PyValue.none ∨
        ∃ l, parsedValue s ps_source_vocab_sizes = PyValue.list l) := by
    rcases parsedValue_cases hok ps_source_vocab_sizes rfl rfl with hd | ⟨t, hat, hto⟩
    · exact ⟨Option.none, hd, Or.inl hd⟩
    · obtain rfl : ArgType.listIntPlus = t := by injection hat
      obtain ⟨il, hil, -⟩ := typeOk_listIntPlus hto
      exact ⟨some (il.map PyValue.int), hil, Or.inr ⟨il.map PyValue.int, hil⟩⟩
  obtain ⟨dopt, hdoptv, hdopt_ne⟩ : ∃ o : Option (List Int),
      parsedValue s ps_dim_per_factor = pyOptIntList o ∧
      (∀ dl, o = some dl → dl ≠ []) := by
    rcases parsedValue_cases hok ps_dim_per_factor rfl rfl with hd | ⟨t, hat, hto⟩
    · exact ⟨Option.none, hd, by intro dl hdl; cases hdl⟩
    · obtain rfl : ArgType.listIntPlus = t := by injection hat
      obtain ⟨il, hil, hne⟩ := typeOk_listIntPlus hto
      refine ⟨some il, hil, ?_⟩
      intro dl hdl
      injection hdl with hdl
      rw [← hdl]
      exact hne
  -- dictionaries
  obtain ⟨vd, hvd⟩ := requiredOk_dictionaries hreq
  have hpdct : parsedValue s ps_dictionaries = vd := by
    unfold parsedValue
    rw [show (ps_dictionaries.visible_arg_names.isEmpty &&
      ps_dictionaries.hidden_arg_names.isEmpty) = false from rfl]
    rw [show ps_dictionaries.name = "dictionaries" from rfl]
    simp only [Bool.false_eq_true, if_false, hvd]
  obtain ⟨t2, hat2, hto2⟩ := lookupSupplied_typeOk hok hvd ps_dictionaries rfl
  obtain rfl : ArgType.listStrPlus = t2 := by injection hat2
  obtain ⟨slst, hslst, hslne⟩ := typeOk_listStrPlus hto2
  have hP_dicts : getattr (parseNamespace s) "dictionaries" =
      some (PyValue.list (slst.map PyValue.str)) := by
    rw [show getattr (parseNamespace s) "dictionaries" =
      some (parsedValue s ps_dictionaries) from rfl, hpdct, hslst]
  have hLne : (slst.map PyValue.str) ≠ [] := by
    intro h0
    exact hslne (by simpa using h0)
  obtain ⟨lastv, hlast⟩ : ∃ x, (slst.map PyValue.str).getLast? = some x := by
    cases hgl : (slst.map PyValue.str).getLast? with
    | none => exact absurd (List.getLast?_eq_none_iff.mp hgl) hLne
    | some x => exact ⟨x, rfl⟩
  -- checker facts
  obtain ⟨hcheck, -⟩ := checker_blocks_eval (parseNamespace s)
    (parsedValue s ps_datasets) (parsedValue s ps_source_dataset)
    (parsedValue s ps_target_dataset) (parsedValue s ps_valid_datasets)
    (parsedValue s ps_valid_source_dataset) (parsedValue s ps_valid_target_dataset)
    (PyValue.int e0) osvs dopt k0 (slst.map PyValue.str)
    hR_ds hR_sd hR_td hR_vds hR_vsd hR_vtd
    (by rw [hR_svs, hosvs]) (by rw [hR_fac, hk0v]) (by rw [hR_dpf, hdoptv])
    (by rw [hR_emb, he0v]) hP_dicts
  have hblocks := hcheck.symm.trans hchk
  injection hblocks with hblocks
  rw [List.append_eq_nil, List.append_eq_nil, List.append_eq_nil,
      List.append_eq_nil, List.append_eq_nil] at hblocks
  obtain ⟨⟨⟨⟨⟨hB1, hB2⟩, hB3⟩, hB4⟩, hB5⟩, hB6⟩ := hblocks
  have hk0_of_none : dopt = Option.none → k0 = 1 := by
    intro hno
    rw [hno] at hB4
    simp only [msgs_dim_missing] at hB4
    by_cases hpe : pyEq (PyValue.int k0) (PyValue.int 1) = true
    · simpa [pyEq] using hpe
    · rw [if_pos (by simpa using hpe)] at hB4
      cases hB4
  have hlen_of_some : ∀ dl, dopt = some dl → (dl.length : Int) = k0 := by
    intro dl hdl
    rw [hdl] at hB5
    simp only [msgs_dim] at hB5
    by_cases hl : (dl.length : Int) = k0
    · exact hl
    · rw [if_pos hl] at hB5
      cases hB5
  have hk0nn : 0 ≤ k0 := by
    cases hdo : dopt with
    | none => rw [hk0_of_none hdo]; decide
    | some dl => rw [← hlen_of_some dl hdo]; exact Int.ofNat_nonneg _
  have hP_emb : getattr (parseNamespace s) "embedding_size" = some (PyValue.int e0) := by
    rw [hR_emb, he0v]
  have hP_fac : getattr (parseNamespace s) "factors" = some (PyValue.int k0) := by
    rw [hR_fac, hk0v]
  have hP_tvs : getattr (parseNamespace s) "target_vocab_size" = some (PyValue.int t0) := by
    rw [hR_tvs, ht0v]
  have hP_tie : getattr (parseNamespace s) "tie_encoder_decoder_embeddings" =
      some (PyValue.bool tb) := by
    rw [hR_tie, htbv]
  have hP_dpf : getattr (parseNamespace s) "dim_per_factor" =
      some (pyOptIntList dopt) := by
    rw [hR_dpf, hdoptv]
  have hP_dim_word : getattr (parseNamespace s) "dim_word" = Option.none := rfl
  have hP_dim : getattr (parseNamespace s) "dim" = Option.none := rfl
  have hP_n_words : getattr (parseNamespace s) "n_words" = Option.none := rfl
  have hP_layer_norm : getattr (parseNamespace s) "layer_normalisation" =
      Option.none := rfl
  have hP_lrate : getattr (parseNamespace s) "lrate" = Option.none := rfl
  -- peel the derivation chain, keeping each intermediate config opaque
  rw [run_derivations_allParams] at h
  obtain ⟨v1, hv1, h⟩ := exceptBindOk h
  revert h
  generalize hc1 : setattr (parseNamespace s) "model_version" v1 = c1
  intro h
  obtain ⟨v2, hv2, h⟩ := exceptBindOk h
  revert h
  generalize hc2 : setattr c1 "theano_compat" v2 = c2
  intro h
  obtain ⟨v3, hv3, h⟩ := exceptBindOk h
  revert h
  generalize hc3 : setattr c2 "source_dicts" v3 = c3
  intro h
  obtain ⟨v4, hv4, h⟩ := exceptBindOk h
  revert h
  generalize hc4 : setattr c3 "target_dict" v4 = c4
  intro h
  obtain ⟨v5, hv5, h⟩ := exceptBindOk h
  revert h
  generalize hc5 : setattr c4 "target_embedding_size" v5 = c5
  intro h
  obtain ⟨v6, hv6, h⟩ := exceptBindOk h
  revert h
  generalize hc6 : setattr c5 "source_dataset" v6 = c6
  intro h
  obtain ⟨v7, hv7, h⟩ := exceptBindOk h
  revert h
  generalize hc7 : setattr c6 "target_dataset" v7 = c7
  intro h
  obtain ⟨v8, hv8, h⟩ := exceptBindOk h
  revert h
  generalize hc8 : setattr c7 "source_vocab_sizes" v8 = c8
  intro h
  obtain ⟨v9, hv9, h⟩ := exceptBindOk h
  revert h
  generalize hc9 : setattr c8 "target_vocab_size" v9 = c9
  intro h
  obtain ⟨v10, hv10, h⟩ := exceptBindOk h
  revert h
  generalize hc10 : setattr c9 "dim_per_factor" v10 = c10
  intro h
  obtain ⟨v11, hv11, h⟩ := exceptBindOk h
  revert h
  generalize hc11 : setattr c10 "dropout_embedding" v11 = c11
  intro h
  obtain ⟨v12, hv12, h⟩ := exceptBindOk h
  revert h
  generalize hc12 : setattr c11 "dropout_hidden" v12 = c12
  intro h
  obtain ⟨v13, hv13, h⟩ := exceptBindOk h
  revert h
  generalize hc13 : setattr c12 "valid_source_dataset" v13 = c13
  intro h
  obtain ⟨v14, hv14, h⟩ := exceptBindOk h
  revert h
  generalize hc14 : setattr c13 "valid_target_dataset" v14 = c14
  intro h
  injection h with hc
  -- attributes no derivation step writes, carried up the chain one level at a time
  have hg1_dicts : getattr c1 "dictionaries" = some (PyValue.list (slst.map PyValue.str)) := by
    rw [← hc1, getattr_setattr_ne _ _ _ _ (by decide)]
    exact hP_dicts
  have hg2_dicts : getattr c2 "dictionaries" = some (PyValue.list (slst.map PyValue.str)) := by
    rw [← hc2, getattr_setattr_ne _ _ _ _ (by decide)]
    exact hg1_dicts
  have hg3_dicts : getattr c3 "dictionaries" = some (PyValue.list (slst.map PyValue.str)) := by
    rw [← hc3, getattr_setattr_ne _ _ _ _ (by decide)]
    exact hg2_dicts
  have hg4_dicts : getattr c4 "dictionaries" = some (PyValue.list (slst.map PyValue.str)) := by
    rw [← hc4, getattr_setattr_ne _ _ _ _ (by decide)]
    exact hg3_dicts
  have hg5_dicts : getattr c5 "dictionaries" = some (PyValue.list (slst.map PyValue.str)) := by
    rw [← hc5, getattr_setattr_ne _ _ _ _ (by decide)]
    exact hg4_dicts
  have hg6_dicts : getattr c6 "dictionaries" = some (PyValue.list (slst.map PyValue.str)) := by
    rw [← hc6, getattr_setattr_ne _ _ _ _ (by decide)]
    exact hg5_dicts
  have hg7_dicts : getattr c7 "dictionaries" = some (PyValue.list (slst.map PyValue.str)) := by
    rw [← hc7, getattr_setattr_ne _ _ _ _ (by decide)]
    exact hg6_dicts
  have hg8_dicts : getattr c8 "dictionaries" = some (PyValue.list (slst.map PyValue.str)) := by
    rw [← hc8, getattr_setattr_ne _ _ _ _ (by decide)]
    exact hg7_dicts
  have hg9_dicts : getattr c9 "dictionaries" = some (PyValue.list (slst.map PyValue.str)) := by
    rw [← hc9, getattr_setattr_ne _ _ _ _ (by decide)]
    exact hg8_dicts
  have hg10_dicts : getattr c10 "dictionaries" = some (PyValue.list (slst.map PyValue.str)) := by
    rw [← hc10, getattr_setattr_ne _ _ _ _ (by decide)]
    exact hg9_dicts
  have hg11_dicts : getattr c11 "dictionaries" = some (PyValue.list (slst.map PyValue.str)) := by
    rw [← hc11, getattr_setattr_ne _ _ _ _ (by decide)]
    exact hg10_dicts
  have hg12_dicts : getattr c12 "dictionaries" = some (PyValue.list (slst.map PyValue.str)) := by
    rw [← hc12, getattr_setattr_ne _ _ _ _ (by decide)]
    exact hg11_dicts
  have hg13_dicts : getattr c13 "dictionaries" = some (PyValue.list (slst.map PyValue.str)) := by
    rw [← hc13, getattr_setattr_ne _ _ _ _ (by decide)]
    exact hg12_dicts
  have hg14_dicts : getattr c14 "dictionaries" = some (PyValue.list (slst.map PyValue.str)) := by
    rw [← hc14, getattr_setattr_ne _ _ _ _ (by decide)]
    exact hg13_dicts
  have hg1_emb : getattr c1 "embedding_size" = some (PyValue.int e0) := by
    rw [← hc1, getattr_setattr_ne _ _ _ _ (by decide)]
    exact hP_emb
  have hg2_emb : getattr c2 "embedding_size" = some (PyValue.int e0) := by
    rw [← hc2, getattr_setattr_ne _ _ _ _ (by decide)]
    exact hg1_emb
  have hg3_emb : getattr c3 "embedding_size" = some (PyValue.int e0) := by
    rw [← hc3, getattr_setattr_ne _ _ _ _ (by decide)]
    exact hg2_emb
  have hg4_emb : getattr c4 "embedding_size" = some (PyValue.int e0) := by
    rw [← hc4, getattr_setattr_ne _ _ _ _ (by decide)]
    exact hg3_emb
  have hg5_emb : getattr c5 "embedding_size" = some (PyValue.int e0) := by
    rw [← hc5, getattr_setattr_ne _ _ _ _ (by decide)]
    exact hg4_emb
  have hg6_emb : getattr c6 "embedding_size" = some (PyValue.int e0) := by
    rw [← hc6, getattr_setattr_ne _ _ _ _ (by decide)]
    exact hg5_emb
  have hg7_emb : getattr c7 "embedding_size" = some (PyValue.int e0) := by
    rw [← hc7, getattr_setattr_ne _ _ _ _ (by decide)]
    exact hg6_emb
  have hg8_emb : getattr c8 "embedding_size" = some (PyValue.int e0) := by
    rw [← hc8, getattr_setattr_ne _ _ _ _ (by decide)]
    exact hg7_emb
  have hg9_emb : getattr c9 "embedding_size" = some (PyValue.int e0) := by
    rw [← hc9, getattr_setattr_ne _ _ _ _ (by decide)]
    exact hg8_emb
  have hg10_emb : getattr c10 "embedding_size" = some (PyValue.int e0) := by
    rw [← hc10, getattr_setattr_ne _ _ _ _ (by decide)]
    exact hg9_emb
  have hg11_emb : getattr c11 "embedding_size" = some (PyValue.int e0) := by
    rw [← hc11, getattr_setattr_ne _ _ _ _ (by decide)]
    exact hg10_emb
  have hg12_emb : getattr c12 "embedding_size" = some (PyValue.int e0) := by
    rw [← hc12, getattr_setattr_ne _ _ _ _ (by decide)]
    exact hg11_emb
  have hg13_emb : getattr c13 "embedding_size" = some (PyValue.int e0) := by
    rw [← hc13, getattr_setattr_ne _ _ _ _ (by decide)]
    exact hg12_emb
  have hg14_emb : getattr c14 "embedding_size" = some (PyValue.int e0) := by
    rw [← hc14, getattr_setattr_ne _ _ _ _ (by decide)]
    exact hg13_emb
  have hg1_tie : getattr c1 "tie_encoder_decoder_embeddings" = some (PyValue.bool tb) := by
    rw [← hc1, getattr_setattr_ne _ _ _ _ (by decide)]
    exact hP_tie
  have hg2_tie : getattr c2 "tie_encoder_decoder_embeddings" = some (PyValue.bool tb) := by
    rw [← hc2, getattr_setattr_ne _ _ _ _ (by decide)]
    exact hg1_tie
  have hg3_tie : getattr c3 "tie_encoder_decoder_embeddings" = some (PyValue.bool tb) := by
    rw [← hc3, getattr_setattr_ne _ _ _ _ (by decide)]
    exact hg2_tie
  have hg4_tie : getattr c4 "tie_encoder_decoder_embeddings" = some (PyValue.bool tb) := by
    rw [← hc4, getattr_setattr_ne _ _ _ _ (by decide)]
    exact hg3_tie
  have hg5_tie : getattr c5 "tie_encoder_decoder_embeddings" = some (PyValue.bool tb) := by
    rw [← hc5, getattr_setattr_ne _ _ _ _ (by decide)]
    exact hg4_tie
  have hg6_tie : getattr c6 "tie_encoder_decoder_embeddings" = some (PyValue.bool tb) := by
    rw [← hc6, getattr_setattr_ne _ _ _ _ (by decide)]
    exact hg5_tie
  have hg7_tie : getattr c7 "tie_encoder_decoder_embeddings" = some (PyValue.bool tb) := by
    rw [← hc7, getattr_setattr_ne _ _ _ _ (by decide)]
    exact hg6_tie
  have hg8_tie : getattr c8 "tie_encoder_decoder_embeddings" = some (PyValue.bool tb) := by
    rw [← hc8, getattr_setattr_ne _ _ _ _ (by decide)]
    exact hg7_tie
  have hg9_tie : getattr c9 "tie_encoder_decoder_embeddings" = some (PyValue.bool tb) := by
    rw [← hc9, getattr_setattr_ne _ _ _ _ (by decide)]
    exact hg8_tie
  have hg10_tie : getattr c10 "tie_encoder_decoder_embeddings" = some (PyValue.bool tb) := by
    rw [← hc10, getattr_setattr_ne _ _ _ _ (by decide)]
    exact hg9_tie
  have hg11_tie : getattr c11 "tie_encoder_decoder_embeddings" = some (PyValue.bool tb) := by
    rw [← hc11, getattr_setattr_ne _ _ _ _ (by decide)]
    exact hg10_tie
  have hg12_tie : getattr c12 "tie_encoder_decoder_embeddings" = some (PyValue.bool tb) := by
    rw [← hc12, getattr_setattr_ne _ _ _ _ (by decide)]
    exact hg11_tie
  have hg13_tie : getattr c13 "tie_encoder_decoder_embeddings" = some (PyValue.bool tb) := by
    rw [← hc13, getattr_setattr_ne _ _ _ _ (by decide)]
    exact hg12_tie
  have hg14_tie : getattr c14 "tie_encoder_decoder_embeddings" = some (PyValue.bool tb) := by
    rw [← hc14, getattr_setattr_ne _ _ _ _ (by decide)]
    exact hg13_tie
  have hg1_fac : getattr c1 "factors" = some (PyValue.int k0) := by
    rw [← hc1, getattr_setattr_ne _ _ _ _ (by decide)]
    exact hP_fac
  have hg2_fac : getattr c2 "factors" = some (PyValue.int k0) := by
    rw [← hc2, getattr_setattr_ne _ _ _ _ (by decide)]
    exact hg1_fac
  have hg3_fac : getattr c3 "factors" = some (PyValue.int k0) := by
    rw [← hc3, getattr_setattr_ne _ _ _ _ (by decide)]
    exact hg2_fac
  have hg4_fac : getattr c4 "factors" = some (PyValue.int k0) := by
    rw [← hc4, getattr_setattr_ne _ _ _ _ (by decide)]
    exact hg3_fac
  have hg5_fac : getattr c5 "factors" = some (PyValue.int k0) := by
    rw [← hc5, getattr_setattr_ne _ _ _ _ (by decide)]
    exact hg4_fac
  have hg6_fac : getattr c6 "factors" = some (PyValue.int k0) := by
    rw [← hc6, getattr_setattr_ne _ _ _ _ (by decide)]
    exact hg5_fac
  have hg7_fac : getattr c7 "factors" = some (PyValue.int k0) := by
    rw [← hc7, getattr_setattr_ne _ _ _ _ (by decide)]
    exact hg6_fac
  have hg8_fac : getattr c8 "factors" = some (PyValue.int k0) := by
    rw [← hc8, getattr_setattr_ne _ _ _ _ (by decide)]
    exact hg7_fac
  have hg9_fac : getattr c9 "factors" = some (PyValue.int k0) := by
    rw [← hc9, getattr_setattr_ne _ _ _ _ (by decide)]
    exact hg8_fac
  have hg10_fac : getattr c10 "factors" = some (PyValue.int k0) := by
    rw [← hc10, getattr_setattr_ne _ _ _ _ (by decide)]
    exact hg9_fac
  have hg11_fac : getattr c11 "factors" = some (PyValue.int k0) := by
    rw [← hc11, getattr_setattr_ne _ _ _ _ (by decide)]
    exact hg10_fac
  have hg12_fac : getattr c12 "factors" = some (PyValue.int k0) := by
    rw [← hc12, getattr_setattr_ne _ _ _ _ (by decide)]
    exact hg11_fac
  have hg13_fac : getattr c13 "factors" = some (PyValue.int k0) := by
    rw [← hc13, getattr_setattr_ne _ _ _ _ (by decide)]
    exact hg12_fac
  have hg14_fac : getattr c14 "factors" = some (PyValue.int k0) := by
    rw [← hc14, getattr_setattr_ne _ _ _ _ (by decide)]
    exact hg13_fac
  have hg1_dpf : getattr c1 "dim_per_factor" = some (pyOptIntList dopt) := by
    rw [← hc1, getattr_setattr_ne _ _ _ _ (by decide)]
    exact hP_dpf
  have hg2_dpf : getattr c2 "dim_per_factor" = some (pyOptIntList dopt) := by
    rw [← hc2, getattr_setattr_ne _ _ _ _ (by decide)]
    exact hg1_dpf
  have hg3_dpf : getattr c3 "dim_per_factor" = some (pyOptIntList dopt) := by
    rw [← hc3, getattr_setattr_ne _ _ _ _ (by decide)]
    exact hg2_dpf
  have hg4_dpf : getattr c4 "dim_per_factor" = some (pyOptIntList dopt) := by
    rw [← hc4, getattr_setattr_ne _ _ _ _ (by decide)]
    exact hg3_dpf
  have hg5_dpf : getattr c5 "dim_per_factor" = some (pyOptIntList dopt) := by
    rw [← hc5, getattr_setattr_ne _ _ _ _ (by decide)]
    exact hg4_dpf
  have hg6_dpf : getattr c6 "dim_per_factor" = some (pyOptIntList dopt) := by
    rw [← hc6, getattr_setattr_ne _ _ _ _ (by decide)]
    exact hg5_dpf
  have hg7_dpf : getattr c7 "dim_per_factor" = some (pyOptIntList dopt) := by
    rw [← hc7, getattr_setattr_ne _ _ _ _ (by decide)]
    exact hg6_dpf
  have hg8_dpf : getattr c8 "dim_per_factor" = some (pyOptIntList dopt) := by
    rw [← hc8, getattr_setattr_ne _ _ _ _ (by decide)]
    exact hg7_dpf
  have hg9_dpf : getattr c9 "dim_per_factor" = some (pyOptIntList dopt) := by
    rw [← hc9, getattr_setattr_ne _ _ _ _ (by decide)]
    exact hg8_dpf
  have hg1_sd : getattr c1 "source_dataset" = some (parsedValue s ps_source_dataset) := by
    rw [← hc1, getattr_setattr_ne _ _ _ _ (by decide)]
    exact hR_sd
  have hg2_sd : getattr c2 "source_dataset" = some (parsedValue s ps_source_dataset) := by
    rw [← hc2, getattr_setattr_ne _ _ _ _ (by decide)]
    exact hg1_sd
  have hg3_sd : getattr c3 "source_dataset" = some (parsedValue s ps_source_dataset) := by
    rw [← hc3, getattr_setattr_ne _ _ _ _ (by decide)]
    exact hg2_sd
  have hg4_sd : getattr c4 "source_dataset" = some (parsedValue s ps_source_dataset) := by
    rw [← hc4, getattr_setattr_ne _ _ _ _ (by decide)]
    exact hg3_sd
  have hg5_sd : getattr c5 "source_dataset" = some (parsedValue s ps_source_dataset) := by
    rw [← hc5, getattr_setattr_ne _ _ _ _ (by decide)]
    exact hg4_sd
  have hg1_ds : getattr c1 "datasets" = some (parsedValue s ps_datasets) := by
    rw [← hc1, getattr_setattr_ne _ _ _ _ (by decide)]
    exact hR_ds
  have hg2_ds : getattr c2 "datasets" = some (parsedValue s ps_datasets) := by
    rw [← hc2, getattr_setattr_ne _ _ _ _ (by decide)]
    exact hg1_ds
  have hg3_ds : getattr c3 "datasets" = some (parsedValue s ps_datasets) := by
    rw [← hc3, getattr_setattr_ne _ _ _ _ (by decide)]
    exact hg2_ds
  have hg4_ds : getattr c4 "datasets" = some (parsedValue s ps_datasets) := by
    rw [← hc4, getattr_setattr_ne _ _ _ _ (by decide)]
    exact hg3_ds
  have hg5_ds : getattr c5 "datasets" = some (parsedValue s ps_datasets) := by
    rw [← hc5, getattr_setattr_ne _ _ _ _ (by decide)]
    exact hg4_ds
  have hg6_ds : getattr c6 "datasets" = some (parsedValue s ps_datasets) := by
    rw [← hc6, getattr_setattr_ne _ _ _ _ (by decide)]
    exact hg5_ds
  have hg1_td : getattr c1 "target_dataset" = some (parsedValue s ps_target_dataset) := by
    rw [← hc1, getattr_setattr_ne _ _ _ _ (by decide)]
    exact hR_td
  have hg2_td : getattr c2 "target_dataset" = some (parsedValue s ps_target_dataset) := by
    rw [← hc2, getattr_setattr_ne _ _ _ _ (by decide)]
    exact hg1_td
  have hg3_td : getattr c3 "target_dataset" = some (parsedValue s ps_target_dataset) := by
    rw [← hc3, getattr_setattr_ne _ _ _ _ (by decide)]
    exact hg2_td
  have hg4_td : getattr c4 "target_dataset" = some (parsedValue s ps_target_dataset) := by
    rw [← hc4, getattr_setattr_ne _ _ _ _ (by decide)]
    exact hg3_td
  have hg5_td : getattr c5 "target_dataset" = some (parsedValue s ps_target_dataset) := by
    rw [← hc5, getattr_setattr_ne _ _ _ _ (by decide)]
    exact hg4_td
  have hg6_td : getattr c6 "target_dataset" = some (parsedValue s ps_target_dataset) := by
    rw [← hc6, getattr_setattr_ne _ _ _ _ (by decide)]
    exact hg5_td
  have hg1_svs : getattr c1 "source_vocab_sizes" = some (parsedValue s ps_source_vocab_sizes) := by
    rw [← hc1, getattr_setattr_ne _ _ _ _ (by decide)]
    exact hR_svs
  have hg2_svs : getattr c2 "source_vocab_sizes" = some (parsedValue s ps_source_vocab_sizes) := by
    rw [← hc2, getattr_setattr_ne _ _ _ _ (by decide)]
    exact hg1_svs
  have hg3_svs : getattr c3 "source_vocab_sizes" = some (parsedValue s ps_source_vocab_sizes) := by
    rw [← hc3, getattr_setattr_ne _ _ _ _ (by decide)]
    exact hg2_svs
  have hg4_svs : getattr c4 "source_vocab_sizes" = some (parsedValue s ps_source_vocab_sizes) := by
    rw [← hc4, getattr_setattr_ne _ _ _ _ (by decide)]
    exact hg3_svs
  have hg5_svs : getattr c5 "source_vocab_sizes" = some (parsedValue s ps_source_vocab_sizes) := by
    rw [← hc5, getattr_setattr_ne _ _ _ _ (by decide)]
    exact hg4_svs
  have hg6_svs : getattr c6 "source_vocab_sizes" = some (parsedValue s ps_source_vocab_sizes) := by
    rw [← hc6, getattr_setattr_ne _ _ _ _ (by decide)]
    exact hg5_svs
  have hg7_svs : getattr c7 "source_vocab_sizes" = some (parsedValue s ps_source_vocab_sizes) := by
    rw [← hc7, getattr_setattr_ne _ _ _ _ (by decide)]
    exact hg6_svs
  have hg1_nw : getattr c1 "n_words_src" = Option.none := by
    rw [← hc1, getattr_setattr_ne _ _ _ _ (by decide)]
    exact hP_nw
  have hg2_nw : getattr c2 "n_words_src" = Option.none := by
    rw [← hc2, getattr_setattr_ne _ _ _ _ (by decide)]
    exact hg1_nw
  have hg3_nw : getattr c3 "n_words_src" = Option.none := by
    rw [← hc3, getattr_setattr_ne _ _ _ _ (by decide)]
    exact hg2_nw
  have hg4_nw : getattr c4 "n_words_src" = Option.none := by
    rw [← hc4, getattr_setattr_ne _ _ _ _ (by decide)]
    exact hg3_nw
  have hg5_nw : getattr c5 "n_words_src" = Option.none := by
    rw [← hc5, getattr_setattr_ne _ _ _ _ (by decide)]
    exact hg4_nw
  have hg6_nw : getattr c6 "n_words_src" = Option.none := by
    rw [← hc6, getattr_setattr_ne _ _ _ _ (by decide)]
    exact hg5_nw
  have hg7_nw : getattr c7 "n_words_src" = Option.none := by
    rw [← hc7, getattr_setattr_ne _ _ _ _ (by decide)]
    exact hg6_nw
  have hg1_svz : getattr c1 "source_vocab_size" = Option.none := by
    rw [← hc1, getattr_setattr_ne _ _ _ _ (by decide)]
    exact hP_svz
  have hg2_svz : getattr c2 "source_vocab_size" = Option.none := by
    rw [← hc2, getattr_setattr_ne _ _ _ _ (by decide)]
    exact hg1_svz
  have hg3_svz : getattr c3 "source_vocab_size" = Option.none := by
    rw [← hc3, getattr_setattr_ne _ _ _ _ (by decide)]
    exact hg2_svz
  have hg4_svz : getattr c4 "source_vocab_size" = Option.none := by
    rw [← hc4, getattr_setattr_ne _ _ _ _ (by decide)]
    exact hg3_svz
  have hg5_svz : getattr c5 "source_vocab_size" = Option.none := by
    rw [← hc5, getattr_setattr_ne _ _ _ _ (by decide)]
    exact hg4_svz
  have hg6_svz : getattr c6 "source_vocab_size" = Option.none := by
    rw [← hc6, getattr_setattr_ne _ _ _ _ (by decide)]
    exact hg5_svz
  have hg7_svz : getattr c7 "source_vocab_size" = Option.none := by
    rw [← hc7, getattr_setattr_ne _ _ _ _ (by decide)]
    exact hg6_svz
  have hg1_tvs : getattr c1 "target_vocab_size" = some (PyValue.int t0) := by
    rw [← hc1, getattr_setattr_ne _ _ _ _ (by decide)]
    exact hP_tvs
  have hg2_tvs : getattr c2 "target_vocab_size" = some (PyValue.int t0) := by
    rw [← hc2, getattr_setattr_ne _ _ _ _ (by decide)]
    exact hg1_tvs
  have hg3_tvs : getattr c3 "target_vocab_size" = some (PyValue.int t0) := by
    rw [← hc3, getattr_setattr_ne _ _ _ _ (by decide)]
    exact hg2_tvs
  have hg4_tvs : getattr c4 "target_vocab_size" = some (PyValue.int t0) := by
    rw [← hc4, getattr_setattr_ne _ _ _ _ (by decide)]
    exact hg3_tvs
  have hg5_tvs : getattr c5 "target_vocab_size" = some (PyValue.int t0) := by
    rw [← hc5, getattr_setattr_ne _ _ _ _ (by decide)]
    exact hg4_tvs
  have hg6_tvs : getattr c6 "target_vocab_size" = some (PyValue.int t0) := by
    rw [← hc6, getattr_setattr_ne _ _ _ _ (by decide)]
    exact hg5_tvs
  have hg7_tvs : getattr c7 "target_vocab_size" = some (PyValue.int t0) := by
    rw [← hc7, getattr_setattr_ne _ _ _ _ (by decide)]
    exact hg6_tvs
  have hg8_tvs : getattr c8 "target_vocab_size" = some (PyValue.int t0) := by
    rw [← hc8, getattr_setattr_ne _ _ _ _ (by decide)]
    exact hg7_tvs
  have hg1_de : getattr c1 "dropout_embedding" = some (parsedValue s ps_dropout_embedding) := by
    rw [← hc1, getattr_setattr_ne _ _ _ _ (by decide)]
    exact hR_de
  have hg2_de : getattr c2 "dropout_embedding" = some (parsedValue s ps_dropout_embedding) := by
    rw [← hc2, getattr_setattr_ne _ _ _ _ (by decide)]
    exact hg1_de
  have hg3_de : getattr c3 "dropout_embedding" = some (parsedValue s ps_dropout_embedding) := by
    rw [← hc3, getattr_setattr_ne _ _ _ _ (by decide)]
    exact hg2_de
  have hg4_de : getattr c4 "dropout_embedding" = some (parsedValue s ps_dropout_embedding) := by
    rw [← hc4, getattr_setattr_ne _ _ _ _ (by decide)]
    exact hg3_de
  have hg5_de : getattr c5 "dropout_embedding" = some (parsedValue s ps_dropout_embedding) := by
    rw [← hc5, getattr_setattr_ne _ _ _ _ (by decide)]
    exact hg4_de
  have hg6_de : getattr c6 "dropout_embedding" = some (parsedValue s ps_dropout_embedding) := by
    rw [← hc6, getattr_setattr_ne _ _ _ _ (by decide)]
    exact hg5_de
  have hg7_de : getattr c7 "dropout_embedding" = some (parsedValue s ps_dropout_embedding) := by
    rw [← hc7, getattr_setattr_ne _ _ _ _ (by decide)]
    exact hg6_de
  have hg8_de : getattr c8 "dropout_embedding" = some (parsedValue s ps_dropout_embedding) := by
    rw [← hc8, getattr_setattr_ne _ _ _ _ (by decide)]
    exact hg7_de
  have hg9_de : getattr c9 "dropout_embedding" = some (parsedValue s ps_dropout_embedding) := by
    rw [← hc9, getattr_setattr_ne _ _ _ _ (by decide)]
    exact hg8_de
  have hg10_de : getattr c10 "dropout_embedding" = some (parsedValue s ps_dropout_embedding) := by
    rw [← hc10, getattr_setattr_ne _ _ _ _ (by decide)]
    exact hg9_de
  have hg1_dh : getattr c1 "dropout_hidden" = some (parsedValue s ps_dropout_hidden) := by
    rw [← hc1, getattr_setattr_ne _ _ _ _ (by decide)]
    exact hR_dh
  have hg2_dh : getattr c2 "dropout_hidden" = some (parsedValue s ps_dropout_hidden) := by
    rw [← hc2, getattr_setattr_ne _ _ _ _ (by decide)]
    exact hg1_dh
  have hg3_dh : getattr c3 "dropout_hidden" = some (parsedValue s ps_dropout_hidden) := by
    rw [← hc3, getattr_setattr_ne _ _ _ _ (by decide)]
    exact hg2_dh
  have hg4_dh : getattr c4 "dropout_hidden" = some (parsedValue s ps_dropout_hidden) := by
    rw [← hc4, getattr_setattr_ne _ _ _ _ (by decide)]
    exact hg3_dh
  have hg5_dh : getattr c5 "dropout_hidden" = some (parsedValue s ps_dropout_hidden) := by
    rw [← hc5, getattr_setattr_ne _ _ _ _ (by decide)]
    exact hg4_dh
  have hg6_dh : getattr c6 "dropout_hidden" = some (parsedValue s ps_dropout_hidden) := by
    rw [← hc6, getattr_setattr_ne _ _ _ _ (by decide)]
    exact hg5_dh
  have hg7_dh : getattr c7 "dropout_hidden" = some (parsedValue s ps_dropout_hidden) := by
    rw [← hc7, getattr_setattr_ne _ _ _ _ (by decide)]
    exact hg6_dh
  have hg8_dh : getattr c8 "dropout_hidden" = some (parsedValue s ps_dropout_hidden) := by
    rw [← hc8, getattr_setattr_ne _ _ _ _ (by decide)]
    exact hg7_dh
  have hg9_dh : getattr c9 "dropout_hidden" = some (parsedValue s ps_dropout_hidden) := by
    rw [← hc9, getattr_setattr_ne _ _ _ _ (by decide)]
    exact hg8_dh
  have hg10_dh : getattr c10 "dropout_hidden" = some (parsedValue s ps_dropout_hidden) := by
    rw [← hc10, getattr_setattr_ne _ _ _ _ (by decide)]
    exact hg9_dh
  have hg11_dh : getattr c11 "dropout_hidden" = some (parsedValue s ps_dropout_hidden) := by
    rw [← hc11, getattr_setattr_ne _ _ _ _ (by decide)]
    exact hg10_dh
  have hg1_vsd : getattr c1 "valid_source_dataset" = some (parsedValue s ps_valid_source_dataset) := by
    rw [← hc1, getattr_setattr_ne _ _ _ _ (by decide)]
    exact hR_vsd
  have hg2_vsd : getattr c2 "valid_source_dataset" = some (parsedValue s ps_valid_source_dataset) := by
    rw [← hc2, getattr_setattr_ne _ _ _ _ (by decide)]
    exact hg1_vsd
  have hg3_vsd : getattr c3 "valid_source_dataset" = some (parsedValue s ps_valid_source_dataset) := by
    rw [← hc3, getattr_setattr_ne _ _ _ _ (by decide)]
    exact hg2_vsd
  have hg4_vsd : getattr c4 "valid_source_dataset" = some (parsedValue s ps_valid_source_dataset) := by
    rw [← hc4, getattr_setattr_ne _ _ _ _ (by decide)]
    exact hg3_vsd
  have hg5_vsd : getattr c5 "valid_source_dataset" = some (parsedValue s ps_valid_source_dataset) := by
    rw [← hc5, getattr_setattr_ne _ _ _ _ (by decide)]
    exact hg4_vsd
  have hg6_vsd : getattr c6 "valid_source_dataset" = some (parsedValue s ps_valid_source_dataset) := by
    rw [← hc6, getattr_setattr_ne _ _ _ _ (by decide)]
    exact hg5_vsd
  have hg7_vsd : getattr c7 "valid_source_dataset" = some (parsedValue s ps_valid_source_dataset) := by
    rw [← hc7, getattr_setattr_ne _ _ _ _ (by decide)]
    exact hg6_vsd
  have hg8_vsd : getattr c8 "valid_source_dataset" = some (parsedValue s ps_valid_source_dataset) := by
    rw [← hc8, getattr_setattr_ne _ _ _ _ (by decide)]
    exact hg7_vsd
  have hg9_vsd : getattr c9 "valid_source_dataset" = some (parsedValue s ps_valid_source_dataset) := by
    rw [← hc9, getattr_setattr_ne _ _ _ _ (by decide)]
    exact hg8_vsd
  have hg10_vsd : getattr c10 "valid_source_dataset" = some (parsedValue s ps_valid_source_dataset) := by
    rw [← hc10, getattr_setattr_ne _ _ _ _ (by decide)]
    exact hg9_vsd
  have hg11_vsd : getattr c11 "valid_source_dataset" = some (parsedValue s ps_valid_source_dataset) := by
    rw [← hc11, getattr_setattr_ne _ _ _ _ (by decide)]
    exact hg10_vsd
  have hg12_vsd : getattr c12 "valid_source_dataset" = some (parsedValue s ps_valid_source_dataset) := by
    rw [← hc12, getattr_setattr_ne _ _ _ _ (by decide)]
    exact hg11_vsd
  have hg1_vds : getattr c1 "valid_datasets" = some (parsedValue s ps_valid_datasets) := by
    rw [← hc1, getattr_setattr_ne _ _ _ _ (by decide)]
    exact hR_vds
  have hg2_vds : getattr c2 "valid_datasets" = some (parsedValue s ps_valid_datasets) := by
    rw [← hc2, getattr_setattr_ne _ _ _ _ (by decide)]
    exact hg1_vds
  have hg3_vds : getattr c3 "valid_datasets" = some (parsedValue s ps_valid_datasets) := by
    rw [← hc3, getattr_setattr_ne _ _ _ _ (by decide)]
    exact hg2_vds
  have hg4_vds : getattr c4 "valid_datasets" = some (parsedValue s ps_valid_datasets) := by
    rw [← hc4, getattr_setattr_ne _ _ _ _ (by decide)]
    exact hg3_vds
  have hg5_vds : getattr c5 "valid_datasets" = some (parsedValue s ps_valid_datasets) := by
    rw [← hc5, getattr_setattr_ne _ _ _ _ (by decide)]
    exact hg4_vds
  have hg6_vds : getattr c6 "valid_datasets" = some (parsedValue s ps_valid_datasets) := by
    rw [← hc6, getattr_setattr_ne _ _ _ _ (by decide)]
    exact hg5_vds
  have hg7_vds : getattr c7 "valid_datasets" = some (parsedValue s ps_valid_datasets) := by
    rw [← hc7, getattr_setattr_ne _ _ _ _ (by decide)]
    exact hg6_vds
  have hg8_vds : getattr c8 "valid_datasets" = some (parsedValue s ps_valid_datasets) := by
    rw [← hc8, getattr_setattr_ne _ _ _ _ (by decide)]
    exact hg7_vds
  have hg9_vds : getattr c9 "valid_datasets" = some (parsedValue s ps_valid_datasets) := by
    rw [← hc9, getattr_setattr_ne _ _ _ _ (by decide)]
    exact hg8_vds
  have hg10_vds : getattr c10 "valid_datasets" = some (parsedValue s ps_valid_datasets) := by
    rw [← hc10, getattr_setattr_ne _ _ _ _ (by decide)]
    exact hg9_vds
  have hg11_vds : getattr c11 "valid_datasets" = some (parsedValue s ps_valid_datasets) := by
    rw [← hc11, getattr_setattr_ne _ _ _ _ (by decide)]
    exact hg10_vds
  have hg12_vds : getattr c12 "valid_datasets" = some (parsedValue s ps_valid_datasets) := by
    rw [← hc12, getattr_setattr_ne _ _ _ _ (by decide)]
    exact hg11_vds
  have hg13_vds : getattr c13 "valid_datasets" = some (parsedValue s ps_valid_datasets) := by
    rw [← hc13, getattr_setattr_ne _ _ _ _ (by decide)]
    exact hg12_vds
  have hg1_vtd : getattr c1 "valid_target_dataset" = some (parsedValue s ps_valid_target_dataset) := by
    rw [← hc1, getattr_setattr_ne _ _ _ _ (by decide)]
    exact hR_vtd
  have hg2_vtd : getattr c2 "valid_target_dataset" = some (parsedValue s ps_valid_target_dataset) := by
    rw [← hc2, getattr_setattr_ne _ _ _ _ (by decide)]
    exact hg1_vtd
  have hg3_vtd : getattr c3 "valid_target_dataset" = some (parsedValue s ps_valid_target_dataset) := by
    rw [← hc3, getattr_setattr_ne _ _ _ _ (by decide)]
    exact hg2_vtd
  have hg4_vtd : getattr c4 "valid_target_dataset" = some (parsedValue s ps_valid_target_dataset) := by
    rw [← hc4, getattr_setattr_ne _ _ _ _ (by decide)]
    exact hg3_vtd
  have hg5_vtd : getattr c5 "valid_target_dataset" = some (parsedValue s ps_valid_target_dataset) := by
    rw [← hc5, getattr_setattr_ne _ _ _ _ (by decide)]
    exact hg4_vtd
  have hg6_vtd : getattr c6 "valid_target_dataset" = some (parsedValue s ps_valid_target_dataset) := by
    rw [← hc6, getattr_setattr_ne _ _ _ _ (by decide)]
    exact hg5_vtd
  have hg7_vtd : getattr c7 "valid_target_dataset" = some (parsedValue s ps_valid_target_dataset) := by
    rw [← hc7, getattr_setattr_ne _ _ _ _ (by decide)]
    exact hg6_vtd
  have hg8_vtd : getattr c8 "valid_target_dataset" = some (parsedValue s ps_valid_target_dataset) := by
    rw [← hc8, getattr_setattr_ne _ _ _ _ (by decide)]
    exact hg7_vtd
  have hg9_vtd : getattr c9 "valid_target_dataset" = some (parsedValue s ps_valid_target_dataset) := by
    rw [← hc9, getattr_setattr_ne _ _ _ _ (by decide)]
    exact hg8_vtd
  have hg10_vtd : getattr c10 "valid_target_dataset" = some (parsedValue s ps_valid_target_dataset) := by
    rw [← hc10, getattr_setattr_ne _ _ _ _ (by decide)]
    exact hg9_vtd
  have hg11_vtd : getattr c11 "valid_target_dataset" = some (parsedValue s ps_valid_target_dataset) := by
    rw [← hc11, getattr_setattr_ne _ _ _ _ (by decide)]
    exact hg10_vtd
  have hg12_vtd : getattr c12 "valid_target_dataset" = some (parsedValue s ps_valid_target_dataset) := by
    rw [← hc12, getattr_setattr_ne _ _ _ _ (by decide)]
    exact hg11_vtd
  have hg13_vtd : getattr c13 "valid_target_dataset" = some (parsedValue s ps_valid_target_dataset) := by
    rw [← hc13, getattr_setattr_ne _ _ _ _ (by decide)]
    exact hg12_vtd
  have hg1_ldw : getattr c1 "dim_word" = Option.none := by
    rw [← hc1, getattr_setattr_ne _ _ _ _ (by decide)]
    exact hP_dim_word
  have hg2_ldw : getattr c2 "dim_word" = Option.none := by
    rw [← hc2, getattr_setattr_ne _ _ _ _ (by decide)]
    exact hg1_ldw
  have hg3_ldw : getattr c3 "dim_word" = Option.none := by
    rw [← hc3, getattr_setattr_ne _ _ _ _ (by decide)]
    exact hg2_ldw
  have hg4_ldw : getattr c4 "dim_word" = Option.none := by
    rw [← hc4, getattr_setattr_ne _ _ _ _ (by decide)]
    exact hg3_ldw
  have hg5_ldw : getattr c5 "dim_word" = Option.none := by
    rw [← hc5, getattr_setattr_ne _ _ _ _ (by decide)]
    exact hg4_ldw
  have hg6_ldw : getattr c6 "dim_word" = Option.none := by
    rw [← hc6, getattr_setattr_ne _ _ _ _ (by decide)]
    exact hg5_ldw
  have hg7_ldw : getattr c7 "dim_word" = Option.none := by
    rw [← hc7, getattr_setattr_ne _ _ _ _ (by decide)]
    exact hg6_ldw
  have hg8_ldw : getattr c8 "dim_word" = Option.none := by
    rw [← hc8, getattr_setattr_ne _ _ _ _ (by decide)]
    exact hg7_ldw
  have hg9_ldw : getattr c9 "dim_word" = Option.none := by
    rw [← hc9, getattr_setattr_ne _ _ _ _ (by decide)]
    exact hg8_ldw
  have hg10_ldw : getattr c10 "dim_word" = Option.none := by
    rw [← hc10, getattr_setattr_ne _ _ _ _ (by decide)]
    exact hg9_ldw
  have hg11_ldw : getattr c11 "dim_word" = Option.none := by
    rw [← hc11, getattr_setattr_ne _ _ _ _ (by decide)]
    exact hg10_ldw
  have hg12_ldw : getattr c12 "dim_word" = Option.none := by
    rw [← hc12, getattr_setattr_ne _ _ _ _ (by decide)]
    exact hg11_ldw
  have hg13_ldw : getattr c13 "dim_word" = Option.none := by
    rw [← hc13, getattr_setattr_ne _ _ _ _ (by decide)]
    exact hg12_ldw
  have hg14_ldw : getattr c14 "dim_word" = Option.none := by
    rw [← hc14, getattr_setattr_ne _ _ _ _ (by decide)]
    exact hg13_ldw
  have hg1_ldim : getattr c1 "dim" = Option.none := by
    rw [← hc1, getattr_setattr_ne _ _ _ _ (by decide)]
    exact hP_dim
  have hg2_ldim : getattr c2 "dim" = Option.none := by
    rw [← hc2, getattr_setattr_ne _ _ _ _ (by decide)]
    exact hg1_ldim
  have hg3_ldim : getattr c3 "dim" = Option.none := by
    rw [← hc3, getattr_setattr_ne _ _ _ _ (by decide)]
    exact hg2_ldim
  have hg4_ldim : getattr c4 "dim" = Option.none := by
    rw [← hc4, getattr_setattr_ne _ _ _ _ (by decide)]
    exact hg3_ldim
  have hg5_ldim : getattr c5 "dim" = Option.none := by
    rw [← hc5, getattr_setattr_ne _ _ _ _ (by decide)]
    exact hg4_ldim
  have hg6_ldim : getattr c6 "dim" = Option.none := by
    rw [← hc6, getattr_setattr_ne _ _ _ _ (by decide)]
    exact hg5_ldim
  have hg7_ldim : getattr c7 "dim" = Option.none := by
    rw [← hc7, getattr_setattr_ne _ _ _ _ (by decide)]
    exact hg6_ldim
  have hg8_ldim : getattr c8 "dim" = Option.none := by
    rw [← hc8, getattr_setattr_ne _ _ _ _ (by decide)]
    exact hg7_ldim
  have hg9_ldim : getattr c9 "dim" = Option.none := by
    rw [← hc9, getattr_setattr_ne _ _ _ _ (by decide)]
    exact hg8_ldim
  have hg10_ldim : getattr c10 "dim" = Option.none := by
    rw [← hc10, getattr_setattr_ne _ _ _ _ (by decide)]
    exact hg9_ldim
  have hg11_ldim : getattr c11 "dim" = Option.none := by
    rw [← hc11, getattr_setattr_ne _ _ _ _ (by decide)]
    exact hg10_ldim
  have hg12_ldim : getattr c12 "dim" = Option.none := by
    rw [← hc12, getattr_setattr_ne _ _ _ _ (by decide)]
    exact hg11_ldim
  have hg13_ldim : getattr c13 "dim" = Option.none := by
    rw [← hc13, getattr_setattr_ne _ _ _ _ (by decide)]
    exact hg12_ldim
  have hg14_ldim : getattr c14 "dim" = Option.none := by
    rw [← hc14, getattr_setattr_ne _ _ _ _ (by decide)]
    exact hg13_ldim
  have hg1_lnw : getattr c1 "n_words" = Option.none := by
    rw [← hc1, getattr_setattr_ne _ _ _ _ (by decide)]
    exact hP_n_words
  have hg2_lnw : getattr c2 "n_words" = Option.none := by
    rw [← hc2, getattr_setattr_ne _ _ _ _ (by decide)]
    exact hg1_lnw
  have hg3_lnw : getattr c3 "n_words" = Option.none := by
    rw [← hc3, getattr_setattr_ne _ _ _ _ (by decide)]
    exact hg2_lnw
  have hg4_lnw : getattr c4 "n_words" = Option.none := by
    rw [← hc4, getattr_setattr_ne _ _ _ _ (by decide)]
    exact hg3_lnw
  have hg5_lnw : getattr c5 "n_words" = Option.none := by
    rw [← hc5, getattr_setattr_ne _ _ _ _ (by decide)]
    exact hg4_lnw
  have hg6_lnw : getattr c6 "n_words" = Option.none := by
    rw [← hc6, getattr_setattr_ne _ _ _ _ (by decide)]
    exact hg5_lnw
  have hg7_lnw : getattr c7 "n_words" = Option.none := by
    rw [← hc7, getattr_setattr_ne _ _ _ _ (by decide)]
    exact hg6_lnw
  have hg8_lnw : getattr c8 "n_words" = Option.none := by
    rw [← hc8, getattr_setattr_ne _ _ _ _ (by decide)]
    exact hg7_lnw
  have hg9_lnw : getattr c9 "n_words" = Option.none := by
    rw [← hc9, getattr_setattr_ne _ _ _ _ (by decide)]
    exact hg8_lnw
  have hg10_lnw : getattr c10 "n_words" = Option.none := by
    rw [← hc10, getattr_setattr_ne _ _ _ _ (by decide)]
    exact hg9_lnw
  have hg11_lnw : getattr c11 "n_words" = Option.none := by
    rw [← hc11, getattr_setattr_ne _ _ _ _ (by decide)]
    exact hg10_lnw
  have hg12_lnw : getattr c12 "n_words" = Option.none := by
    rw [← hc12, getattr_setattr_ne _ _ _ _ (by decide)]
    exact hg11_lnw
  have hg13_lnw : getattr c13 "n_words" = Option.none := by
    rw [← hc13, getattr_setattr_ne _ _ _ _ (by decide)]
    exact hg12_lnw
  have hg14_lnw : getattr c14 "n_words" = Option.none := by
    rw [← hc14, getattr_setattr_ne _ _ _ _ (by decide)]
    exact hg13_lnw
  have hg1_lln : getattr c1 "layer_normalisation" = Option.none := by
    rw [← hc1, getattr_setattr_ne _ _ _ _ (by decide)]
    exact hP_layer_norm
  have hg2_lln : getattr c2 "layer_normalisation" = Option.none := by
    rw [← hc2, getattr_setattr_ne _ _ _ _ (by decide)]
    exact hg1_lln
  have hg3_lln : getattr c3 "layer_normalisation" = Option.none := by
    rw [← hc3, getattr_setattr_ne _ _ _ _ (by decide)]
    exact hg2_lln
  have hg4_lln : getattr c4 "layer_normalisation" = Option.none := by
    rw [← hc4, getattr_setattr_ne _ _ _ _ (by decide)]
    exact hg3_lln
  have hg5_lln : getattr c5 "layer_normalisation" = Option.none := by
    rw [← hc5, getattr_setattr_ne _ _ _ _ (by decide)]
    exact hg4_lln
  have hg6_lln : getattr c6 "layer_normalisation" = Option.none := by
    rw [← hc6, getattr_setattr_ne _ _ _ _ (by decide)]
    exact hg5_lln
  have hg7_lln : getattr c7 "layer_normalisation" = Option.none := by
    rw [← hc7, getattr_setattr_ne _ _ _ _ (by decide)]
    exact hg6_lln
  have hg8_lln : getattr c8 "layer_normalisation" = Option.none := by
    rw [← hc8, getattr_setattr_ne _ _ _ _ (by decide)]
    exact hg7_lln
  have hg9_lln : getattr c9 "layer_normalisation" = Option.none := by
    rw [← hc9, getattr_setattr_ne _ _ _ _ (by decide)]
    exact hg8_lln
  have hg10_lln : getattr c10 "layer_normalisation" = Option.none := by
    rw [← hc10, getattr_setattr_ne _ _ _ _ (by decide)]
    exact hg9_lln
  have hg11_lln : getattr c11 "layer_normalisation" = Option.none := by
    rw [← hc11, getattr_setattr_ne _ _ _ _ (by decide)]
    exact hg10_lln
  have hg12_lln : getattr c12 "layer_normalisation" = Option.none := by
    rw [← hc12, getattr_setattr_ne _ _ _ _ (by decide)]
    exact hg11_lln
  have hg13_lln : getattr c13 "layer_normalisation" = Option.none := by
    rw [← hc13, getattr_setattr_ne _ _ _ _ (by decide)]
    exact hg12_lln
  have hg14_lln : getattr c14 "layer_normalisation" = Option.none := by
    rw [← hc14, getattr_setattr_ne _ _ _ _ (by decide)]
    exact hg13_lln
  have hg1_llr : getattr c1 "lrate" = Option.none := by
    rw [← hc1, getattr_setattr_ne _ _ _ _ (by decide)]
    exact hP_lrate
  have hg2_llr : getattr c2 "lrate" = Option.none := by
    rw [← hc2, getattr_setattr_ne _ _ _ _ (by decide)]
    exact hg1_llr
  have hg3_llr : getattr c3 "lrate" = Option.none := by
    rw [← hc3, getattr_setattr_ne _ _ _ _ (by decide)]
    exact hg2_llr
  have hg4_llr : getattr c4 "lrate" = Option.none := by
    rw [← hc4, getattr_setattr_ne _ _ _ _ (by decide)]
    exact hg3_llr
  have hg5_llr : getattr c5 "lrate" = Option.none := by
    rw [← hc5, getattr_setattr_ne _ _ _ _ (by decide)]
    exact hg4_llr
  have hg6_llr : getattr c6 "lrate" = Option.none := by
    rw [← hc6, getattr_setattr_ne _ _ _ _ (by decide)]
    exact hg5_llr
  have hg7_llr : getattr c7 "lrate" = Option.none := by
    rw [← hc7, getattr_setattr_ne _ _ _ _ (by decide)]
    exact hg6_llr
  have hg8_llr : getattr c8 "lrate" = Option.none := by
    rw [← hc8, getattr_setattr_ne _ _ _ _ (by decide)]
    exact hg7_llr
  have hg9_llr : getattr c9 "lrate" = Option.none := by
    rw [← hc9, getattr_setattr_ne _ _ _ _ (by decide)]
    exact hg8_llr
  have hg10_llr : getattr c10 "lrate" = Option.none := by
    rw [← hc10, getattr_setattr_ne _ _ _ _ (by decide)]
    exact hg9_llr
  have hg11_llr : getattr c11 "lrate" = Option.none := by
    rw [← hc11, getattr_setattr_ne _ _ _ _ (by decide)]
    exact hg10_llr
  have hg12_llr : getattr c12 "lrate" = Option.none := by
    rw [← hc12, getattr_setattr_ne _ _ _ _ (by decide)]
    exact hg11_llr
  have hg13_llr : getattr c13 "lrate" = Option.none := by
    rw [← hc13, getattr_setattr_ne _ _ _ _ (by decide)]
    exact hg12_llr
  have hg14_llr : getattr c14 "lrate" = Option.none := by
    rw [← hc14, getattr_setattr_ne _ _ _ _ (by decide)]
    exact hg13_llr
  -- the value each derivation wrote, carried up the chain
  have hs1_1 : getattr c1 "model_version" = some v1 := by
    rw [← hc1]
    exact getattr_setattr_self _ _ _
  have hs2_1 : getattr c2 "model_version" = some v1 := by
    rw [← hc2, getattr_setattr_ne _ _ _ _ (by decide)]
    exact hs1_1
  have hs3_1 : getattr c3 "model_version" = some v1 := by
    rw [← hc3, getattr_setattr_ne _ _ _ _ (by decide)]
    exact hs2_1
  have hs4_1 : getattr c4 "model_version" = some v1 := by
    rw [← hc4, getattr_setattr_ne _ _ _ _ (by decide)]
    exact hs3_1
  have hs5_1 : getattr c5 "model_version" = some v1 := by
    rw [← hc5, getattr_setattr_ne _ _ _ _ (by decide)]
    exact hs4_1
  have hs6_1 : getattr c6 "model_version" = some v1 := by
    rw [← hc6, getattr_setattr_ne _ _ _ _ (by decide)]
    exact hs5_1
  have hs7_1 : getattr c7 "model_version" = some v1 := by
    rw [← hc7, getattr_setattr_ne _ _ _ _ (by decide)]
    exact hs6_1
  have hs8_1 : getattr c8 "model_version" = some v1 := by
    rw [← hc8, getattr_setattr_ne _ _ _ _ (by decide)]
    exact hs7_1
  have hs9_1 : getattr c9 "model_version" = some v1 := by
    rw [← hc9, getattr_setattr_ne _ _ _ _ (by decide)]
    exact hs8_1
  have hs10_1 : getattr c10 "model_version" = some v1 := by
    rw [← hc10, getattr_setattr_ne _ _ _ _ (by decide)]
    exact hs9_1
  have hs11_1 : getattr c11 "model_version" = some v1 := by
    rw [← hc11, getattr_setattr_ne _ _ _ _ (by decide)]
    exact hs10_1
  have hs12_1 : getattr c12 "model_version" = some v1 := by
    rw [← hc12, getattr_setattr_ne _ _ _ _ (by decide)]
    exact hs11_1
  have hs13_1 : getattr c13 "model_version" = some v1 := by
    rw [← hc13, getattr_setattr_ne _ _ _ _ (by decide)]
    exact hs12_1
  have hs14_1 : getattr c14 "model_version" = some v1 := by
    rw [← hc14, getattr_setattr_ne _ _ _ _ (by decide)]
    exact hs13_1
  have hs2_2 : getattr c2 "theano_compat" = some v2 := by
    rw [← hc2]
    exact getattr_setattr_self _ _ _
  have hs3_2 : getattr c3 "theano_compat" = some v2 := by
    rw [← hc3, getattr_setattr_ne _ _ _ _ (by decide)]
    exact hs2_2
  have hs4_2 : getattr c4 "theano_compat" = some v2 := by
    rw [← hc4, getattr_setattr_ne _ _ _ _ (by decide)]
    exact hs3_2
  have hs5_2 : getattr c5 "theano_compat" = some v2 := by
    rw [← hc5, getattr_setattr_ne _ _ _ _ (by decide)]
    exact hs4_2
  have hs6_2 : getattr c6 "theano_compat" = some v2 := by
    rw [← hc6, getattr_setattr_ne _ _ _ _ (by decide)]
    exact hs5_2
  have hs7_2 : getattr c7 "theano_compat" = some v2 := by
    rw [← hc7, getattr_setattr_ne _ _ _ _ (by decide)]
    exact hs6_2
  have hs8_2 : getattr c8 "theano_compat" = some v2 := by
    rw [← hc8, getattr_setattr_ne _ _ _ _ (by decide)]
    exact hs7_2
  have hs9_2 : getattr c9 "theano_compat" = some v2 := by
    rw [← hc9, getattr_setattr_ne _ _ _ _ (by decide)]
    exact hs8_2
  have hs10_2 : getattr c10 "theano_compat" = some v2 := by
    rw [← hc10, getattr_setattr_ne _ _ _ _ (by decide)]
    exact hs9_2
  have hs11_2 : getattr c11 "theano_compat" = some v2 := by
    rw [← hc11, getattr_setattr_ne _ _ _ _ (by decide)]
    exact hs10_2
  have hs12_2 : getattr c12 "theano_compat" = some v2 := by
    rw [← hc12, getattr_setattr_ne _ _ _ _ (by decide)]
    exact hs11_2
  have hs13_2 : getattr c13 "theano_compat" = some v2 := by
    rw [← hc13, getattr_setattr_ne _ _ _ _ (by decide)]
    exact hs12_2
  have hs14_2 : getattr c14 "theano_compat" = some v2 := by
    rw [← hc14, getattr_setattr_ne _ _ _ _ (by decide)]
    exact hs13_2
  have hs3_3 : getattr c3 "source_dicts" = some v3 := by
    rw [← hc3]
    exact getattr_setattr_self _ _ _
  have hs4_3 : getattr c4 "source_dicts" = some v3 := by
    rw [← hc4, getattr_setattr_ne _ _ _ _ (by decide)]
    exact hs3_3
  have hs5_3 : getattr c5 "source_dicts" = some v3 := by
    rw [← hc5, getattr_setattr_ne _ _ _ _ (by decide)]
    exact hs4_3
  have hs6_3 : getattr c6 "source_dicts" = some v3 := by
    rw [← hc6, getattr_setattr_ne _ _ _ _ (by decide)]
    exact hs5_3
  have hs7_3 : getattr c7 "source_dicts" = some v3 := by
    rw [← hc7, getattr_setattr_ne _ _ _ _ (by decide)]
    exact hs6_3
  have hs8_3 : getattr c8 "source_dicts" = some v3 := by
    rw [← hc8, getattr_setattr_ne _ _ _ _ (by decide)]
    exact hs7_3
  have hs9_3 : getattr c9 "source_dicts" = some v3 := by
    rw [← hc9, getattr_setattr_ne _ _ _ _ (by decide)]
    exact hs8_3
  have hs10_3 : getattr c10 "source_dicts" = some v3 := by
    rw [← hc10, getattr_setattr_ne _ _ _ _ (by decide)]
    exact hs9_3
  have hs11_3 : getattr c11 "source_dicts" = some v3 := by
    rw [← hc11, getattr_setattr_ne _ _ _ _ (by decide)]
    exact hs10_3
  have hs12_3 : getattr c12 "source_dicts" = some v3 := by
    rw [← hc12, getattr_setattr_ne _ _ _ _ (by decide)]
    exact hs11_3
  have hs13_3 : getattr c13 "source_dicts" = some v3 := by
    rw [← hc13, getattr_setattr_ne _ _ _ _ (by decide)]
    exact hs12_3
  have hs14_3 : getattr c14 "source_dicts" = some v3 := by
    rw [← hc14, getattr_setattr_ne _ _ _ _ (by decide)]
    exact hs13_3
  have hs4_4 : getattr c4 "target_dict" = some v4 := by
    rw [← hc4]
    exact getattr_setattr_self _ _ _
  have hs5_4 : getattr c5 "target_dict" = some v4 := by
    rw [← hc5, getattr_setattr_ne _ _ _ _ (by decide)]
    exact hs4_4
  have hs6_4 : getattr c6 "target_dict" = some v4 := by
    rw [← hc6, getattr_setattr_ne _ _ _ _ (by decide)]
    exact hs5_4
  have hs7_4 : getattr c7 "target_dict" = some v4 := by
    rw [← hc7, getattr_setattr_ne _ _ _ _ (by decide)]
    exact hs6_4
  have hs8_4 : getattr c8 "target_dict" = some v4 := by
    rw [← hc8, getattr_setattr_ne _ _ _ _ (by decide)]
    exact hs7_4
  have hs9_4 : getattr c9 "target_dict" = some v4 := by
    rw [← hc9, getattr_setattr_ne _ _ _ _ (by decide)]
    exact hs8_4
  have hs10_4 : getattr c10 "target_dict" = some v4 := by
    rw [← hc10, getattr_setattr_ne _ _ _ _ (by decide)]
    exact hs9_4
  have hs11_4 : getattr c11 "target_dict" = some v4 := by
    rw [← hc11, getattr_setattr_ne _ _ _ _ (by decide)]
    exact hs10_4
  have hs12_4 : getattr c12 "target_dict" = some v4 := by
    rw [← hc12, getattr_setattr_ne _ _ _ _ (by decide)]
    exact hs11_4
  have hs13_4 : getattr c13 "target_dict" = some v4 := by
    rw [← hc13, getattr_setattr_ne _ _ _ _ (by decide)]
    exact hs12_4
  have hs14_4 : getattr c14 "target_dict" = some v4 := by
    rw [← hc14, getattr_setattr_ne _ _ _ _ (by decide)]
    exact hs13_4
  have hs5_5 : getattr c5 "target_embedding_size" = some v5 := by
    rw [← hc5]
    exact getattr_setattr_self _ _ _
  have hs6_5 : getattr c6 "target_embedding_size" = some v5 := by
    rw [← hc6, getattr_setattr_ne _ _ _ _ (by decide)]
    exact hs5_5
  have hs7_5 : getattr c7 "target_embedding_size" = some v5 := by
    rw [← hc7, getattr_setattr_ne _ _ _ _ (by decide)]
    exact hs6_5
  have hs8_5 : getattr c8 "target_embedding_size" = some v5 := by
    rw [← hc8, getattr_setattr_ne _ _ _ _ (by decide)]
    exact hs7_5
  have hs9_5 : getattr c9 "target_embedding_size" = some v5 := by
    rw [← hc9, getattr_setattr_ne _ _ _ _ (by decide)]
    exact hs8_5
  have hs10_5 : getattr c10 "target_embedding_size" = some v5 := by
    rw [← hc10, getattr_setattr_ne _ _ _ _ (by decide)]
    exact hs9_5
  have hs11_5 : getattr c11 "target_embedding_size" = some v5 := by
    rw [← hc11, getattr_setattr_ne _ _ _ _ (by decide)]
    exact hs10_5
  have hs12_5 : getattr c12 "target_embedding_size" = some v5 := by
    rw [← hc12, getattr_setattr_ne _ _ _ _ (by decide)]
    exact hs11_5
  have hs13_5 : getattr c13 "target_embedding_size" = some v5 := by
    rw [← hc13, getattr_setattr_ne _ _ _ _ (by decide)]
    exact hs12_5
  have hs14_5 : getattr c14 "target_embedding_size" = some v5 := by
    rw [← hc14, getattr_setattr_ne _ _ _ _ (by decide)]
    exact hs13_5
  have hs6_6 : getattr c6 "source_dataset" = some v6 := by
    rw [← hc6]
    exact getattr_setattr_self _ _ _
  have hs7_6 : getattr c7 "source_dataset" = some v6 := by
    rw [← hc7, getattr_setattr_ne _ _ _ _ (by decide)]
    exact hs6_6
  have hs8_6 : getattr c8 "source_dataset" = some v6 := by
    rw [← hc8, getattr_setattr_ne _ _ _ _ (by decide)]
    exact hs7_6
  have hs9_6 : getattr c9 "source_dataset" = some v6 := by
    rw [← hc9, getattr_setattr_ne _ _ _ _ (by decide)]
    exact hs8_6
  have hs10_6 : getattr c10 "source_dataset" = some v6 := by
    rw [← hc10, getattr_setattr_ne _ _ _ _ (by decide)]
    exact hs9_6
  have hs11_6 : getattr c11 "source_dataset" = some v6 := by
    rw [← hc11, getattr_setattr_ne _ _ _ _ (by decide)]
    exact hs10_6
  have hs12_6 : getattr c12 "source_dataset" = some v6 := by
    rw [← hc12, getattr_setattr_ne _ _ _ _ (by decide)]
    exact hs11_6
  have hs13_6 : getattr c13 "source_dataset" = some v6 := by
    rw [← hc13, getattr_setattr_ne _ _ _ _ (by decide)]
    exact hs12_6
  have hs14_6 : getattr c14 "source_dataset" = some v6 := by
    rw [← hc14, getattr_setattr_ne _ _ _ _ (by decide)]
    exact hs13_6
  have hs7_7 : getattr c7 "target_dataset" = some v7 := by
    rw [← hc7]
    exact getattr_setattr_self _ _ _
  have hs8_7 : getattr c8 "target_dataset" = some v7 := by
    rw [← hc8, getattr_setattr_ne _ _ _ _ (by decide)]
    exact hs7_7
  have hs9_7 : getattr c9 "target_dataset" = some v7 := by
    rw [← hc9, getattr_setattr_ne _ _ _ _ (by decide)]
    exact hs8_7
  have hs10_7 : getattr c10 "target_dataset" = some v7 := by
    rw [← hc10, getattr_setattr_ne _ _ _ _ (by decide)]
    exact hs9_7
  have hs11_7 : getattr c11 "target_dataset" = some v7 := by
    rw [← hc11, getattr_setattr_ne _ _ _ _ (by decide)]
    exact hs10_7
  have hs12_7 : getattr c12 "target_dataset" = some v7 := by
    rw [← hc12, getattr_setattr_ne _ _ _ _ (by decide)]
    exact hs11_7
  have hs13_7 : getattr c13 "target_dataset" = some v7 := by
    rw [← hc13, getattr_setattr_ne _ _ _ _ (by decide)]
    exact hs12_7
  have hs14_7 : getattr c14 "target_dataset" = some v7 := by
    rw [← hc14, getattr_setattr_ne _ _ _ _ (by decide)]
    exact hs13_7
  have hs8_8 : getattr c8 "source_vocab_sizes" = some v8 := by
    rw [← hc8]
    exact getattr_setattr_self _ _ _
  have hs9_8 : getattr c9 "source_vocab_sizes" = some v8 := by
    rw [← hc9, getattr_setattr_ne _ _ _ _ (by decide)]
    exact hs8_8
  have hs10_8 : getattr c10 "source_vocab_sizes" = some v8 := by
    rw [← hc10, getattr_setattr_ne _ _ _ _ (by decide)]
    exact hs9_8
  have hs11_8 : getattr c11 "source_vocab_sizes" = some v8 := by
    rw [← hc11, getattr_setattr_ne _ _ _ _ (by decide)]
    exact hs10_8
  have hs12_8 : getattr c12 "source_vocab_sizes" = some v8 := by
    rw [← hc12, getattr_setattr_ne _ _ _ _ (by decide)]
    exact hs11_8
  have hs13_8 : getattr c13 "source_vocab_sizes" = some v8 := by
    rw [← hc13, getattr_setattr_ne _ _ _ _ (by decide)]
    exact hs12_8
  have hs14_8 : getattr c14 "source_vocab_sizes" = some v8 := by
    rw [← hc14, getattr_setattr_ne _ _ _ _ (by decide)]
    exact hs13_8
  have hs9_9 : getattr c9 "target_vocab_size" = some v9 := by
    rw [← hc9]
    exact getattr_setattr_self _ _ _
  have hs10_9 : getattr c10 "target_vocab_size" = some v9 := by
    rw [← hc10, getattr_setattr_ne _ _ _ _ (by decide)]
    exact hs9_9
  have hs11_9 : getattr c11 "target_vocab_size" = some v9 := by
    rw [← hc11, getattr_setattr_ne _ _ _ _ (by decide)]
    exact hs10_9
  have hs12_9 : getattr c12 "target_vocab_size" = some v9 := by
    rw [← hc12, getattr_setattr_ne _ _ _ _ (by decide)]
    exact hs11_9
  have hs13_9 : getattr c13 "target_vocab_size" = some v9 := by
    rw [← hc13, getattr_setattr_ne _ _ _ _ (by decide)]
    exact hs12_9
  have hs14_9 : getattr c14 "target_vocab_size" = some v9 := by
    rw [← hc14, getattr_setattr_ne _ _ _ _ (by decide)]
    exact hs13_9
  have hs10_10 : getattr c10 "dim_per_factor" = some v10 := by
    rw [← hc10]
    exact getattr_setattr_self _ _ _
  have hs11_10 : getattr c11 "dim_per_factor" = some v10 := by
    rw [← hc11, getattr_setattr_ne _ _ _ _ (by decide)]
    exact hs10_10
  have hs12_10 : getattr c12 "dim_per_factor" = some v10 := by
    rw [← hc12, getattr_setattr_ne _ _ _ _ (by decide)]
    exact hs11_10
  have hs13_10 : getattr c13 "dim_per_factor" = some v10 := by
    rw [← hc13, getattr_setattr_ne _ _ _ _ (by decide)]
    exact hs12_10
  have hs14_10 : getattr c14 "dim_per_factor" = some v10 := by
    rw [← hc14, getattr_setattr_ne _ _ _ _ (by decide)]
    exact hs13_10
  have hs11_11 : getattr c11 "dropout_embedding" = some v11 := by
    rw [← hc11]
    exact getattr_setattr_self _ _ _
  have hs12_11 : getattr c12 "dropout_embedding" = some v11 := by
    rw [← hc12, getattr_setattr_ne _ _ _ _ (by decide)]
    exact hs11_11
  have hs13_11 : getattr c13 "dropout_embedding" = some v11 := by
    rw [← hc13, getattr_setattr_ne _ _ _ _ (by decide)]
    exact hs12_11
  have hs14_11 : getattr c14 "dropout_embedding" = some v11 := by
    rw [← hc14, getattr_setattr_ne _ _ _ _ (by decide)]
    exact hs13_11
  have hs12_12 : getattr c12 "dropout_hidden" = some v12 := by
    rw [← hc12]
    exact getattr_setattr_self _ _ _
  have hs13_12 : getattr c13 "dropout_hidden" = some v12 := by
    rw [← hc13, getattr_setattr_ne _ _ _ _ (by decide)]
    exact hs12_12
  have hs14_12 : getattr c14 "dropout_hidden" = some v12 := by
    rw [← hc14, getattr_setattr_ne _ _ _ _ (by decide)]
    exact hs13_12
  have hs13_13 : getattr c13 "valid_source_dataset" = some v13 := by
    rw [← hc13]
    exact getattr_setattr_self _ _ _
  have hs14_13 : getattr c14 "valid_source_dataset" = some v13 := by
    rw [← hc14, getattr_setattr_ne _ _ _ _ (by decide)]
    exact hs13_13
  have hs14_14 : getattr c14 "valid_target_dataset" = some v14 := by
    rw [← hc14]
    exact getattr_setattr_self _ _ _
  -- what each derivation step produced
  have hv1c : v1 = PyValue.float (1/5) := by
    rw [show derive_model_version env (parseNamespace s)
      { from_cmdline := true, from_theano := false } =
        Except.ok (PyValue.float (1/5)) from by simp [derive_model_version]] at hv1
    injection hv1 with hv1
    exact hv1.symm
  have hv2c : v2 = PyValue.bool false := by
    rw [derive_theano_compat_eval] at hv2
    injection hv2 with hv2
    exact hv2.symm
  have hv3c : v3 = PyValue.list (slst.map PyValue.str).dropLast := by
    rw [derive_source_dicts_eval hg2_dicts] at hv3
    injection hv3 with hv3
    exact hv3.symm
  have hv4c : v4 = lastv := by
    rw [derive_target_dict_eval hg3_dicts hlast] at hv4
    injection hv4 with hv4
    exact hv4.symm
  have hv5c : (tb = false ∧ v5 = PyValue.int e0) ∨
      (tb = true ∧ ¬ 1 < k0 ∧ v5 = PyValue.int e0) ∨
      (tb = true ∧ 1 < k0 ∧ ∃ d0 dl0, dopt = some (d0 :: dl0) ∧
        v5 = PyValue.int d0) := by
    cases tb with
    | false =>
        left
        refine ⟨rfl, ?_⟩
        rw [derive_tes_untied hg4_emb hg4_tie] at hv5
        injection hv5 with hv5
        exact hv5.symm
    | true =>
        by_cases hkk : 1 < k0
        · right
          right
          refine ⟨rfl, hkk, ?_⟩
          rcases Option.eq_none_or_eq_some dopt with hdo | ⟨dl, hdo⟩
          · rw [hdo] at hg4_dpf
            rw [derive_tes_tied_none_fails hg4_emb hg4_tie hg4_fac hkk hg4_dpf] at hv5
            cases hv5
          · have hdlne := hdopt_ne dl hdo
            cases dl with
            | nil => exact absurd rfl hdlne
            | cons d0 ds0 =>
                rw [hdo] at hg4_dpf
                rw [derive_tes_tied_big hg4_emb hg4_tie hg4_fac hkk hg4_dpf] at hv5
                injection hv5 with hv5
                exact ⟨d0, ds0, hdo, hv5.symm⟩
        · right
          left
          refine ⟨rfl, hkk, ?_⟩
          rw [derive_tes_tied_small hg4_emb hg4_tie hg4_fac hkk] at hv5
          injection hv5 with hv5
          exact hv5.symm
  have hv6nn : v6.isNone = false :=
    derive_sd_ok_notnone hg5_sd hsh_sd hg5_ds hsh_ds hv6
  have hv7nn : v7.isNone = false :=
    derive_td_ok_notnone hg6_td hsh_td hg6_ds hsh_ds hv7
  obtain ⟨l8, hv8l, hv8len⟩ :=
    derive_svs_cmdline_shape hg7_svs hsh_svs hg7_fac hg7_nw hg7_svz hk0nn hv8
  have hv9c := derive_tvs_eval hg8_tvs hg8_dicts hlast hv9
  have hv10c : (∀ dl, dopt = some dl → v10 = pyOptIntList (some dl)) ∧
      v10.isNone = false := by
    rcases Option.eq_none_or_eq_some dopt with hdo | ⟨dl, hdo⟩
    · have hfac1 : k0 = 1 := hk0_of_none hdo
      rw [hdo] at hg9_dpf
      rw [hfac1] at hg9_fac
      rw [derive_dpf_default hg9_dpf hg9_fac hg9_emb] at hv10
      injection hv10 with hv10
      constructor
      · intro dl2 hdl2
        rw [hdo] at hdl2
        exact Option.noConfusion hdl2
      · rw [← hv10]
        rfl
    · rw [hdo] at hg9_dpf
      rw [derive_dim_per_factor_stored hg9_dpf rfl] at hv10
      injection hv10 with hv10
      constructor
      · intro dl2 hdl2
        rw [hdo] at hdl2
        injection hdl2 with e2
        rw [← e2, ← hv10]
      · rw [← hv10]
        rfl
  have hv11nn : v11.isNone = false := by
    rcases hsh_de with hd | ⟨q, hq⟩
    · rw [hd] at hg10_de
      rw [derive_de_default hg10_de] at hv11
      injection hv11 with hv11
      rw [← hv11]
      rfl
    · rw [hq] at hg10_de
      rw [derive_dropout_embedding_stored hg10_de rfl] at hv11
      injection hv11 with hv11
      rw [← hv11]
      rfl
  have hv12nn : v12.isNone = false := by
    rcases hsh_dh with hd | ⟨q, hq⟩
    · rw [hd] at hg11_dh
      rw [derive_dh_default hg11_dh] at hv12
      injection hv12 with hv12
      rw [← hv12]
      rfl
    · rw [hq] at hg11_dh
      rw [derive_dropout_hidden_stored hg11_dh rfl] at hv12
      injection hv12 with hv12
      rw [← hv12]
      rfl
  have hv13nn : v13.isNone = false :=
    derive_vsd_ok_notnone hg12_vsd hsh_vsd hg12_vds hsh_vds hv13
  have hv14nn : v14.isNone = false :=
    derive_vtd_ok_notnone hg13_vtd hsh_vtd hg13_vds hsh_vds hv14
  -- the loader reproduces the derived configuration unchanged
  rw [← hc]
  have hE : hasattr c14 "embedding_size" = true := by
    simp [hasattr, hg14_emb]
  have hmig : migrate_legacy_names allParams c14 = Except.ok c14 := by
    have m1 : migrate_one c14 "embedding_size" "dim_word" = Except.ok c14 := by
      simp [migrate_one, hasattr, hg14_ldw]
    have m2 : migrate_one c14 "state_size" "dim" = Except.ok c14 := by
      simp [migrate_one, hasattr, hg14_ldim]
    have m3 : migrate_one c14 "target_vocab_size" "n_words" = Except.ok c14 := by
      simp [migrate_one, hasattr, hg14_lnw]
    have m4 : migrate_one c14 "use_layer_norm" "layer_normalisation" = Except.ok c14 := by
      simp [migrate_one, hasattr, hg14_lln]
    have m5 : migrate_one c14 "learning_rate" "lrate" = Except.ok c14 := by
      simp [migrate_one, hasattr, hg14_llr]
    rw [migrate_allParams, m1]
    simp only [exceptOkBind]
    rw [m2]
    simp only [exceptOkBind]
    rw [m3]
    simp only [exceptOkBind]
    rw [m4]
    simp only [exceptOkBind]
    rw [m5]
  have hfillid : fill_missing allParams c14 = c14 := by
    apply fill_missing_id
    intro ps hmem
    rw [← hc14]
    apply hasattr_setattr_mono
    rw [← hc13]
    apply hasattr_setattr_mono
    rw [← hc12]
    apply hasattr_setattr_mono
    rw [← hc11]
    apply hasattr_setattr_mono
    rw [← hc10]
    apply hasattr_setattr_mono
    rw [← hc9]
    apply hasattr_setattr_mono
    rw [← hc8]
    apply hasattr_setattr_mono
    rw [← hc7]
    apply hasattr_setattr_mono
    rw [← hc6]
    apply hasattr_setattr_mono
    rw [← hc5]
    apply hasattr_setattr_mono
    rw [← hc4]
    apply hasattr_setattr_mono
    rw [← hc3]
    apply hasattr_setattr_mono
    rw [← hc2]
    apply hasattr_setattr_mono
    rw [← hc1]
    apply hasattr_setattr_mono
    exact hasattr_parseNamespace s hmem
  have r1 : derive_model_version env c14
      { from_cmdline := false, from_theano := false } = Except.ok v1 := by
    apply derive_model_version_stored rfl hs14_1
    rw [hv1c]
    rfl
  have r2 : derive_theano_compat env c14
      { from_cmdline := false, from_theano := false } = Except.ok v2 := by
    rw [derive_theano_compat_eval, hv2c]
  have r3 : derive_source_dicts env c14
      { from_cmdline := false, from_theano := false } = Except.ok v3 := by
    rw [derive_source_dicts_eval hg14_dicts, hv3c]
  have r4 : derive_target_dict env c14
      { from_cmdline := false, from_theano := false } = Except.ok v4 := by
    rw [derive_target_dict_eval hg14_dicts hlast, hv4c]
  have r5 : derive_target_embedding_size env c14
      { from_cmdline := false, from_theano := false } = Except.ok v5 := by
    rcases hv5c with ⟨htb, hv5e⟩ | ⟨htb, hkk, hv5e⟩ | ⟨htb, hkk, d0, dl0, hdo5, hv5e⟩
    · rw [htb] at hg14_tie
      rw [derive_tes_untied hg14_emb hg14_tie, hv5e]
    · rw [htb] at hg14_tie
      rw [derive_tes_tied_small hg14_emb hg14_tie hg14_fac hkk, hv5e]
    · rw [htb] at hg14_tie
      have hdpf14 : getattr c14 "dim_per_factor" =
          some (PyValue.list (PyValue.int d0 :: List.map PyValue.int dl0)) := by
        rw [hs14_10, hv10c.1 _ hdo5]
        rfl
      rw [derive_tes_tied_big hg14_emb hg14_tie hg14_fac hkk hdpf14, hv5e]
  have r6 : derive_source_dataset env c14
      { from_cmdline := false, from_theano := false } = Except.ok v6 :=
    derive_source_dataset_stored hs14_6 hv6nn
  have r7 : derive_target_dataset env c14
      { from_cmdline := false, from_theano := false } = Except.ok v7 :=
    derive_target_dataset_stored hs14_7 hv7nn
  have r8 : derive_source_vocab_sizes env c14
      { from_cmdline := false, from_theano := false } = Except.ok v8 := by
    have hsvs14 : getattr c14 "source_vocab_sizes" = some (PyValue.list l8) := by
      rw [hs14_8, hv8l]
    rw [derive_svs_case1 hsvs14 hg14_fac hv8len, hv8l]
  have r9 : derive_target_vocab_size env c14
      { from_cmdline := false, from_theano := false } = Except.ok v9 := by
    rcases hv9c with ⟨hpe, hv9e⟩ | ⟨ht00, sz, hdet, hv9e⟩
    · apply derive_target_vocab_size_stored hs14_9
      rw [hv9e]
      exact hpe
    · by_cases hsz : sz = -1
      · subst hsz
        rw [hv9e] at hs14_9 ⊢
        exact derive_target_vocab_size_refill hs14_9 hg14_dicts hlast hdet
      · apply derive_target_vocab_size_stored hs14_9
        rw [hv9e]
        simp [pyEq, hsz]
  have r10 : derive_dim_per_factor env c14
      { from_cmdline := false, from_theano := false } = Except.ok v10 :=
    derive_dim_per_factor_stored hs14_10 hv10c.2
  have r11 : derive_dropout_embedding env c14
      { from_cmdline := false, from_theano := false } = Except.ok v11 :=
    derive_dropout_embedding_stored hs14_11 hv11nn
  have r12 : derive_dropout_hidden env c14
      { from_cmdline := false, from_theano := false } = Except.ok v12 :=
    derive_dropout_hidden_stored hs14_12 hv12nn
  have r13 : derive_valid_source_dataset env c14
      { from_cmdline := false, from_theano := false } = Except.ok v13 :=
    derive_valid_source_dataset_stored hs14_13 hv13nn
  have r14 : derive_valid_target_dataset env c14
      { from_cmdline := false, from_theano := false } = Except.ok v14 :=
    derive_valid_target_dataset_stored hs14_14 hv14nn
  have hrun : run_derivations env { from_cmdline := false, from_theano := false }
      allParams c14 = Except.ok c14 := by
    rw [run_derivations_allParams]
    refine exceptBindOkIntro r1 ?_
    beta_reduce
    rw [setattr_self _ _ _ hs14_1]
    refine exceptBindOkIntro r2 ?_
    beta_reduce
    rw [setattr_self _ _ _ hs14_2]
    refine exceptBindOkIntro r3 ?_
    beta_reduce
    rw [setattr_self _ _ _ hs14_3]
    refine exceptBindOkIntro r4 ?_
    beta_reduce
    rw [setattr_self _ _ _ hs14_4]
    refine exceptBindOkIntro r5 ?_
    beta_reduce
    rw [setattr_self _ _ _ hs14_5]
    refine exceptBindOkIntro r6 ?_
    beta_reduce
    rw [setattr_self _ _ _ hs14_6]
    refine exceptBindOkIntro r7 ?_
    beta_reduce
    rw [setattr_self _ _ _ hs14_7]
    refine exceptBindOkIntro r8 ?_
    beta_reduce
    rw [setattr_self _ _ _ hs14_8]
    refine exceptBindOkIntro r9 ?_
    beta_reduce
    rw [setattr_self _ _ _ hs14_9]
    refine exceptBindOkIntro r10 ?_
    beta_reduce
    rw [setattr_self _ _ _ hs14_10]
    refine exceptBindOkIntro r11 ?_
    beta_reduce
    rw [setattr_self _ _ _ hs14_11]
    refine exceptBindOkIntro r12 ?_
    beta_reduce
    rw [setattr_self _ _ _ hs14_12]
    refine exceptBindOkIntro r13 ?_
    beta_reduce
    rw [setattr_self _ _ _ hs14_13]
    refine exceptBindOkIntro r14 ?_
    beta_reduce
    rw [setattr_self _ _ _ hs14_14]
  exact load_config_roundtrip_assemble hE hmig hfillid hrun

def readOrNil (env : Env) (s : Cmdline) : Config :=
  match read_config_from_cmdline env s with
  | Except.ok c => c
  | Except.error _ => []

def c2_cmdline : Cmdline :=
  [("source_dataset", PyValue.str "A"), ("target_dataset", PyValue.str "B"),
   ("dictionaries", PyValue.list [PyValue.str "D1", PyValue.str "D2"]),
   ("valid_source_dataset", PyValue.str "V"),
   ("valid_target_dataset", PyValue.str "W")]

theorem C2_cmdline_file_roundtrip_witness :
    read_config_from_cmdline c7_env c2_cmdline =
      Except.ok (readOrNil c7_env c2_cmdline) ∧
    load_config_from_json_file c7_env (some (readOrNil c7_env c2_cmdline)) =
      Except.ok (readOrNil c7_env c2_cmdline) :=
  ⟨rfl, C2_cmdline_file_roundtrip c7_env c2_cmdline _ rfl⟩
